import Mathlib

/-!
# AVR 16-bit timer (hw/timer/avr_timer16.c): shallow embedding

The device state of the C code is a record of machine integers.  Every
`uint8_t` field is a natural number below 256 and every `uint64_t` field a
natural number below 2^64 (predicate `WF`); arithmetic is written with the
explicit wrap-around of the C types.  The virtual clock
`qemu_clock_get_ns(QEMU_CLOCK_VIRTUAL)` is the explicit argument `now`
(an `int64_t`, hence an `Int`).  The two effects on the outside world,
`timer_mod` and `qemu_set_irq`, are recorded in the state: `timer` holds the
deadline last handed to `timer_mod`, the five `*_irq` fields the level last
driven on each line.

The interrupt dispatch of the CPU (target/avr/helper.c, target/avr/cpu.h) is
embedded in the namespace `AvrCpu`, after the definitions of the timer.
-/

namespace AvrTimer16

/-! ## Machine arithmetic -/

/-- Conversion of a signed value to `uint64_t` (reduction modulo 2^64). -/
def toU64 (x : Int) : Nat := (x % 18446744073709551616).toNat

/-- Conversion of an unsigned 64-bit value to `int64_t` (two's complement). -/
def toS64 (n : Nat) : Int :=
  if n % 18446744073709551616 < 9223372036854775808 then ((n % 18446744073709551616 : Nat) : Int)
  else ((n % 18446744073709551616 : Nat) : Int) - 18446744073709551616

/-- Conversion of a signed value to `uint16_t`. -/
def toU16 (x : Int) : Nat := (x % 65536).toNat

/-- Subtraction of `uint64_t` values. -/
def sub64 (a b : Nat) : Nat :=
  (a % 18446744073709551616 + (18446744073709551616 - b % 18446744073709551616)) % 18446744073709551616

/-- Addition of `uint64_t` values. -/
def add64 (a b : Nat) : Nat := (a + b) % 18446744073709551616

/-- Multiplication of `uint64_t` values. -/
def mul64 (a b : Nat) : Nat := (a * b) % 18446744073709551616

/-! ## Constants of the source file -/

abbrev T16_CRA : Nat := 0x0
abbrev T16_CRB : Nat := 0x1
abbrev T16_CRC : Nat := 0x2
abbrev T16_CNTL : Nat := 0x4
abbrev T16_CNTH : Nat := 0x5
abbrev T16_ICRL : Nat := 0x6
abbrev T16_ICRH : Nat := 0x7
abbrev T16_OCRAL : Nat := 0x8
abbrev T16_OCRAH : Nat := 0x9
abbrev T16_OCRBL : Nat := 0xa
abbrev T16_OCRBH : Nat := 0xb
abbrev T16_OCRCL : Nat := 0xc
abbrev T16_OCRCH : Nat := 0xd

abbrev T16_CRA_WGM01 : Nat := 0x3
abbrev T16_CRB_CS : Nat := 0x7
abbrev T16_CRB_WGM23 : Nat := 0x18

abbrev T16_INT_TOV : Nat := 0x1
abbrev T16_INT_OCA : Nat := 0x2
abbrev T16_INT_OCB : Nat := 0x4
abbrev T16_INT_OCC : Nat := 0x8
abbrev T16_INT_IC : Nat := 0x20

abbrev T16_CLKSRC_STOPPED : Nat := 0
abbrev T16_CLKSRC_DIV1 : Nat := 1
abbrev T16_CLKSRC_DIV8 : Nat := 2
abbrev T16_CLKSRC_DIV64 : Nat := 3
abbrev T16_CLKSRC_DIV256 : Nat := 4
abbrev T16_CLKSRC_DIV1024 : Nat := 5
abbrev T16_CLKSRC_EXT_FALLING : Nat := 6
abbrev T16_CLKSRC_EXT_RISING : Nat := 7

abbrev T16_MODE_NORMAL : Nat := 0
abbrev T16_MODE_CTC_OCRA : Nat := 4
abbrev T16_MODE_CTC_ICR : Nat := 12

/-! ## Device state -/

/-- Modelled from the spec: the enumeration `NextInterrupt` is declared in
hw/timer/avr_timer16.h, which is not among the sources; its five values are
the ones the C file assigns and tests (the spec's `pendingEventKind`). -/
inductive NextInterrupt where
  | OVERFLOW
  | COMPA
  | COMPB
  | COMPC
  | CAPT
  deriving DecidableEq, Repr

/-- Modelled from the spec: `AVRTimer16State` is declared in
hw/timer/avr_timer16.h, which is not among the sources.  The fields are the
ones the C file reads and writes.  The registers, the latch `rtmp`, the mask
and the flags are 8-bit (the spec's data model; the C file moves them through
`uint8_t` locals and casts).  The frequencies, the period and the reset time
are `uint64_t`: `cpu_freq_hz` is a `DEFINE_PROP_UINT64` property, `freq_hz` and
`period_ns` are printed with `PRIu64`, and `reset_time_ns` is summed into the
`uint64_t alarm_ns`.  `timer` is the deadline `alarm_ns` last passed to
`timer_mod` (`none` while it was never armed) and the `*_irq` fields are the
levels last driven on the five lines by `qemu_set_irq`. -/
structure AVRTimer16State where
  cra : Nat
  crb : Nat
  crc : Nat
  cntl : Nat
  cnth : Nat
  icrl : Nat
  icrh : Nat
  ocral : Nat
  ocrah : Nat
  ocrbl : Nat
  ocrbh : Nat
  ocrcl : Nat
  ocrch : Nat
  rtmp : Nat
  imsk : Nat
  ifr : Nat
  cpu_freq_hz : Nat
  freq_hz : Nat
  period_ns : Nat
  reset_time_ns : Nat
  next_interrupt : NextInterrupt
  timer : Option Nat
  capt_irq : Bool
  compa_irq : Bool
  compb_irq : Bool
  compc_irq : Bool
  ovf_irq : Bool
  deriving DecidableEq, Repr

/-- Every field holds a value of its C type. -/
def WF (s : AVRTimer16State) : Prop :=
  s.cra < 256 ∧ s.crb < 256 ∧ s.crc < 256 ∧ s.cntl < 256 ∧ s.cnth < 256 ∧
  s.icrl < 256 ∧ s.icrh < 256 ∧ s.ocral < 256 ∧ s.ocrah < 256 ∧
  s.ocrbl < 256 ∧ s.ocrbh < 256 ∧ s.ocrcl < 256 ∧ s.ocrch < 256 ∧
  s.rtmp < 256 ∧ s.imsk < 256 ∧ s.ifr < 256 ∧
  s.cpu_freq_hz < 18446744073709551616 ∧ s.freq_hz < 18446744073709551616 ∧
  s.period_ns < 18446744073709551616 ∧ s.reset_time_ns < 18446744073709551616

instance (s : AVRTimer16State) : Decidable (WF s) := by
  unfold WF; infer_instance

/-! ## Accessors -/

/-- The macro `VAL16(l, h)`. -/
def VAL16 (l h : Nat) : Nat := (h <<< 8) ||| l

/-- The macro `CLKSRC(t16)`. -/
def CLKSRC (t16 : AVRTimer16State) : Nat := t16.crb &&& T16_CRB_CS

/-- The macro `MODE(t16)`. -/
def MODE (t16 : AVRTimer16State) : Nat :=
  ((t16.crb &&& T16_CRB_WGM23) >>> 1) ||| (t16.cra &&& T16_CRA_WGM01)

/-- The macro `CNT(t16)`. -/
def CNT (t16 : AVRTimer16State) : Nat := VAL16 t16.cntl t16.cnth

/-- The macro `OCRA(t16)`. -/
def OCRA (t16 : AVRTimer16State) : Nat := VAL16 t16.ocral t16.ocrah

/-- The macro `OCRB(t16)`. -/
def OCRB (t16 : AVRTimer16State) : Nat := VAL16 t16.ocrbl t16.ocrbh

/-- The macro `OCRC(t16)`. -/
def OCRC (t16 : AVRTimer16State) : Nat := VAL16 t16.ocrcl t16.ocrch

/-- The macro `ICR(t16)`. -/
def ICR (t16 : AVRTimer16State) : Nat := VAL16 t16.icrl t16.icrh

/-! ## Counter model -/

/-- The function `avr_timer16_ns_to_ticks`: `t` is an `int64_t`, the division
is carried out in `uint64_t` and its result returned as `int64_t`. -/
def avr_timer16_ns_to_ticks (t16 : AVRTimer16State) (t : Int) : Int :=
  if t16.period_ns = 0 then 0
  else toS64 (toU64 t / t16.period_ns)

/-- The function `avr_timer16_update_cnt`, at virtual time `now`. -/
def avr_timer16_update_cnt (t16 : AVRTimer16State) (now : Int) : AVRTimer16State :=
  let cnt := toU16 (avr_timer16_ns_to_ticks t16
    (toS64 (sub64 (toU64 now) t16.reset_time_ns)))
  { t16 with
    cntl := (cnt &&& 0xff) % 256
    cnth := ((cnt &&& 0xff00) >>> 8) % 256 }

/-- The function `avr_timer16_recalc_reset_time`, at virtual time `now`. -/
def avr_timer16_recalc_reset_time (t16 : AVRTimer16State) (now : Int) : AVRTimer16State :=
  { t16 with
    reset_time_ns := sub64 (toU64 now) (mul64 (CNT t16) t16.period_ns) }

/-- The function `avr_timer16_clock_reset`, at virtual time `now`. -/
def avr_timer16_clock_reset (t16 : AVRTimer16State) (now : Int) : AVRTimer16State :=
  { t16 with cntl := 0, cnth := 0, reset_time_ns := toU64 now }

/-- The function `avr_timer16_clksrc_update`.  The result is `none` when the
C code divides by zero (`1000000000ULL / t16->freq_hz` with `freq_hz == 0`). -/
def avr_timer16_clksrc_update (t16 : AVRTimer16State) : Option AVRTimer16State :=
  let cs := CLKSRC t16
  if cs = T16_CLKSRC_EXT_FALLING ∨ cs = T16_CLKSRC_EXT_RISING then some t16
  else if cs = T16_CLKSRC_STOPPED then some t16
  else if cs = T16_CLKSRC_DIV1 ∨ cs = T16_CLKSRC_DIV8 ∨ cs = T16_CLKSRC_DIV64 ∨
      cs = T16_CLKSRC_DIV256 ∨ cs = T16_CLKSRC_DIV1024 then
    let divider : Nat :=
      if cs = T16_CLKSRC_DIV1 then 1
      else if cs = T16_CLKSRC_DIV8 then 8
      else if cs = T16_CLKSRC_DIV64 then 64
      else if cs = T16_CLKSRC_DIV256 then 256
      else 1024
    let freq := t16.cpu_freq_hz / divider
    if freq = 0 then none
    else some { t16 with freq_hz := freq, period_ns := 1000000000 / freq }
  else some t16

/-! ## Alarm scheduler -/

/-- The function `avr_timer16_set_alarm`. -/
def avr_timer16_set_alarm (t16 : AVRTimer16State) : AVRTimer16State :=
  if CLKSRC t16 = T16_CLKSRC_EXT_FALLING ∨ CLKSRC t16 = T16_CLKSRC_EXT_RISING ∨
      CLKSRC t16 = T16_CLKSRC_STOPPED then t16
  else
    let start : Nat × NextInterrupt := (0xffff, NextInterrupt.OVERFLOW)
    let afterMode : Option (Nat × NextInterrupt) :=
      if MODE t16 = T16_MODE_NORMAL then
        if OCRA t16 < start.1 ∧ OCRA t16 > CNT t16 ∧ (t16.imsk &&& T16_INT_OCA) ≠ 0 then
          some (OCRA t16, NextInterrupt.COMPA)
        else some start
      else if MODE t16 = T16_MODE_CTC_OCRA then
        if OCRA t16 < start.1 ∧ OCRA t16 > CNT t16 then
          some (OCRA t16, NextInterrupt.COMPA)
        else some start
      else if MODE t16 = T16_MODE_CTC_ICR then
        let c : Nat × NextInterrupt :=
          if ICR t16 < start.1 ∧ ICR t16 > CNT t16 then (ICR t16, NextInterrupt.CAPT)
          else start
        if OCRA t16 < c.1 ∧ OCRA t16 > CNT t16 ∧ (t16.imsk &&& T16_INT_OCA) ≠ 0 then
          some (OCRA t16, NextInterrupt.COMPA)
        else some c
      else none
    match afterMode with
    | none => t16
    | some a =>
      let b : Nat × NextInterrupt :=
        if OCRB t16 < a.1 ∧ OCRB t16 > CNT t16 ∧ (t16.imsk &&& T16_INT_OCB) ≠ 0 then
          (OCRB t16, NextInterrupt.COMPB)
        else a
      let c : Nat × NextInterrupt :=
        if OCRC t16 < b.1 ∧ OCRB t16 > CNT t16 ∧ (t16.imsk &&& T16_INT_OCC) ≠ 0 then
          (OCRB t16, NextInterrupt.COMPC)
        else b
      let alarm_offset := sub64 c.1 (CNT t16)
      let alarm_ns :=
        add64 t16.reset_time_ns (mul64 (add64 (CNT t16) alarm_offset) t16.period_ns)
      { t16 with next_interrupt := c.2, timer := some alarm_ns }

/-! ## Alarm callback -/

/-- The function `avr_timer16_interrupt` (the timer callback), at virtual
time `now`. -/
def avr_timer16_interrupt (t16 : AVRTimer16State) (now : Int) : AVRTimer16State :=
  let mode := MODE t16 % 256
  let t16 := avr_timer16_update_cnt t16 now
  if CLKSRC t16 = T16_CLKSRC_EXT_FALLING ∨ CLKSRC t16 = T16_CLKSRC_EXT_RISING ∨
      CLKSRC t16 = T16_CLKSRC_STOPPED then t16
  else
    let t16 :=
      if t16.next_interrupt = NextInterrupt.OVERFLOW then
        let t16 := avr_timer16_clock_reset t16 now
        if (t16.imsk &&& T16_INT_TOV) ≠ 0 then
          { t16 with ifr := (t16.ifr ||| T16_INT_TOV) % 256, ovf_irq := true }
        else t16
      else t16
    let t16 :=
      if mode = T16_MODE_CTC_OCRA ∧ t16.next_interrupt = NextInterrupt.COMPA then
        avr_timer16_clock_reset t16 now
      else t16
    let t16 :=
      if mode = T16_MODE_CTC_ICR ∧ t16.next_interrupt = NextInterrupt.CAPT then
        let t16 := avr_timer16_clock_reset t16 now
        if (t16.imsk &&& T16_INT_IC) ≠ 0 then
          { t16 with ifr := (t16.ifr ||| T16_INT_IC) % 256, capt_irq := true }
        else t16
      else t16
    let t16 :=
      if (t16.imsk &&& T16_INT_OCA) ≠ 0 ∧ t16.next_interrupt = NextInterrupt.COMPA then
        { t16 with ifr := (t16.ifr ||| T16_INT_OCA) % 256, compa_irq := true }
      else t16
    let t16 :=
      if (t16.imsk &&& T16_INT_OCB) ≠ 0 ∧ t16.next_interrupt = NextInterrupt.COMPB then
        { t16 with ifr := (t16.ifr ||| T16_INT_OCB) % 256, compb_irq := true }
      else t16
    let t16 :=
      if (t16.imsk &&& T16_INT_OCC) ≠ 0 ∧ t16.next_interrupt = NextInterrupt.COMPC then
        { t16 with ifr := (t16.ifr ||| T16_INT_OCC) % 256, compc_irq := true }
      else t16
    avr_timer16_set_alarm t16

/-! ## Register window -/

/-- The function `avr_timer16_read`: the returned byte and the state after the
read; `none` when the assertion `size == 1` fails. -/
def avr_timer16_read (t16 : AVRTimer16State) (offset size : Nat) (now : Int) :
    Option (Nat × AVRTimer16State) :=
  if size ≠ 1 then none
  else if offset = T16_CRA then some (t16.cra, t16)
  else if offset = T16_CRB then some (t16.crb, t16)
  else if offset = T16_CRC then some (t16.crc, t16)
  else if offset = T16_CNTL then
    let t16 := avr_timer16_update_cnt t16 now
    let t16 := { t16 with rtmp := t16.cnth }
    some (t16.cntl, t16)
  else if offset = T16_CNTH then some (t16.rtmp, t16)
  else if offset = T16_ICRL then
    let t16 := { t16 with rtmp := t16.icrh }
    some (t16.icrl, t16)
  else if offset = T16_ICRH then some (t16.rtmp, t16)
  else if offset = T16_OCRAL then some (t16.ocral, t16)
  else if offset = T16_OCRAH then some (t16.ocrah, t16)
  else if offset = T16_OCRBL then some (t16.ocrbl, t16)
  else if offset = T16_OCRBH then some (t16.ocrbh, t16)
  else if offset = T16_OCRCL then some (t16.ocrcl, t16)
  else if offset = T16_OCRCH then some (t16.ocrch, t16)
  else some (0, t16)

/-- The `switch (offset)` statement of `avr_timer16_write`, with the locals
`val8` and `prev_clk_src` as arguments; `none` when the clock-source update
divides by zero. -/
def avr_timer16_write_switch (t16 : AVRTimer16State) (offset val8 prev_clk_src : Nat)
    (now : Int) : Option AVRTimer16State :=
  if offset = T16_CRA then some { t16 with cra := val8 }
  else if offset = T16_CRB then
    let t16 := { t16 with crb := val8 }
    if CLKSRC t16 ≠ prev_clk_src then
      match avr_timer16_clksrc_update t16 with
      | none => none
      | some t16 =>
        if prev_clk_src = T16_CLKSRC_STOPPED then
          some { t16 with reset_time_ns := toU64 now }
        else some t16
    else some t16
  else if offset = T16_CRC then some { t16 with crc := val8 }
  else if offset = T16_CNTL then
    let t16 := { t16 with cntl := val8 }
    let t16 := { t16 with cnth := t16.rtmp }
    some (avr_timer16_recalc_reset_time t16 now)
  else if offset = T16_CNTH then some { t16 with rtmp := val8 }
  else if offset = T16_ICRL then
    if MODE t16 = T16_MODE_CTC_ICR then
      let t16 := { t16 with icrl := val8 }
      some { t16 with icrh := t16.rtmp }
    else some t16
  else if offset = T16_ICRH then
    if MODE t16 = T16_MODE_CTC_ICR then some { t16 with rtmp := val8 }
    else some t16
  else if offset = T16_OCRAL then some { t16 with ocral := val8 }
  else if offset = T16_OCRAH then some { t16 with ocrah := val8 }
  else if offset = T16_OCRBL then some { t16 with ocrbl := val8 }
  else if offset = T16_OCRBH then some { t16 with ocrbh := val8 }
  else if offset = T16_OCRCL then some { t16 with ocrcl := val8 }
  else if offset = T16_OCRCH then some { t16 with ocrch := val8 }
  else some t16

/-- The function `avr_timer16_write`, at virtual time `now`: the assertion
`size == 1`, the locals, the switch, and the final call of the scheduler;
`none` when the assertion fails or the clock-source update divides by
zero. -/
def avr_timer16_write (t16 : AVRTimer16State) (offset val64 size : Nat) (now : Int) :
    Option AVRTimer16State :=
  if size ≠ 1 then none
  else
    let val8 := val64 % 256
    let prev_clk_src := CLKSRC t16 % 256
    match avr_timer16_write_switch t16 offset val8 prev_clk_src now with
    | none => none
    | some t16 => some (avr_timer16_set_alarm t16)

/-! ## Mask and flag windows -/

/-- The function `avr_timer16_imsk_read`. -/
def avr_timer16_imsk_read (t16 : AVRTimer16State) (offset size : Nat) : Option Nat :=
  if size ≠ 1 then none
  else if offset ≠ 0 then some 0
  else some t16.imsk

/-- The function `avr_timer16_imsk_write`. -/
def avr_timer16_imsk_write (t16 : AVRTimer16State) (offset val64 size : Nat) :
    Option AVRTimer16State :=
  if size ≠ 1 then none
  else if offset ≠ 0 then some t16
  else some { t16 with imsk := val64 % 256 }

/-- The function `avr_timer16_ifr_read`. -/
def avr_timer16_ifr_read (t16 : AVRTimer16State) (offset size : Nat) : Option Nat :=
  if size ≠ 1 then none
  else if offset ≠ 0 then some 0
  else some t16.ifr

/-- The function `avr_timer16_ifr_write`. -/
def avr_timer16_ifr_write (t16 : AVRTimer16State) (offset val64 size : Nat) :
    Option AVRTimer16State :=
  if size ≠ 1 then none
  else if offset ≠ 0 then some t16
  else some { t16 with ifr := val64 % 256 }

/-! ## Derived quantities and sample states -/

/-- The tick count that `avr_timer16_update_cnt` computes at virtual time
`now`, before its truncation to 16 bits: the 64-bit difference
`now - reset_time_ns` divided by the period, and 0 when the period is 0. -/
def ticks (s : AVRTimer16State) (now : Int) : Nat :=
  if s.period_ns = 0 then 0 else sub64 (toU64 now) s.reset_time_ns / s.period_ns

/-- The block "Counter overflow" of `avr_timer16_interrupt`, on its own. -/
def interrupt_overflow (t16 : AVRTimer16State) (now : Int) : AVRTimer16State :=
  if t16.next_interrupt = NextInterrupt.OVERFLOW then
    let t16 := avr_timer16_clock_reset t16 now
    if (t16.imsk &&& T16_INT_TOV) ≠ 0 then
      { t16 with ifr := (t16.ifr ||| T16_INT_TOV) % 256, ovf_irq := true }
    else t16
  else t16

/-- The block "Check for ocra overflow in CTC mode" of
`avr_timer16_interrupt`, on its own. -/
def interrupt_ctc_ocra (mode : Nat) (t16 : AVRTimer16State) (now : Int) : AVRTimer16State :=
  if mode = T16_MODE_CTC_OCRA ∧ t16.next_interrupt = NextInterrupt.COMPA then
    avr_timer16_clock_reset t16 now
  else t16

/-- The block "Check for icr overflow in CTC mode" of
`avr_timer16_interrupt`, on its own. -/
def interrupt_ctc_icr (mode : Nat) (t16 : AVRTimer16State) (now : Int) : AVRTimer16State :=
  if mode = T16_MODE_CTC_ICR ∧ t16.next_interrupt = NextInterrupt.CAPT then
    let t16 := avr_timer16_clock_reset t16 now
    if (t16.imsk &&& T16_INT_IC) ≠ 0 then
      { t16 with ifr := (t16.ifr ||| T16_INT_IC) % 256, capt_irq := true }
    else t16
  else t16

/-- The first test of the block "Check for output compare interrupts" of
`avr_timer16_interrupt`, on its own. -/
def interrupt_compa (t16 : AVRTimer16State) : AVRTimer16State :=
  if (t16.imsk &&& T16_INT_OCA) ≠ 0 ∧ t16.next_interrupt = NextInterrupt.COMPA then
    { t16 with ifr := (t16.ifr ||| T16_INT_OCA) % 256, compa_irq := true }
  else t16

/-- The second test of the block "Check for output compare interrupts". -/
def interrupt_compb (t16 : AVRTimer16State) : AVRTimer16State :=
  if (t16.imsk &&& T16_INT_OCB) ≠ 0 ∧ t16.next_interrupt = NextInterrupt.COMPB then
    { t16 with ifr := (t16.ifr ||| T16_INT_OCB) % 256, compb_irq := true }
  else t16

/-- The third test of the block "Check for output compare interrupts". -/
def interrupt_compc (t16 : AVRTimer16State) : AVRTimer16State :=
  if (t16.imsk &&& T16_INT_OCC) ≠ 0 ∧ t16.next_interrupt = NextInterrupt.COMPC then
    { t16 with ifr := (t16.ifr ||| T16_INT_OCC) % 256, compc_irq := true }
  else t16

/-- The blocks of `avr_timer16_interrupt` between the clock-source test and
the final call of the scheduler, in the order of the source. -/
def interrupt_flags (mode : Nat) (t16 : AVRTimer16State) (now : Int) : AVRTimer16State :=
  interrupt_compc (interrupt_compb (interrupt_compa
    (interrupt_ctc_icr mode (interrupt_ctc_ocra mode (interrupt_overflow t16 now) now) now)))

/-- One block of the callback either leaves the flags alone or raises flag
`k`, and the latter only when mask bit `k` is set. -/
def RaisesAtMost (k : Nat) (t t1 : AVRTimer16State) : Prop :=
  t1.imsk = t.imsk ∧
    (t1.ifr = t.ifr ∨ (t.imsk &&& 2 ^ k ≠ 0 ∧ t1.ifr = (t.ifr ||| 2 ^ k) % 256))

instance (k : Nat) (t t1 : AVRTimer16State) : Decidable (RaisesAtMost k t t1) := by
  unfold RaisesAtMost; infer_instance

/-- The clock-source selector is one of the five dividers: the negation of
the test that makes `avr_timer16_set_alarm` and `avr_timer16_interrupt`
return early. -/
def ClockRunning (t16 : AVRTimer16State) : Prop :=
  ¬ (CLKSRC t16 = T16_CLKSRC_EXT_FALLING ∨ CLKSRC t16 = T16_CLKSRC_EXT_RISING ∨
      CLKSRC t16 = T16_CLKSRC_STOPPED)

instance (t16 : AVRTimer16State) : Decidable (ClockRunning t16) := by
  unfold ClockRunning; infer_instance

/-- A timer clocked at the default 20 MHz with divider 1 (period 50 ns), in
free-run mode, compare A at 100 with its mask bit set, counter at 0. -/
def demoState : AVRTimer16State :=
  { cra := 0, crb := 1, crc := 0, cntl := 0, cnth := 0, icrl := 0, icrh := 0,
    ocral := 100, ocrah := 0, ocrbl := 0, ocrbh := 0, ocrcl := 0, ocrch := 0,
    rtmp := 0, imsk := 2, ifr := 0,
    cpu_freq_hz := 20000000, freq_hz := 20000000, period_ns := 50,
    reset_time_ns := 1000, next_interrupt := NextInterrupt.OVERFLOW, timer := none,
    capt_irq := false, compa_irq := false, compb_irq := false,
    compc_irq := false, ovf_irq := false }

/-- The `switch (MODE(t16))` statement of `avr_timer16_set_alarm`: the locals
`alarm_offset` and `next_interrupt` after it, starting from `0xffff` and
`OVERFLOW`; `none` for the `default` case (a PWM mode, `goto end`). -/
def set_alarm_mode_target (t16 : AVRTimer16State) : Option (Nat × NextInterrupt) :=
  let start : Nat × NextInterrupt := (0xffff, NextInterrupt.OVERFLOW)
  if MODE t16 = T16_MODE_NORMAL then
    if OCRA t16 < start.1 ∧ OCRA t16 > CNT t16 ∧ (t16.imsk &&& T16_INT_OCA) ≠ 0 then
      some (OCRA t16, NextInterrupt.COMPA)
    else some start
  else if MODE t16 = T16_MODE_CTC_OCRA then
    if OCRA t16 < start.1 ∧ OCRA t16 > CNT t16 then
      some (OCRA t16, NextInterrupt.COMPA)
    else some start
  else if MODE t16 = T16_MODE_CTC_ICR then
    let c : Nat × NextInterrupt :=
      if ICR t16 < start.1 ∧ ICR t16 > CNT t16 then (ICR t16, NextInterrupt.CAPT)
      else start
    if OCRA t16 < c.1 ∧ OCRA t16 > CNT t16 ∧ (t16.imsk &&& T16_INT_OCA) ≠ 0 then
      some (OCRA t16, NextInterrupt.COMPA)
    else some c
  else none

/-- The two tests of `avr_timer16_set_alarm` that follow the switch (compare
B, then compare C), applied to the locals `a = (alarm_offset, next_interrupt)`
that the switch left. -/
def set_alarm_compare_target (t16 : AVRTimer16State) (a : Nat × NextInterrupt) :
    Nat × NextInterrupt :=
  let b : Nat × NextInterrupt :=
    if OCRB t16 < a.1 ∧ OCRB t16 > CNT t16 ∧ (t16.imsk &&& T16_INT_OCB) ≠ 0 then
      (OCRB t16, NextInterrupt.COMPB)
    else a
  if OCRC t16 < b.1 ∧ OCRB t16 > CNT t16 ∧ (t16.imsk &&& T16_INT_OCC) ≠ 0 then
    (OCRB t16, NextInterrupt.COMPC)
  else b

/-- The locals `alarm_offset` and `next_interrupt` of `avr_timer16_set_alarm`
after its last candidate test, before `alarm_offset -= CNT(t16)`: the target
tick and the event the scheduler has chosen.  `none` when the function leaves
through `goto end` (clock not running, or a PWM mode). -/
def set_alarm_target (t16 : AVRTimer16State) : Option (Nat × NextInterrupt) :=
  if CLKSRC t16 = T16_CLKSRC_EXT_FALLING ∨ CLKSRC t16 = T16_CLKSRC_EXT_RISING ∨
      CLKSRC t16 = T16_CLKSRC_STOPPED then none
  else
    match set_alarm_mode_target t16 with
    | none => none
    | some a => some (set_alarm_compare_target t16 a)

/-- The deadline `alarm_ns` that `avr_timer16_set_alarm` computes from a
target tick: `alarm_offset -= CNT`, then
`reset_time_ns + (CNT + alarm_offset) * period_ns`, all in `uint64_t`. -/
def set_alarm_deadline (t16 : AVRTimer16State) (target : Nat) : Nat :=
  add64 t16.reset_time_ns
    (mul64 (add64 (CNT t16) (sub64 target (CNT t16))) t16.period_ns)

/-- The state `demoState` with compare B at 100 as well and both the
compare-A and the compare-B mask bits set: two channels due at the same
tick. -/
def tieState : AVRTimer16State :=
  { demoState with ocrbl := 100, imsk := 6 }

/-- A free-running timer with only the compare-C mask bit set, compare C at
100 and compare B at 0. -/
def compcState : AVRTimer16State :=
  { demoState with ocral := 0, ocrcl := 100, imsk := 8 }

/-- A timer that has never run: clock source stopped, period 0. -/
def stoppedState : AVRTimer16State :=
  { demoState with crb := 0, freq_hz := 0, period_ns := 0, reset_time_ns := 0, imsk := 0 }

/-- The function `avr_timer16_reset`, at virtual time `now`; `none` when the
clock-source update divides by zero. -/
def avr_timer16_reset (t16 : AVRTimer16State) (now : Int) : Option AVRTimer16State :=
  let t16 := avr_timer16_clock_reset t16 now
  match avr_timer16_clksrc_update t16 with
  | none => none
  | some t16 =>
    let t16 := avr_timer16_set_alarm t16
    some { t16 with
      capt_irq := false, compa_irq := false, compb_irq := false,
      compc_irq := false, ovf_irq := false }

/-- The state `demoState` with no mask bit set and the overflow armed: the
state in which the guest then enables the compare-A interrupt. -/
def unmaskedState : AVRTimer16State :=
  { demoState with imsk := 0, timer := some (1000 + 0xffff * 50) }

end AvrTimer16

/-!
# AVR CPU interrupt dispatch (target/avr/helper.c, target/avr/cpu.h)

`CPUAVRState` is the register file of cpu.h; `CPUState` adds the fields of the
generic QEMU CPU object that helper.c uses (`exception_index`,
`interrupt_request`) and the data memory that `cpu_stb_data` writes.
-/

namespace AvrCpu

/-- Conversion of a signed value to `uint32_t`. -/
def toU32 (x : Int) : Nat := (x % 4294967296).toNat

abbrev EXCP_RESET : Int := 1

/-- The macro `EXCP_INT(n)`. -/
def EXCP_INT (n : Int) : Int := EXCP_RESET + n + 1

/-- Modelled from the spec: `CPU_INTERRUPT_HARD` is defined in QEMU's
exec/cpu-all.h, which is not among the sources; it is the request bit of a
pending hardware interrupt (value 0x0002 there). -/
abbrev CPU_INTERRUPT_HARD : Nat := 0x0002

/-- Modelled from the spec: `CPU_INTERRUPT_RESET` is defined in QEMU's
exec/cpu-all.h, which is not among the sources; it is the request bit of the
reset-class interrupt (value 0x0400 there). -/
abbrev CPU_INTERRUPT_RESET : Nat := 0x0400

/-- Positions of the members of `enum avr_features` that helper.c tests. -/
abbrev AVR_FEATURE_2_BYTE_PC : Nat := 2
abbrev AVR_FEATURE_3_BYTE_PC : Nat := 3
abbrev AVR_FEATURE_JMP_CALL : Nat := 11

/-- The structure `CPUAVRState` of cpu.h, without the members of `CPU_COMMON`.
All members are `uint32_t` but `intsrc` (`uint64_t`) and `fullacc` (`bool`);
`r` is the array of the 32 registers. -/
structure CPUAVRState where
  pc_w : Nat
  sregC : Nat
  sregZ : Nat
  sregN : Nat
  sregV : Nat
  sregS : Nat
  sregH : Nat
  sregT : Nat
  sregI : Nat
  rampD : Nat
  rampX : Nat
  rampY : Nat
  rampZ : Nat
  eind : Nat
  r : Nat → Nat
  sp : Nat
  intsrc : Nat
  fullacc : Bool
  features : Nat

/-- Modelled from the spec: `CPUState` is QEMU's generic CPU object
(qom/cpu.h), not among the sources.  Kept are the two members helper.c
accesses, `exception_index` (an `int32_t`) and `interrupt_request` (a
`uint32_t`), the AVR register file `env`, and `data`, the data address space
as `cpu_stb_data` leaves it (one byte per address). -/
structure CPUState where
  env : CPUAVRState
  exception_index : Int
  interrupt_request : Nat
  data : Nat → Nat

/-- The function `avr_feature`. -/
def avr_feature (env : CPUAVRState) (feature : Nat) : Bool :=
  (env.features &&& ((1 <<< feature) % 4294967296)) != 0

/-- The function `cpu_interrupts_enabled`. -/
def cpu_interrupts_enabled (env : CPUAVRState) : Bool := env.sregI != 0

/-- Number of trailing zero bits of `v`, looking at `fuel` bits at most. -/
def ctz_loop : Nat → Nat → Nat
  | 0, _ => 0
  | fuel + 1, v => if v % 2 = 1 then 0 else 1 + ctz_loop fuel (v / 2)

/-- Modelled from the spec: `ctz32` is declared in QEMU's qemu/host-utils.h,
which is not among the sources.  The spec has the dispatcher "pick the
lowest-indexed set bit"; `ctz32` counts the trailing zero bits of a 32-bit
value, so its argument is converted to `uint32_t` first, and its result is 32
when that value is zero. -/
def ctz32 (val : Nat) : Nat :=
  if val % 4294967296 = 0 then 32 else ctz_loop 32 (val % 4294967296)

/-- Modelled from the spec: `cpu_stb_data` is QEMU's byte store to the data
address space (exec/cpu_ldst.h), not among the sources: the spec's "push ...
onto the stack".  It stores the low byte of `val` at `addr`. -/
def cpu_stb_data (data : Nat → Nat) (addr val : Nat) : Nat → Nat :=
  fun a => if a = addr then val % 256 else data a

/-- The function `avr_cpu_do_interrupt`. -/
def avr_cpu_do_interrupt (cs : CPUState) : CPUState :=
  let env := cs.env
  let ret := env.pc_w
  let size : Int := if avr_feature env AVR_FEATURE_JMP_CALL then 2 else 1
  let base : Int := 0
  let vector : Int :=
    if cs.exception_index = EXCP_RESET then 0
    else if env.intsrc ≠ 0 then (ctz32 env.intsrc : Int) + 1
    else 0
  let pushed : Nat × (Nat → Nat) :=
    if avr_feature env AVR_FEATURE_3_BYTE_PC then
      let d1 := cpu_stb_data cs.data env.sp (ret &&& 0x0000ff)
      let sp1 := toU32 ((env.sp : Int) - 1)
      let d2 := cpu_stb_data d1 sp1 ((ret &&& 0x00ff00) >>> 8)
      let sp2 := toU32 ((sp1 : Int) - 1)
      let d3 := cpu_stb_data d2 sp2 ((ret &&& 0xff0000) >>> 16)
      (toU32 ((sp2 : Int) - 1), d3)
    else if avr_feature env AVR_FEATURE_2_BYTE_PC then
      let d1 := cpu_stb_data cs.data env.sp (ret &&& 0x0000ff)
      let sp1 := toU32 ((env.sp : Int) - 1)
      let d2 := cpu_stb_data d1 sp1 ((ret &&& 0x00ff00) >>> 8)
      (toU32 ((sp1 : Int) - 1), d2)
    else
      let d1 := cpu_stb_data cs.data env.sp (ret &&& 0x0000ff)
      (toU32 ((env.sp : Int) - 1), d1)
  { cs with
    env := { env with sp := pushed.1, pc_w := toU32 (base + vector * size), sregI := 0 }
    data := pushed.2
    exception_index := -1 }

/-- The function `avr_cpu_exec_interrupt`: the returned flag and the CPU
after the call.  `cc->do_interrupt` is `avr_cpu_do_interrupt`. -/
def avr_cpu_exec_interrupt (cs : CPUState) (interrupt_request : Int) : Bool × CPUState :=
  let r1 : Bool × CPUState :=
    if toU32 interrupt_request &&& CPU_INTERRUPT_RESET ≠ 0 then
      if cpu_interrupts_enabled cs.env then
        let cs := { cs with exception_index := EXCP_RESET }
        let cs := avr_cpu_do_interrupt cs
        let cs := { cs with
          interrupt_request := cs.interrupt_request &&& (4294967295 - CPU_INTERRUPT_RESET) }
        (true, cs)
      else (false, cs)
    else (false, cs)
  let cs := r1.2
  if toU32 interrupt_request &&& CPU_INTERRUPT_HARD ≠ 0 then
    if cpu_interrupts_enabled cs.env ∧ cs.env.intsrc ≠ 0 then
      let index : Int := ctz32 cs.env.intsrc
      let cs := { cs with exception_index := EXCP_INT index }
      let cs := avr_cpu_do_interrupt cs
      let cs := { cs with env := { cs.env with
        intsrc := cs.env.intsrc &&& ((cs.env.intsrc + 18446744073709551615) % 18446744073709551616) } }
      let cs := { cs with
        interrupt_request := cs.interrupt_request &&& (4294967295 - CPU_INTERRUPT_HARD) }
      (true, cs)
    else (r1.1, cs)
  else (r1.1, cs)

/-- A CPU with a 2-byte program counter and JMP/CALL (vector size 2), global
interrupt flag set, program counter at 0x1234, stack pointer at 0x21ff, a
hardware interrupt requested, no source pending yet. -/
def demoCpu : CPUState :=
  { env :=
      { pc_w := 0x1234, sregC := 0, sregZ := 1, sregN := 0, sregV := 0, sregS := 0,
        sregH := 0, sregT := 0, sregI := 1, rampD := 0, rampX := 0, rampY := 0, rampZ := 0,
        eind := 0, r := fun _ => 0, sp := 0x21ff, intsrc := 0, fullacc := false,
        features := 0x804 }
    exception_index := -1
    interrupt_request := CPU_INTERRUPT_HARD
    data := fun _ => 0 }

/-- The CPU `demoCpu` with interrupt source 33 pending, and no other. -/
def highSourceCpu : CPUState :=
  { demoCpu with env := { demoCpu.env with intsrc := 2 ^ 33 } }

/-- The CPU `demoCpu` with the interrupt sources 1 and 2 pending. -/
def twoSourceCpu : CPUState :=
  { demoCpu with env := { demoCpu.env with intsrc := 6 } }

/-- The CPU `demoCpu` with the global interrupt flag clear and a reset
requested. -/
def maskedResetCpu : CPUState :=
  { demoCpu with
    env := { demoCpu.env with sregI := 0 }
    interrupt_request := CPU_INTERRUPT_RESET }

/-- The CPU `twoSourceCpu` after one call of the dispatcher with the CPU's
stored `interrupt_request`. -/
def twoSourceCpuDispatched : CPUState :=
  (avr_cpu_exec_interrupt twoSourceCpu (twoSourceCpu.interrupt_request : Int)).2

/-- The CPU `twoSourceCpuDispatched` once the handler has returned: the
return from interrupt has set the global interrupt flag again; no IRQ line
has changed, so `intsrc` and `interrupt_request` are as the dispatcher left
them.  What the handler and the return did to the program counter and the
stack is left out: the decision of the dispatcher does not read them. -/
def twoSourceCpuReturned : CPUState :=
  { twoSourceCpuDispatched with env := { twoSourceCpuDispatched.env with sregI := 1 } }

/-- The function `cpu_get_sreg`: the shifts are taken in `uint32_t`, the
result is a `uint8_t`. -/
def cpu_get_sreg (env : CPUAVRState) : Nat :=
  ((((env.sregC &&& 0x01) <<< 0) % 4294967296)
    ||| ((if env.sregZ = 0 then 1 else 0) <<< 1)
    ||| ((env.sregN <<< 2) % 4294967296)
    ||| ((env.sregV <<< 3) % 4294967296)
    ||| ((env.sregS <<< 4) % 4294967296)
    ||| ((env.sregH <<< 5) % 4294967296)
    ||| ((env.sregT <<< 6) % 4294967296)
    ||| ((env.sregI <<< 7) % 4294967296)) % 256

/-- The function `cpu_set_sreg`; the argument is converted to `uint8_t`. -/
def cpu_set_sreg (env : CPUAVRState) (sreg : Nat) : CPUAVRState :=
  let sreg := sreg % 256
  { env with
    sregC := (sreg >>> 0) &&& 0x01
    sregZ := if (sreg >>> 1) &&& 0x01 ≠ 0 then 0 else 1
    sregN := (sreg >>> 2) &&& 0x01
    sregV := (sreg >>> 3) &&& 0x01
    sregS := (sreg >>> 4) &&& 0x01
    sregH := (sreg >>> 5) &&& 0x01
    sregT := (sreg >>> 6) &&& 0x01
    sregI := (sreg >>> 7) &&& 0x01 }

end AvrCpu

namespace AvrTimer16

/-! ## Arithmetic lemmas -/

theorem VAL16_eq (l h : Nat) (hl : l < 256) : VAL16 l h = 256 * h + l := by
  unfold VAL16
  rw [Nat.shiftLeft_eq, Nat.mul_comm]
  exact (Nat.mul_add_lt_is_or (i := 8) (by simpa using hl) h).symm

theorem toU64_toS64 (n : Nat) : toU64 (toS64 n) = n % 18446744073709551616 := by
  unfold toU64 toS64
  split <;> omega

theorem toU16_toS64 (n : Nat) : toU16 (toS64 n) = n % 65536 := by
  unfold toU16 toS64
  split <;> omega

theorem and_ff (c : Nat) : c &&& 0xff = c % 256 :=
  Nat.and_pow_two_sub_one_eq_mod c 8

theorem and_ff00 (c : Nat) (hc : c < 65536) : (c &&& 0xff00) >>> 8 = c / 256 := by
  apply Nat.eq_of_testBit_eq
  intro i
  rw [Nat.testBit_shiftRight, Nat.testBit_and]
  have h2 : c / 256 = c >>> 8 := by rw [Nat.shiftRight_eq_div_pow]
  rw [h2, Nat.testBit_shiftRight]
  have h1 : (0xff00 : Nat) = 255 <<< 8 := by decide
  rw [h1, Nat.testBit_shiftLeft]
  have h3 : (255 : Nat) = 2 ^ 8 - 1 := by decide
  rw [h3, Nat.testBit_two_pow_sub_one]
  by_cases hi : i < 8
  · simp [hi]
  · have : c.testBit (8 + i) = false := by
      apply Nat.testBit_lt_two_pow
      calc c < 2 ^ 16 := by simpa using hc
        _ ≤ 2 ^ (8 + i) := Nat.pow_le_pow_right (by decide) (by omega)
    simp [this]

theorem sub64_lt (a b : Nat) : sub64 a b < 18446744073709551616 := by
  unfold sub64; omega

theorem sub64_add_cancel (r x : Nat) :
    sub64 (toU64 ((r : Int) + (x : Int))) r = x % 18446744073709551616 := by
  unfold sub64 toU64
  omega

theorem sub64_sub64_cancel (a x : Nat) :
    sub64 a (sub64 a x) = x % 18446744073709551616 := by
  unfold sub64
  omega

theorem sub64_self (a : Nat) : sub64 a a = 0 := by
  unfold sub64
  omega

theorem toU64_lt (x : Int) : toU64 x < 18446744073709551616 := by
  unfold toU64
  omega

theorem sub64_toU64 (now : Int) (x : Nat) :
    sub64 (toU64 now) x = toU64 (now - (x : Int)) := by
  unfold sub64 toU64
  omega

/-! ## The counter computed by `avr_timer16_update_cnt` -/

theorem cnt16_eq (s : AVRTimer16State) (now : Int) :
    toU16 (avr_timer16_ns_to_ticks s (toS64 (sub64 (toU64 now) s.reset_time_ns)))
      = ticks s now % 65536 := by
  unfold avr_timer16_ns_to_ticks ticks
  by_cases hp : s.period_ns = 0
  · simp [hp, toU16]
  · simp only [hp, if_false]
    rw [toU16_toS64, toU64_toS64, Nat.mod_eq_of_lt (sub64_lt _ _)]

theorem update_cnt_cntl (s : AVRTimer16State) (now : Int) :
    (avr_timer16_update_cnt s now).cntl = (ticks s now % 65536) % 256 := by
  unfold avr_timer16_update_cnt
  simp only [cnt16_eq, and_ff]
  omega

theorem update_cnt_cnth (s : AVRTimer16State) (now : Int) :
    (avr_timer16_update_cnt s now).cnth = (ticks s now % 65536) / 256 := by
  unfold avr_timer16_update_cnt
  simp only [cnt16_eq]
  rw [and_ff00 _ (Nat.mod_lt _ (by decide))]
  omega

theorem update_cnt_CNT (s : AVRTimer16State) (now : Int) :
    CNT (avr_timer16_update_cnt s now) = ticks s now % 65536 := by
  unfold CNT
  rw [VAL16_eq _ _ (by rw [update_cnt_cntl]; omega), update_cnt_cntl, update_cnt_cnth]
  omega

/-- The counter update touches the two counter bytes only. -/
theorem update_cnt_frame (s : AVRTimer16State) (now : Int) :
    avr_timer16_update_cnt s now =
      { s with cntl := (avr_timer16_update_cnt s now).cntl,
               cnth := (avr_timer16_update_cnt s now).cnth } := rfl

/-! ## Frame of the scheduler -/

/-- The scheduler changes nothing but `next_interrupt` and the armed deadline. -/
theorem set_alarm_frame (s : AVRTimer16State) :
    avr_timer16_set_alarm s =
      { s with next_interrupt := (avr_timer16_set_alarm s).next_interrupt,
               timer := (avr_timer16_set_alarm s).timer } := by
  unfold avr_timer16_set_alarm
  split
  · rfl
  · dsimp only
    split <;> rfl

@[simp] theorem set_alarm_cra (s : AVRTimer16State) :
    (avr_timer16_set_alarm s).cra = s.cra := by rw [set_alarm_frame]
@[simp] theorem set_alarm_crb (s : AVRTimer16State) :
    (avr_timer16_set_alarm s).crb = s.crb := by rw [set_alarm_frame]
@[simp] theorem set_alarm_cntl (s : AVRTimer16State) :
    (avr_timer16_set_alarm s).cntl = s.cntl := by rw [set_alarm_frame]
@[simp] theorem set_alarm_cnth (s : AVRTimer16State) :
    (avr_timer16_set_alarm s).cnth = s.cnth := by rw [set_alarm_frame]
@[simp] theorem set_alarm_icrl (s : AVRTimer16State) :
    (avr_timer16_set_alarm s).icrl = s.icrl := by rw [set_alarm_frame]
@[simp] theorem set_alarm_icrh (s : AVRTimer16State) :
    (avr_timer16_set_alarm s).icrh = s.icrh := by rw [set_alarm_frame]
@[simp] theorem set_alarm_rtmp (s : AVRTimer16State) :
    (avr_timer16_set_alarm s).rtmp = s.rtmp := by rw [set_alarm_frame]
@[simp] theorem set_alarm_imsk (s : AVRTimer16State) :
    (avr_timer16_set_alarm s).imsk = s.imsk := by rw [set_alarm_frame]
@[simp] theorem set_alarm_ifr (s : AVRTimer16State) :
    (avr_timer16_set_alarm s).ifr = s.ifr := by rw [set_alarm_frame]
@[simp] theorem set_alarm_period_ns (s : AVRTimer16State) :
    (avr_timer16_set_alarm s).period_ns = s.period_ns := by rw [set_alarm_frame]
@[simp] theorem set_alarm_reset_time_ns (s : AVRTimer16State) :
    (avr_timer16_set_alarm s).reset_time_ns = s.reset_time_ns := by rw [set_alarm_frame]
@[simp] theorem set_alarm_compa_irq (s : AVRTimer16State) :
    (avr_timer16_set_alarm s).compa_irq = s.compa_irq := by rw [set_alarm_frame]

@[simp] theorem set_alarm_MODE (s : AVRTimer16State) :
    MODE (avr_timer16_set_alarm s) = MODE s := by unfold MODE; simp

@[simp] theorem set_alarm_CLKSRC (s : AVRTimer16State) :
    CLKSRC (avr_timer16_set_alarm s) = CLKSRC s := by simp [CLKSRC]

@[simp] theorem set_alarm_ticks (s : AVRTimer16State) (now : Int) :
    ticks (avr_timer16_set_alarm s) now = ticks s now := by simp [ticks]

/-! ## Byte accesses to the counter and capture registers -/

theorem write_CNTH (s : AVRTimer16State) (v : Nat) (now : Int) :
    avr_timer16_write s T16_CNTH v 1 now =
      some (avr_timer16_set_alarm { s with rtmp := v % 256 }) := by
  simp [avr_timer16_write, avr_timer16_write_switch]

theorem write_CNTL (s : AVRTimer16State) (v : Nat) (now : Int) :
    avr_timer16_write s T16_CNTL v 1 now =
      some (avr_timer16_set_alarm
        (avr_timer16_recalc_reset_time { s with cntl := v % 256, cnth := s.rtmp } now)) := by
  simp [avr_timer16_write, avr_timer16_write_switch]

theorem read_CNTL (s : AVRTimer16State) (now : Int) :
    avr_timer16_read s T16_CNTL 1 now =
      some ((avr_timer16_update_cnt s now).cntl,
        { avr_timer16_update_cnt s now with rtmp := (avr_timer16_update_cnt s now).cnth }) := by
  simp [avr_timer16_read]

theorem read_CNTH (s : AVRTimer16State) (now : Int) :
    avr_timer16_read s T16_CNTH 1 now = some (s.rtmp, s) := by
  simp [avr_timer16_read]

theorem read_ICRL (s : AVRTimer16State) (now : Int) :
    avr_timer16_read s T16_ICRL 1 now = some (s.icrl, { s with rtmp := s.icrh }) := by
  simp [avr_timer16_read]

theorem read_ICRH (s : AVRTimer16State) (now : Int) :
    avr_timer16_read s T16_ICRH 1 now = some (s.rtmp, s) := by
  simp [avr_timer16_read]

theorem ticks_eq (s : AVRTimer16State) (now : Int) (r p : Nat)
    (hr : s.reset_time_ns = r) (hp : s.period_ns = p) :
    ticks s now = if p = 0 then 0 else sub64 (toU64 now) r / p := by
  unfold ticks
  rw [hr, hp]

/-- What a write to the counter high byte does to the fields the counter
depends on: only the latch changes. -/
theorem write_CNTH_spec (s : AVRTimer16State) (v : Nat) (now : Int) :
    ∃ s1, avr_timer16_write s T16_CNTH v 1 now = some s1 ∧ s1.rtmp = v % 256 ∧
      s1.cntl = s.cntl ∧ s1.cnth = s.cnth ∧
      s1.period_ns = s.period_ns ∧ s1.reset_time_ns = s.reset_time_ns :=
  ⟨_, write_CNTH s v now, by simp, by simp, by simp, by simp, by simp⟩

/-- What a write to the counter low byte does: the pair `(rtmp, v)` is
committed and the reset time recomputed from it. -/
theorem write_CNTL_spec (s : AVRTimer16State) (v : Nat) (now : Int) :
    ∃ s1, avr_timer16_write s T16_CNTL v 1 now = some s1 ∧ s1.rtmp = s.rtmp ∧
      s1.cntl = v % 256 ∧ s1.cnth = s.rtmp ∧ s1.period_ns = s.period_ns ∧
      s1.reset_time_ns =
        sub64 (toU64 now) (mul64 (256 * s.rtmp + v % 256) s.period_ns) := by
  refine ⟨_, write_CNTL s v now, ?_, ?_, ?_, ?_, ?_⟩
  · simp [avr_timer16_recalc_reset_time]
  · simp [avr_timer16_recalc_reset_time]
  · simp [avr_timer16_recalc_reset_time]
  · simp [avr_timer16_recalc_reset_time]
  · simp only [set_alarm_reset_time_ns, avr_timer16_recalc_reset_time, CNT]
    rw [VAL16_eq _ _ (Nat.mod_lt _ (by decide))]

/-- A read of the counter low byte then of the high byte returns the two
bytes of the tick count at the time of the low-byte read. -/
theorem read_cnt_pair (s : AVRTimer16State) (now now2 : Int) :
    ∃ s1 s2,
      avr_timer16_read s T16_CNTL 1 now = some ((ticks s now % 65536) % 256, s1) ∧
      avr_timer16_read s1 T16_CNTH 1 now2 = some ((ticks s now % 65536) / 256, s2) := by
  refine ⟨{ avr_timer16_update_cnt s now with rtmp := (avr_timer16_update_cnt s now).cnth },
    { avr_timer16_update_cnt s now with rtmp := (avr_timer16_update_cnt s now).cnth }, ?_, ?_⟩
  · rw [read_CNTL, update_cnt_cntl]
  · rw [read_CNTH]
    simp only [update_cnt_cnth]

/-! ## Counter reconstruction -/

/-- C1: for a timer with `period_ns > 0` and every `k` such that
`k * period_ns` fits in 64 bits, `avr_timer16_update_cnt` run at virtual time
`reset_time_ns + k * period_ns` leaves the stored counter
`VAL16(cntl, cnth)` equal to `k mod 65536`. -/
theorem update_cnt_at_tick (s : AVRTimer16State) (k : Nat)
    (hp : 0 < s.period_ns) (hk : k * s.period_ns < 18446744073709551616) :
    VAL16
      (avr_timer16_update_cnt s ((s.reset_time_ns : Int) + (k : Int) * (s.period_ns : Int))).cntl
      (avr_timer16_update_cnt s ((s.reset_time_ns : Int) + (k : Int) * (s.period_ns : Int))).cnth
      = k % 65536 := by
  have h := update_cnt_CNT s ((s.reset_time_ns : Int) + (k : Int) * (s.period_ns : Int))
  unfold CNT at h
  rw [h]
  unfold ticks
  have hx : ((k : Int) * (s.period_ns : Int)) = ((k * s.period_ns : Nat) : Int) := by
    push_cast; rfl
  rw [if_neg (by omega), hx, sub64_add_cancel, Nat.mod_eq_of_lt hk, Nat.mul_div_cancel _ hp]

theorem update_cnt_at_tick_witness :
    0 < demoState.period_ns ∧ 70000 * demoState.period_ns < 18446744073709551616 ∧
    VAL16
      (avr_timer16_update_cnt demoState
        ((demoState.reset_time_ns : Int) + ((70000 : Nat) : Int) * (demoState.period_ns : Int))).cntl
      (avr_timer16_update_cnt demoState
        ((demoState.reset_time_ns : Int) + ((70000 : Nat) : Int) * (demoState.period_ns : Int))).cnth
      = 70000 % 65536 :=
  ⟨by decide, by decide, update_cnt_at_tick demoState 70000 (by decide) (by decide)⟩

/-- C2: with `period_ns = 0`, at every virtual time `avr_timer16_update_cnt`
sets `cntl = cnth = 0`, and a read of the counter low byte (offset 0x4)
followed by a read of the high byte (offset 0x5) returns 0 and 0. -/
theorem read_cnt_zero_period (s : AVRTimer16State) (now now2 : Int) (hp : s.period_ns = 0) :
    (avr_timer16_update_cnt s now).cntl = 0 ∧ (avr_timer16_update_cnt s now).cnth = 0 ∧
    ∃ s1 s2, avr_timer16_read s T16_CNTL 1 now = some (0, s1) ∧
      avr_timer16_read s1 T16_CNTH 1 now2 = some (0, s2) := by
  have hl := update_cnt_cntl s now
  have hh := update_cnt_cnth s now
  have ht : ticks s now = 0 := by simp [ticks, hp]
  rw [ht] at hl hh
  refine ⟨hl, hh, ?_⟩
  simp [avr_timer16_read, hl, hh]

theorem read_cnt_zero_period_witness :
    ({ demoState with period_ns := 0 } : AVRTimer16State).period_ns = 0 ∧
    (avr_timer16_update_cnt { demoState with period_ns := 0 } 123456).cntl = 0 ∧
    (avr_timer16_update_cnt { demoState with period_ns := 0 } 123456).cnth = 0 ∧
    ∃ s1 s2, avr_timer16_read { demoState with period_ns := 0 } T16_CNTL 1 123456 = some (0, s1) ∧
      avr_timer16_read s1 T16_CNTH 1 123457 = some (0, s2) :=
  ⟨rfl, read_cnt_zero_period { demoState with period_ns := 0 } 123456 123457 rfl⟩

/-! ## Sixteen-bit accesses through the shared latch -/

/-- The read-back of a counter written high byte first, under the proviso
that `(256 * h + l) * period_ns` fits in 64 bits: the two writes set
`reset_time_ns` to `now - (256 * h + l) * period_ns` in 64-bit arithmetic
(exactly that difference when it is not negative), and reading offset 0x4
then offset 0x5 at the same virtual time returns `l` and then `h`. -/
theorem write_cnt_high_low_of_fit (s : AVRTimer16State) (h l : Nat) (now : Int)
    (hh : h < 256) (hl : l < 256) (hp : 0 < s.period_ns)
    (hfit : (256 * h + l) * s.period_ns < 18446744073709551616) :
    ∃ s1 s2 s3 s4,
      avr_timer16_write s T16_CNTH h 1 now = some s1 ∧
      avr_timer16_write s1 T16_CNTL l 1 now = some s2 ∧
      s2.reset_time_ns = toU64 (now - (((256 * h + l) * s.period_ns : Nat) : Int)) ∧
      ((((256 * h + l) * s.period_ns : Nat) : Int) ≤ now → now < 18446744073709551616 →
        (s2.reset_time_ns : Int) = now - (((256 * h + l) * s.period_ns : Nat) : Int)) ∧
      avr_timer16_read s2 T16_CNTL 1 now = some (l, s3) ∧
      avr_timer16_read s3 T16_CNTH 1 now = some (h, s4) := by
  obtain ⟨s1, e1, hrt1, -, -, hp1, -⟩ := write_CNTH_spec s h now
  obtain ⟨s2, e2, -, -, -, hp2, hreset⟩ := write_CNTL_spec s1 l now
  rw [hrt1, hp1, Nat.mod_eq_of_lt hh, Nat.mod_eq_of_lt hl, mul64, Nat.mod_eq_of_lt hfit]
    at hreset
  have ht : ticks s2 now = 256 * h + l := by
    rw [ticks_eq s2 now _ _ hreset (hp2.trans hp1), if_neg (by omega), sub64_sub64_cancel,
      Nat.mod_eq_of_lt hfit, Nat.mul_div_cancel _ hp]
  obtain ⟨s3, s4, e3, e4⟩ := read_cnt_pair s2 now now
  rw [ht] at e3 e4
  have hlo : (256 * h + l) % 65536 % 256 = l := by omega
  have hhi : (256 * h + l) % 65536 / 256 = h := by omega
  rw [hlo] at e3
  rw [hhi] at e4
  refine ⟨s1, s2, s3, s4, e1, e2, ?_, ?_, e3, e4⟩
  · rw [hreset, sub64_toU64]
  · intro h1 h2
    rw [hreset, sub64_toU64]
    unfold toU64
    omega

/-- A 16-bit value times a period of at most 1000000000 ns fits in 64 bits. -/
theorem cnt_period_fits (h l p : Nat) (hh : h < 256) (hl : l < 256) (hper : p ≤ 1000000000) :
    (256 * h + l) * p < 18446744073709551616 := by
  have h1 : 256 * h + l ≤ 65535 := by omega
  have h2 : (256 * h + l) * p ≤ 65535 * 1000000000 := Nat.mul_le_mul h1 hper
  omega

/-- C3: for every timer state with `period_ns > 0` and all bytes `h`, `l`,
writing `h` to the counter high byte (offset 0x5) and then `l` to the low
byte (offset 0x4) at virtual time `now` sets `reset_time_ns` to
`now - (256 * h + l) * period_ns` (in 64-bit arithmetic, exactly that
difference when it is not negative), and reading offset 0x4 then offset 0x5
at the same virtual time returns `l` and then `h`.  The states are those the
device can hold: the only assignment to `period_ns` in the source is
`1000000000ULL / freq_hz`, so `period_ns` is at most 1000000000. -/
theorem write_cnt_high_low_readback (s : AVRTimer16State) (h l : Nat) (now : Int)
    (hh : h < 256) (hl : l < 256) (hp : 0 < s.period_ns)
    (hper : s.period_ns ≤ 1000000000) :
    ∃ s1 s2 s3 s4,
      avr_timer16_write s T16_CNTH h 1 now = some s1 ∧
      avr_timer16_write s1 T16_CNTL l 1 now = some s2 ∧
      s2.reset_time_ns = toU64 (now - (((256 * h + l) * s.period_ns : Nat) : Int)) ∧
      ((((256 * h + l) * s.period_ns : Nat) : Int) ≤ now → now < 18446744073709551616 →
        (s2.reset_time_ns : Int) = now - (((256 * h + l) * s.period_ns : Nat) : Int)) ∧
      avr_timer16_read s2 T16_CNTL 1 now = some (l, s3) ∧
      avr_timer16_read s3 T16_CNTH 1 now = some (h, s4) :=
  write_cnt_high_low_of_fit s h l now hh hl hp (cnt_period_fits h l s.period_ns hh hl hper)

theorem write_cnt_high_low_readback_witness :
    (0x12 < 256 ∧ 0x34 < 256 ∧ 0 < demoState.period_ns ∧
      demoState.period_ns ≤ 1000000000) ∧
    ∃ s1 s2 s3 s4,
      avr_timer16_write demoState T16_CNTH 0x12 1 5000 = some s1 ∧
      avr_timer16_write s1 T16_CNTL 0x34 1 5000 = some s2 ∧
      s2.reset_time_ns =
        toU64 (5000 - (((256 * 0x12 + 0x34) * demoState.period_ns : Nat) : Int)) ∧
      ((((256 * 0x12 + 0x34) * demoState.period_ns : Nat) : Int) ≤ 5000 →
        (5000 : Int) < 18446744073709551616 →
        (s2.reset_time_ns : Int)
          = 5000 - (((256 * 0x12 + 0x34) * demoState.period_ns : Nat) : Int)) ∧
      avr_timer16_read s2 T16_CNTL 1 5000 = some (0x34, s3) ∧
      avr_timer16_read s3 T16_CNTH 1 5000 = some (0x12, s4) :=
  ⟨by decide, write_cnt_high_low_readback demoState 0x12 0x34 5000 (by decide) (by decide)
    (by decide) (by decide)⟩

/-- C4 (as stated, refuted): from a state whose latch holds 0, writing the low
byte 1 to offset 0x4 and then the high byte 2 to offset 0x5 and reading the
counter back at once returns the bytes 1 and 0, the value 1 and not
`256 * 2 + 1`. -/
theorem write_cnt_low_high_counterexample :
    WF demoState ∧ 0 < demoState.period_ns ∧
    ∃ s1 s2 s3 s4,
      avr_timer16_write demoState T16_CNTL 1 1 5000 = some s1 ∧
      avr_timer16_write s1 T16_CNTH 2 1 5000 = some s2 ∧
      avr_timer16_read s2 T16_CNTL 1 5000 = some (1, s3) ∧
      avr_timer16_read s3 T16_CNTH 1 5000 = some (0, s4) ∧
      256 * 0 + 1 ≠ 256 * 2 + 1 :=
  ⟨by decide, by decide, _, _, _, _, rfl, rfl, rfl, rfl, by decide⟩

/-- C4 (amended): for a timer with `period_ns > 0` whose latch holds the byte
`r = rtmp`, and bytes `l`, `h` such that `(256 * r + l) * period_ns` fits in 64
bits: writing `l` to the counter low byte (offset 0x4) and then `h` to the
high byte (offset 0x5) makes an immediately following read of offset 0x4 then
0x5 at the same virtual time return `l` and `r`, the value `256 * r + l`; the
byte `h` stays in the latch written by the high-byte write until the read
replaces it. -/
theorem write_cnt_low_high_readback (s : AVRTimer16State) (h l : Nat) (now : Int)
    (hl : l < 256) (hr : s.rtmp < 256) (hp : 0 < s.period_ns)
    (hfit : (256 * s.rtmp + l) * s.period_ns < 18446744073709551616) :
    ∃ s1 s2 s3 s4,
      avr_timer16_write s T16_CNTL l 1 now = some s1 ∧
      avr_timer16_write s1 T16_CNTH h 1 now = some s2 ∧
      s2.rtmp = h % 256 ∧
      avr_timer16_read s2 T16_CNTL 1 now = some (l, s3) ∧
      avr_timer16_read s3 T16_CNTH 1 now = some (s.rtmp, s4) ∧
      VAL16 l s.rtmp = 256 * s.rtmp + l := by
  obtain ⟨s1, e1, -, -, -, hp1, hreset⟩ := write_CNTL_spec s l now
  obtain ⟨s2, e2, hrt2, -, -, hp2, hreset2⟩ := write_CNTH_spec s1 h now
  rw [Nat.mod_eq_of_lt hl, mul64, Nat.mod_eq_of_lt hfit] at hreset
  have ht : ticks s2 now = 256 * s.rtmp + l := by
    rw [ticks_eq s2 now _ _ (hreset2.trans hreset) (hp2.trans hp1), if_neg (by omega),
      sub64_sub64_cancel, Nat.mod_eq_of_lt hfit, Nat.mul_div_cancel _ hp]
  obtain ⟨s3, s4, e3, e4⟩ := read_cnt_pair s2 now now
  rw [ht] at e3 e4
  have hlo : (256 * s.rtmp + l) % 65536 % 256 = l := by omega
  have hhi : (256 * s.rtmp + l) % 65536 / 256 = s.rtmp := by omega
  rw [hlo] at e3
  rw [hhi] at e4
  exact ⟨s1, s2, s3, s4, e1, e2, hrt2, e3, e4, VAL16_eq _ _ hl⟩

theorem write_cnt_low_high_readback_witness :
    (0x34 < 256 ∧ ({ demoState with rtmp := 0x56 } : AVRTimer16State).rtmp < 256 ∧
      0 < ({ demoState with rtmp := 0x56 } : AVRTimer16State).period_ns ∧
      (256 * ({ demoState with rtmp := 0x56 } : AVRTimer16State).rtmp + 0x34) *
        ({ demoState with rtmp := 0x56 } : AVRTimer16State).period_ns
          < 18446744073709551616) ∧
    ∃ s1 s2 s3 s4,
      avr_timer16_write { demoState with rtmp := 0x56 } T16_CNTL 0x34 1 5000 = some s1 ∧
      avr_timer16_write s1 T16_CNTH 0x12 1 5000 = some s2 ∧
      s2.rtmp = 0x12 % 256 ∧
      avr_timer16_read s2 T16_CNTL 1 5000 = some (0x34, s3) ∧
      avr_timer16_read s3 T16_CNTH 1 5000
        = some (({ demoState with rtmp := 0x56 } : AVRTimer16State).rtmp, s4) ∧
      VAL16 0x34 ({ demoState with rtmp := 0x56 } : AVRTimer16State).rtmp
        = 256 * ({ demoState with rtmp := 0x56 } : AVRTimer16State).rtmp + 0x34 :=
  ⟨by decide, write_cnt_low_high_readback { demoState with rtmp := 0x56 } 0x12 0x34 5000
    (by decide) (by decide) (by decide) (by decide)⟩

/-- C5: a read of the counter low byte (offset 0x4) stores the high byte of the
freshly updated counter in the shared latch `rtmp`, a read of the capture low
byte (offset 0x6) stores `icrh` there, and a read of either high-byte offset
(0x5 or 0x7) returns the latch of the state it is made in, whatever the
other fields of that state have become; in particular reading 0x6 then 0x7
returns `icrl` then `icrh`. -/
theorem read_low_latches_high (s : AVRTimer16State) (now now2 : Int) :
    (∃ s1, avr_timer16_read s T16_CNTL 1 now = some ((avr_timer16_update_cnt s now).cntl, s1) ∧
      s1.rtmp = (avr_timer16_update_cnt s now).cnth ∧ s1.cnth = s1.rtmp ∧
      s1.rtmp = (ticks s now % 65536) / 256) ∧
    (∃ s1, avr_timer16_read s T16_ICRL 1 now = some (s.icrl, s1) ∧ s1.rtmp = s.icrh) ∧
    (∀ t : AVRTimer16State,
      avr_timer16_read t T16_CNTH 1 now2 = some (t.rtmp, t) ∧
      avr_timer16_read t T16_ICRH 1 now2 = some (t.rtmp, t)) ∧
    (∃ s1 s2, avr_timer16_read s T16_ICRL 1 now = some (s.icrl, s1) ∧
      avr_timer16_read s1 T16_ICRH 1 now2 = some (s.icrh, s2)) := by
  refine ⟨⟨_, read_CNTL s now, rfl, rfl, update_cnt_cnth s now⟩,
    ⟨_, read_ICRL s now, rfl⟩, fun t => ⟨read_CNTH t now2, read_ICRH t now2⟩,
    ⟨_, _, read_ICRL s now, read_ICRH _ now2⟩⟩

/-! ## Capture register writes -/

theorem write_ICRL_other_mode (s : AVRTimer16State) (v : Nat) (now : Int)
    (hm : MODE s ≠ T16_MODE_CTC_ICR) :
    avr_timer16_write s T16_ICRL v 1 now = some (avr_timer16_set_alarm s) := by
  simp [avr_timer16_write, avr_timer16_write_switch, hm]

theorem write_ICRH_other_mode (s : AVRTimer16State) (v : Nat) (now : Int)
    (hm : MODE s ≠ T16_MODE_CTC_ICR) :
    avr_timer16_write s T16_ICRH v 1 now = some (avr_timer16_set_alarm s) := by
  simp [avr_timer16_write, avr_timer16_write_switch, hm]

theorem write_ICRH_ctc (s : AVRTimer16State) (v : Nat) (now : Int)
    (hm : MODE s = T16_MODE_CTC_ICR) :
    avr_timer16_write s T16_ICRH v 1 now =
      some (avr_timer16_set_alarm { s with rtmp := v % 256 }) := by
  simp [avr_timer16_write, avr_timer16_write_switch, hm]

theorem write_ICRL_ctc (s : AVRTimer16State) (v : Nat) (now : Int)
    (hm : MODE s = T16_MODE_CTC_ICR) :
    avr_timer16_write s T16_ICRL v 1 now =
      some (avr_timer16_set_alarm { s with icrl := v % 256, icrh := s.rtmp }) := by
  simp [avr_timer16_write, avr_timer16_write_switch, hm]

/-- C6: when the waveform mode is not 12, a write of any byte to offset 0x6 or
0x7 leaves `icrl`, `icrh` and the shared latch `rtmp` unchanged; when the mode
is 12, writing `h` to 0x7 and then `l` to 0x6 makes the capture register
equal `256 * h + l`. -/
theorem icr_write_gate (s : AVRTimer16State) (v h l : Nat) (now now2 : Int) :
    (MODE s ≠ T16_MODE_CTC_ICR →
      (∃ s1, avr_timer16_write s T16_ICRL v 1 now = some s1 ∧
        s1.icrl = s.icrl ∧ s1.icrh = s.icrh ∧ s1.rtmp = s.rtmp) ∧
      (∃ s1, avr_timer16_write s T16_ICRH v 1 now = some s1 ∧
        s1.icrl = s.icrl ∧ s1.icrh = s.icrh ∧ s1.rtmp = s.rtmp)) ∧
    (MODE s = T16_MODE_CTC_ICR → h < 256 → l < 256 →
      ∃ s1 s2, avr_timer16_write s T16_ICRH h 1 now = some s1 ∧
        avr_timer16_write s1 T16_ICRL l 1 now2 = some s2 ∧
        s2.icrl = l ∧ s2.icrh = h ∧ ICR s2 = 256 * h + l) := by
  constructor
  · intro hm
    exact ⟨⟨_, write_ICRL_other_mode s v now hm, by simp, by simp, by simp⟩,
      ⟨_, write_ICRH_other_mode s v now hm, by simp, by simp, by simp⟩⟩
  · intro hm hh hl
    have hm1 : MODE (avr_timer16_set_alarm { s with rtmp := h % 256 }) = T16_MODE_CTC_ICR := by
      rw [set_alarm_MODE]; exact hm
    refine ⟨_, _, write_ICRH_ctc s h now hm, write_ICRL_ctc _ l now2 hm1, ?_, ?_, ?_⟩
    · simp [Nat.mod_eq_of_lt hl]
    · simp [Nat.mod_eq_of_lt hh]
    · unfold ICR
      simp only [set_alarm_icrl, set_alarm_icrh, set_alarm_rtmp]
      rw [VAL16_eq _ _ (Nat.mod_lt _ (by decide)), Nat.mod_eq_of_lt hl, Nat.mod_eq_of_lt hh]

theorem icr_write_gate_witness :
    (MODE demoState ≠ T16_MODE_CTC_ICR ∧
      (∃ s1, avr_timer16_write demoState T16_ICRL 0x77 1 5000 = some s1 ∧
        s1.icrl = demoState.icrl ∧ s1.icrh = demoState.icrh ∧ s1.rtmp = demoState.rtmp) ∧
      (∃ s1, avr_timer16_write demoState T16_ICRH 0x77 1 5000 = some s1 ∧
        s1.icrl = demoState.icrl ∧ s1.icrh = demoState.icrh ∧ s1.rtmp = demoState.rtmp)) ∧
    (MODE { demoState with crb := 0x19 } = T16_MODE_CTC_ICR ∧ 0x12 < 256 ∧ 0x34 < 256 ∧
      ∃ s1 s2, avr_timer16_write { demoState with crb := 0x19 } T16_ICRH 0x12 1 5000 = some s1 ∧
        avr_timer16_write s1 T16_ICRL 0x34 1 6000 = some s2 ∧
        s2.icrl = 0x34 ∧ s2.icrh = 0x12 ∧ ICR s2 = 256 * 0x12 + 0x34) :=
  ⟨⟨by decide, (icr_write_gate demoState 0x77 0 0 5000 6000).1 (by decide)⟩,
    ⟨by decide, by decide, by decide,
      (icr_write_gate { demoState with crb := 0x19 } 0 0x12 0x34 5000 6000).2
        (by decide) (by decide) (by decide)⟩⟩

/-! ## Flag register -/

/-- C7 (as stated, refuted): with the flags at 3, writing 1 to the flags
register leaves the flags at 1, not at `3 AND NOT 1 = 2`: bit 0, written as 1,
is set and bit 1, written as 0, is cleared. -/
theorem ifr_write_counterexample :
    WF { demoState with ifr := 3 } ∧
    ∃ s1, avr_timer16_ifr_write { demoState with ifr := 3 } 0 1 1 = some s1 ∧
      s1.ifr = 1 ∧ s1.ifr ≠ 3 &&& (0xff ^^^ 1) :=
  ⟨by decide, _, rfl, rfl, by decide⟩

/-- C7 (amended): a write of `v` to the interrupt-flags register (offset 0 of
the flags window) stores the low eight bits of `v` as the new flags, whatever
the flags were, and changes no other field. -/
theorem ifr_write_stores (s : AVRTimer16State) (v : Nat) :
    ∃ s1, avr_timer16_ifr_write s 0 v 1 = some s1 ∧ s1.ifr = v % 256 ∧
      s1 = { s with ifr := v % 256 } :=
  ⟨_, rfl, rfl, rfl⟩

/-! ## The alarm callback, block by block -/

theorem interrupt_eq (s : AVRTimer16State) (now : Int) :
    avr_timer16_interrupt s now =
      if CLKSRC s = T16_CLKSRC_EXT_FALLING ∨ CLKSRC s = T16_CLKSRC_EXT_RISING ∨
          CLKSRC s = T16_CLKSRC_STOPPED then avr_timer16_update_cnt s now
      else avr_timer16_set_alarm
        (interrupt_flags (MODE s % 256) (avr_timer16_update_cnt s now) now) := rfl

theorem and_two_pow_ne_zero (m k : Nat) : m &&& 2 ^ k ≠ 0 ↔ m.testBit k = true := by
  constructor
  · intro h
    by_contra hb
    apply h
    apply Nat.eq_of_testBit_eq
    intro i
    rw [Nat.testBit_and, Nat.testBit_two_pow, Nat.zero_testBit]
    by_cases hik : k = i
    · subst hik; simp [hb]
    · simp [hik]
  · intro h h0
    have := Nat.testBit_and m (2 ^ k) k
    rw [h0, Nat.zero_testBit, h, Nat.testBit_two_pow_self] at this
    simp at this

theorem testBit_mod_256 (x i : Nat) :
    (x % 256).testBit i = (decide (i < 8) && x.testBit i) :=
  Nat.testBit_mod_two_pow x 8 i

theorem testBit_lt_8 (x i : Nat) (hx : x < 256) (h : x.testBit i = true) : i < 8 := by
  by_contra hi
  have h2 : x.testBit i = false := by
    apply Nat.testBit_lt_two_pow
    calc x < 2 ^ 8 := by simpa using hx
      _ ≤ 2 ^ i := Nat.pow_le_pow_right (by decide) (by omega)
  rw [h2] at h
  exact Bool.noConfusion h

/-- Bits of a flag byte after one flag has been raised in it. -/
theorem raise_testBit (x k i : Nat) :
    ((x ||| 2 ^ k) % 256).testBit i =
      (decide (i < 8) && (x.testBit i || decide (k = i))) := by
  rw [testBit_mod_256, Nat.testBit_or, Nat.testBit_two_pow]

/-- Raising flag `k`, whose mask bit is set, keeps the flags between the old
flags `f0` and `f0` joined with the mask `m`. -/
theorem raise_between (f0 m x k : Nat) (hf : f0 < 256) (hk : m &&& 2 ^ k ≠ 0)
    (hx : ∀ i, (f0.testBit i = true → x.testBit i = true) ∧
      (x.testBit i = true → f0.testBit i = false → m.testBit i = true)) :
    ∀ i, (f0.testBit i = true → ((x ||| 2 ^ k) % 256).testBit i = true) ∧
      (((x ||| 2 ^ k) % 256).testBit i = true → f0.testBit i = false →
        m.testBit i = true) := by
  intro i
  rw [raise_testBit]
  have hm := (and_two_pow_ne_zero m k).1 hk
  constructor
  · intro h
    have h8 := testBit_lt_8 f0 i hf h
    simp [h8, (hx i).1 h]
  · intro h h0
    simp only [Bool.and_eq_true, Bool.or_eq_true, decide_eq_true_eq] at h
    rcases h.2 with h1 | h1
    · exact (hx i).2 h1 h0
    · rw [← h1]; exact hm

@[simp] theorem update_cnt_crb (s : AVRTimer16State) (now : Int) :
    (avr_timer16_update_cnt s now).crb = s.crb := rfl
@[simp] theorem update_cnt_cra (s : AVRTimer16State) (now : Int) :
    (avr_timer16_update_cnt s now).cra = s.cra := rfl
@[simp] theorem update_cnt_imsk (s : AVRTimer16State) (now : Int) :
    (avr_timer16_update_cnt s now).imsk = s.imsk := rfl
@[simp] theorem update_cnt_ifr (s : AVRTimer16State) (now : Int) :
    (avr_timer16_update_cnt s now).ifr = s.ifr := rfl
@[simp] theorem update_cnt_next_interrupt (s : AVRTimer16State) (now : Int) :
    (avr_timer16_update_cnt s now).next_interrupt = s.next_interrupt := rfl
@[simp] theorem update_cnt_reset_time_ns (s : AVRTimer16State) (now : Int) :
    (avr_timer16_update_cnt s now).reset_time_ns = s.reset_time_ns := rfl
@[simp] theorem update_cnt_period_ns (s : AVRTimer16State) (now : Int) :
    (avr_timer16_update_cnt s now).period_ns = s.period_ns := rfl
@[simp] theorem update_cnt_compa_irq (s : AVRTimer16State) (now : Int) :
    (avr_timer16_update_cnt s now).compa_irq = s.compa_irq := rfl
@[simp] theorem update_cnt_CLKSRC (s : AVRTimer16State) (now : Int) :
    CLKSRC (avr_timer16_update_cnt s now) = CLKSRC s := rfl
@[simp] theorem update_cnt_MODE (s : AVRTimer16State) (now : Int) :
    MODE (avr_timer16_update_cnt s now) = MODE s := rfl

theorem interrupt_overflow_raises (t : AVRTimer16State) (now : Int) :
    RaisesAtMost 0 t (interrupt_overflow t now) := by
  show (interrupt_overflow t now).imsk = t.imsk ∧
    ((interrupt_overflow t now).ifr = t.ifr ∨
      (t.imsk &&& T16_INT_TOV ≠ 0 ∧
        (interrupt_overflow t now).ifr = (t.ifr ||| T16_INT_TOV) % 256))
  unfold interrupt_overflow avr_timer16_clock_reset
  dsimp only
  split_ifs with h1 h2
  · exact ⟨rfl, Or.inr ⟨h2, rfl⟩⟩
  · exact ⟨rfl, Or.inl rfl⟩
  · exact ⟨rfl, Or.inl rfl⟩

theorem interrupt_ctc_ocra_raises (mode : Nat) (t : AVRTimer16State) (now : Int) :
    RaisesAtMost 0 t (interrupt_ctc_ocra mode t now) := by
  unfold RaisesAtMost interrupt_ctc_ocra avr_timer16_clock_reset
  split_ifs with h1
  · exact ⟨rfl, Or.inl rfl⟩
  · exact ⟨rfl, Or.inl rfl⟩

theorem interrupt_ctc_icr_raises (mode : Nat) (t : AVRTimer16State) (now : Int) :
    RaisesAtMost 5 t (interrupt_ctc_icr mode t now) := by
  show (interrupt_ctc_icr mode t now).imsk = t.imsk ∧
    ((interrupt_ctc_icr mode t now).ifr = t.ifr ∨
      (t.imsk &&& T16_INT_IC ≠ 0 ∧
        (interrupt_ctc_icr mode t now).ifr = (t.ifr ||| T16_INT_IC) % 256))
  unfold interrupt_ctc_icr avr_timer16_clock_reset
  dsimp only
  split_ifs with h1 h2
  · exact ⟨rfl, Or.inr ⟨h2, rfl⟩⟩
  · exact ⟨rfl, Or.inl rfl⟩
  · exact ⟨rfl, Or.inl rfl⟩

theorem interrupt_compa_raises (t : AVRTimer16State) :
    RaisesAtMost 1 t (interrupt_compa t) := by
  show (interrupt_compa t).imsk = t.imsk ∧
    ((interrupt_compa t).ifr = t.ifr ∨
      (t.imsk &&& T16_INT_OCA ≠ 0 ∧ (interrupt_compa t).ifr = (t.ifr ||| T16_INT_OCA) % 256))
  unfold interrupt_compa
  split_ifs with h1
  · exact ⟨rfl, Or.inr ⟨h1.1, rfl⟩⟩
  · exact ⟨rfl, Or.inl rfl⟩

theorem interrupt_compb_raises (t : AVRTimer16State) :
    RaisesAtMost 2 t (interrupt_compb t) := by
  show (interrupt_compb t).imsk = t.imsk ∧
    ((interrupt_compb t).ifr = t.ifr ∨
      (t.imsk &&& T16_INT_OCB ≠ 0 ∧ (interrupt_compb t).ifr = (t.ifr ||| T16_INT_OCB) % 256))
  unfold interrupt_compb
  split_ifs with h1
  · exact ⟨rfl, Or.inr ⟨h1.1, rfl⟩⟩
  · exact ⟨rfl, Or.inl rfl⟩

theorem interrupt_compc_raises (t : AVRTimer16State) :
    RaisesAtMost 3 t (interrupt_compc t) := by
  show (interrupt_compc t).imsk = t.imsk ∧
    ((interrupt_compc t).ifr = t.ifr ∨
      (t.imsk &&& T16_INT_OCC ≠ 0 ∧ (interrupt_compc t).ifr = (t.ifr ||| T16_INT_OCC) % 256))
  unfold interrupt_compc
  split_ifs with h1
  · exact ⟨rfl, Or.inr ⟨h1.1, rfl⟩⟩
  · exact ⟨rfl, Or.inl rfl⟩

/-- A block that raises at most one masked flag keeps the flags between the
old flags `f0` and `f0` joined with the mask `m`. -/
theorem between_step (f0 m k : Nat) (t t1 : AVRTimer16State) (hf : f0 < 256)
    (hr : RaisesAtMost k t t1)
    (hx : t.imsk = m ∧ ∀ i, (f0.testBit i = true → t.ifr.testBit i = true) ∧
      (t.ifr.testBit i = true → f0.testBit i = false → m.testBit i = true)) :
    t1.imsk = m ∧ ∀ i, (f0.testBit i = true → t1.ifr.testBit i = true) ∧
      (t1.ifr.testBit i = true → f0.testBit i = false → m.testBit i = true) := by
  obtain ⟨hm, hcase⟩ := hr
  refine ⟨hm.trans hx.1, ?_⟩
  rcases hcase with h | ⟨hk, h⟩
  · rw [h]; exact hx.2
  · rw [h]
    exact raise_between f0 m t.ifr k hf (by rw [← hx.1]; exact hk) hx.2

/-- The flag blocks of the callback never clear a flag and only raise flags
whose mask bit is set. -/
theorem interrupt_flags_between (mode : Nat) (t : AVRTimer16State) (now : Int)
    (hf : t.ifr < 256) :
    ∀ i, (t.ifr.testBit i = true → (interrupt_flags mode t now).ifr.testBit i = true) ∧
      ((interrupt_flags mode t now).ifr.testBit i = true → t.ifr.testBit i = false →
        t.imsk.testBit i = true) := by
  have h0 : t.imsk = t.imsk ∧ ∀ i, (t.ifr.testBit i = true → t.ifr.testBit i = true) ∧
      (t.ifr.testBit i = true → t.ifr.testBit i = false → t.imsk.testBit i = true) :=
    ⟨rfl, fun i => ⟨id, fun h1 h2 => by rw [h1] at h2; exact Bool.noConfusion h2⟩⟩
  have h1 := between_step _ _ _ _ _ hf (interrupt_overflow_raises t now) h0
  have h2 := between_step _ _ _ _ _ hf (interrupt_ctc_ocra_raises mode _ now) h1
  have h3 := between_step _ _ _ _ _ hf (interrupt_ctc_icr_raises mode _ now) h2
  have h4 := between_step _ _ _ _ _ hf (interrupt_compa_raises _) h3
  have h5 := between_step _ _ _ _ _ hf (interrupt_compb_raises _) h4
  have h6 := between_step _ _ _ _ _ hf (interrupt_compc_raises _) h5
  exact h6.2

theorem clksrc_update_ifr (s s1 : AVRTimer16State)
    (h : avr_timer16_clksrc_update s = some s1) : s1.ifr = s.ifr := by
  unfold avr_timer16_clksrc_update at h
  dsimp only at h
  split_ifs at h <;> cases h <;> rfl

theorem write_switch_CRB (s : AVRTimer16State) (v p : Nat) (now : Int) :
    avr_timer16_write_switch s T16_CRB v p now =
      if CLKSRC { s with crb := v } ≠ p then
        match avr_timer16_clksrc_update { s with crb := v } with
        | none => none
        | some t16 =>
          if p = T16_CLKSRC_STOPPED then some { t16 with reset_time_ns := toU64 now }
          else some t16
      else some { s with crb := v } := rfl

theorem write_switch_ifr (s s1 : AVRTimer16State) (offset v p : Nat) (now : Int)
    (h : avr_timer16_write_switch s offset v p now = some s1) : s1.ifr = s.ifr := by
  have hcases : offset = 0 ∨ offset = 1 ∨ offset = 2 ∨ offset = 3 ∨ offset = 4 ∨
      offset = 5 ∨ offset = 6 ∨ offset = 7 ∨ offset = 8 ∨ offset = 9 ∨ offset = 10 ∨
      offset = 11 ∨ offset = 12 ∨ offset = 13 ∨ 14 ≤ offset := by omega
  rcases hcases with h0 | h0 | h0 | h0 | h0 | h0 | h0 | h0 | h0 | h0 | h0 | h0 | h0 | h0 | h0
  case inr.inl =>
    subst h0
    rw [write_switch_CRB] at h
    by_cases hc : CLKSRC { s with crb := v } ≠ p
    · rw [if_pos hc] at h
      cases hu : avr_timer16_clksrc_update { s with crb := v } with
      | none => rw [hu] at h; exact Option.noConfusion h
      | some b =>
        rw [hu] at h
        have hb2 : b.ifr = s.ifr := clksrc_update_ifr { s with crb := v } b hu
        dsimp only at h
        by_cases hp : p = T16_CLKSRC_STOPPED
        · rw [if_pos hp] at h
          cases h
          exact hb2
        · rw [if_neg hp] at h
          cases h
          exact hb2
    · rw [if_neg hc] at h
      cases h
      rfl
  case inr.inr.inr.inr.inr.inr.inr.inr.inr.inr.inr.inr.inr.inr =>
    have e0 : offset ≠ 0 := by omega
    have e1 : offset ≠ 1 := by omega
    have e2 : offset ≠ 2 := by omega
    have e4 : offset ≠ 4 := by omega
    have e5 : offset ≠ 5 := by omega
    have e6 : offset ≠ 6 := by omega
    have e7 : offset ≠ 7 := by omega
    have e8 : offset ≠ 8 := by omega
    have e9 : offset ≠ 9 := by omega
    have e10 : offset ≠ 10 := by omega
    have e11 : offset ≠ 11 := by omega
    have e12 : offset ≠ 12 := by omega
    have e13 : offset ≠ 13 := by omega
    simp only [avr_timer16_write_switch, e0, e1, e2, e4, e5, e6, e7, e8, e9, e10, e11, e12,
      e13, if_false] at h
    cases h; rfl
  all_goals
    subst h0
    simp only [avr_timer16_write_switch, avr_timer16_recalc_reset_time] at h
    norm_num at h
    first
      | (cases h; rfl)
      | (split_ifs at h <;> cases h <;> rfl)

theorem write_ifr (s s1 : AVRTimer16State) (offset v size : Nat) (now : Int)
    (h : avr_timer16_write s offset v size now = some s1) : s1.ifr = s.ifr := by
  unfold avr_timer16_write at h
  by_cases hs : size = 1
  · simp only [hs, ne_eq, not_true_eq_false, if_false] at h
    split at h
    · exact Option.noConfusion h
    · rename_i b hb
      cases h
      rw [set_alarm_ifr]
      exact write_switch_ifr _ _ _ _ _ _ hb
  · simp [hs] at h

theorem write_switch_isSome (s : AVRTimer16State) (offset v p : Nat) (now : Int)
    (ho : offset ≠ T16_CRB) : ∃ s1, avr_timer16_write_switch s offset v p now = some s1 := by
  have hcases : offset = 0 ∨ offset = 2 ∨ offset = 3 ∨ offset = 4 ∨
      offset = 5 ∨ offset = 6 ∨ offset = 7 ∨ offset = 8 ∨ offset = 9 ∨ offset = 10 ∨
      offset = 11 ∨ offset = 12 ∨ offset = 13 ∨ 14 ≤ offset := by
    have : offset ≠ 1 := ho
    omega
  rcases hcases with h0 | h0 | h0 | h0 | h0 | h0 | h0 | h0 | h0 | h0 | h0 | h0 | h0 | h0
  case inr.inr.inr.inr.inr.inr.inr.inr.inr.inr.inr.inr.inr =>
    have e0 : offset ≠ 0 := by omega
    have e1 : offset ≠ 1 := by omega
    have e2 : offset ≠ 2 := by omega
    have e4 : offset ≠ 4 := by omega
    have e5 : offset ≠ 5 := by omega
    have e6 : offset ≠ 6 := by omega
    have e7 : offset ≠ 7 := by omega
    have e8 : offset ≠ 8 := by omega
    have e9 : offset ≠ 9 := by omega
    have e10 : offset ≠ 10 := by omega
    have e11 : offset ≠ 11 := by omega
    have e12 : offset ≠ 12 := by omega
    have e13 : offset ≠ 13 := by omega
    simp only [avr_timer16_write_switch, e0, e1, e2, e4, e5, e6, e7, e8, e9, e10, e11, e12,
      e13, if_false]
    exact ⟨_, rfl⟩
  all_goals
    subst h0
    simp only [avr_timer16_write_switch, Nat.reduceEqDiff, if_true, if_false]
    first
      | exact ⟨_, rfl⟩
      | (split_ifs <;> exact ⟨_, rfl⟩)

theorem write_isSome (s : AVRTimer16State) (offset v : Nat) (now : Int)
    (ho : offset ≠ T16_CRB) : ∃ s1, avr_timer16_write s offset v 1 now = some s1 := by
  obtain ⟨b, hb⟩ := write_switch_isSome s offset (v % 256) (CLKSRC s % 256) now ho
  refine ⟨avr_timer16_set_alarm b, ?_⟩
  unfold avr_timer16_write
  simp only [ne_eq, not_true_eq_false, if_false, hb]

/-- C8: the alarm callback never clears a bit of `ifr` and only adds bits
that are set in `imsk`; no write to the 14-byte register window and no write
to the mask register changes `ifr` (and those writes do complete, the
control-register-B write apart, which can fail in the clock-source update). -/
theorem ifr_only_grows (s : AVRTimer16State) (now : Int) (hf : s.ifr < 256) :
    (∀ i, s.ifr.testBit i = true → (avr_timer16_interrupt s now).ifr.testBit i = true) ∧
    (∀ i, (avr_timer16_interrupt s now).ifr.testBit i = true → s.ifr.testBit i = false →
      s.imsk.testBit i = true) ∧
    (∀ offset v size t s1, avr_timer16_write s offset v size t = some s1 → s1.ifr = s.ifr) ∧
    (∀ offset v t, offset ≠ T16_CRB → ∃ s1, avr_timer16_write s offset v 1 t = some s1) ∧
    (∀ offset v size s1, avr_timer16_imsk_write s offset v size = some s1 → s1.ifr = s.ifr) ∧
    (∀ offset v, ∃ s1, avr_timer16_imsk_write s offset v 1 = some s1) := by
  have key : ∀ i, (s.ifr.testBit i = true → (avr_timer16_interrupt s now).ifr.testBit i = true) ∧
      ((avr_timer16_interrupt s now).ifr.testBit i = true → s.ifr.testBit i = false →
        s.imsk.testBit i = true) := by
    rw [interrupt_eq]
    split_ifs with hc
    · intro i
      exact ⟨id, fun h1 h2 => by rw [update_cnt_ifr, h2] at h1; exact Bool.noConfusion h1⟩
    · intro i
      rw [set_alarm_ifr]
      exact interrupt_flags_between (MODE s % 256) (avr_timer16_update_cnt s now) now hf i
  refine ⟨fun i => (key i).1, fun i => (key i).2, ?_, ?_, ?_, ?_⟩
  · intro offset v size t s1 h
    exact write_ifr s s1 offset v size t h
  · intro offset v t ho
    exact write_isSome s offset v t ho
  · intro offset v size s1 h
    unfold avr_timer16_imsk_write at h
    split_ifs at h <;> cases h <;> rfl
  · intro offset v
    unfold avr_timer16_imsk_write
    split_ifs
    · contradiction
    · exact ⟨_, rfl⟩
    · exact ⟨_, rfl⟩

theorem ifr_only_grows_witness :
    ({ demoState with ifr := 1, next_interrupt := NextInterrupt.COMPA } : AVRTimer16State).ifr < 256 ∧
    (avr_timer16_interrupt { demoState with ifr := 1, next_interrupt := NextInterrupt.COMPA }
      6000).ifr.testBit 0 = true ∧
    (avr_timer16_interrupt { demoState with ifr := 1, next_interrupt := NextInterrupt.COMPA }
      6000).ifr.testBit 1 = true ∧
    ({ demoState with ifr := 1, next_interrupt := NextInterrupt.COMPA } : AVRTimer16State).imsk.testBit 1
      = true :=
  ⟨by decide,
    (ifr_only_grows { demoState with ifr := 1, next_interrupt := NextInterrupt.COMPA } 6000
      (by decide)).1 0 (by decide),
    by decide,
    (ifr_only_grows { demoState with ifr := 1, next_interrupt := NextInterrupt.COMPA } 6000
      (by decide)).2.1 1 (by decide) (by decide)⟩

/-! ## Scheduling and firing of compare A -/

theorem interrupt_of_running (s : AVRTimer16State) (now : Int) (hrun : ClockRunning s) :
    avr_timer16_interrupt s now =
      avr_timer16_set_alarm
        (interrupt_flags (MODE s % 256) (avr_timer16_update_cnt s now) now) := by
  rw [interrupt_eq, if_neg hrun]

theorem interrupt_overflow_of_ne (t : AVRTimer16State) (now : Int)
    (h : t.next_interrupt ≠ NextInterrupt.OVERFLOW) : interrupt_overflow t now = t := by
  unfold interrupt_overflow
  rw [if_neg h]

theorem interrupt_ctc_ocra_of_not (mode : Nat) (t : AVRTimer16State) (now : Int)
    (h : ¬ (mode = T16_MODE_CTC_OCRA ∧ t.next_interrupt = NextInterrupt.COMPA)) :
    interrupt_ctc_ocra mode t now = t := by
  unfold interrupt_ctc_ocra
  rw [if_neg h]

theorem interrupt_ctc_ocra_of_compa (t : AVRTimer16State) (now : Int)
    (h : t.next_interrupt = NextInterrupt.COMPA) :
    interrupt_ctc_ocra T16_MODE_CTC_OCRA t now = avr_timer16_clock_reset t now := by
  unfold interrupt_ctc_ocra
  rw [if_pos ⟨rfl, h⟩]

theorem interrupt_ctc_icr_of_not (mode : Nat) (t : AVRTimer16State) (now : Int)
    (h : ¬ (mode = T16_MODE_CTC_ICR ∧ t.next_interrupt = NextInterrupt.CAPT)) :
    interrupt_ctc_icr mode t now = t := by
  unfold interrupt_ctc_icr
  rw [if_neg h]

theorem interrupt_compb_of_ne (t : AVRTimer16State)
    (h : t.next_interrupt ≠ NextInterrupt.COMPB) : interrupt_compb t = t := by
  unfold interrupt_compb
  rw [if_neg (fun hc => h hc.2)]

theorem interrupt_compc_of_ne (t : AVRTimer16State)
    (h : t.next_interrupt ≠ NextInterrupt.COMPC) : interrupt_compc t = t := by
  unfold interrupt_compc
  rw [if_neg (fun hc => h hc.2)]

theorem interrupt_compa_of_masked (t : AVRTimer16State)
    (hn : t.next_interrupt = NextInterrupt.COMPA) (hm : t.imsk &&& T16_INT_OCA ≠ 0) :
    interrupt_compa t =
      { t with ifr := (t.ifr ||| T16_INT_OCA) % 256, compa_irq := true } := by
  unfold interrupt_compa
  rw [if_pos ⟨hm, hn⟩]

theorem interrupt_compa_of_unmasked (t : AVRTimer16State)
    (hm : t.imsk &&& T16_INT_OCA = 0) : interrupt_compa t = t := by
  unfold interrupt_compa
  rw [if_neg (fun hc => hc.1 hm)]

/-- With compare A recorded as the pending event, the flag blocks reduce to
the compare-A block, preceded by the counter reset in mode 4. -/
theorem interrupt_flags_of_compa (mode : Nat) (t : AVRTimer16State) (now : Int)
    (hn : t.next_interrupt = NextInterrupt.COMPA) :
    interrupt_flags mode t now =
      interrupt_compa (if mode = T16_MODE_CTC_OCRA then avr_timer16_clock_reset t now else t) := by
  unfold interrupt_flags
  rw [interrupt_overflow_of_ne t now (by rw [hn]; decide)]
  by_cases hm : mode = T16_MODE_CTC_OCRA
  · subst hm
    rw [interrupt_ctc_ocra_of_compa t now hn, if_pos rfl,
      interrupt_ctc_icr_of_not _ _ _ (fun hc => absurd hc.1 (by decide))]
    have hn2 : (interrupt_compa (avr_timer16_clock_reset t now)).next_interrupt
        = NextInterrupt.COMPA := by
      unfold interrupt_compa
      split_ifs <;> exact hn
    rw [interrupt_compb_of_ne _ (by rw [hn2]; decide),
      interrupt_compc_of_ne _ (by rw [hn2]; decide)]
  · rw [interrupt_ctc_ocra_of_not mode t now (fun hc => hm hc.1), if_neg hm,
      interrupt_ctc_icr_of_not mode t now (fun hc => by rw [hn] at hc; exact absurd hc.2 (by decide))]
    have hn2 : (interrupt_compa t).next_interrupt = NextInterrupt.COMPA := by
      unfold interrupt_compa
      split_ifs <;> exact hn
    rw [interrupt_compb_of_ne _ (by rw [hn2]; decide),
      interrupt_compc_of_ne _ (by rw [hn2]; decide)]

theorem raised_bit_set (x k : Nat) (hk : k < 8) : ((x ||| 2 ^ k) % 256) &&& 2 ^ k ≠ 0 := by
  rw [and_two_pow_ne_zero, raise_testBit]
  simp [hk]

/-- What the scheduler records when compare A is the only candidate below
0xffff: the pending event and the deadline. -/
theorem set_alarm_compa (s : AVRTimer16State) (hrun : ClockRunning s)
    (hmode : MODE s = T16_MODE_NORMAL ∧ s.imsk &&& T16_INT_OCA ≠ 0 ∨ MODE s = T16_MODE_CTC_OCRA)
    (hB : s.imsk &&& T16_INT_OCB = 0) (hC : s.imsk &&& T16_INT_OCC = 0)
    (ho : OCRA s < 0xffff) (hc : CNT s < OCRA s) :
    (avr_timer16_set_alarm s).next_interrupt = NextInterrupt.COMPA ∧
    (avr_timer16_set_alarm s).timer =
      some ((s.reset_time_ns + OCRA s * s.period_ns) % 18446744073709551616) := by
  have harith : add64 s.reset_time_ns
      (mul64 (add64 (CNT s) (sub64 (OCRA s) (CNT s))) s.period_ns)
      = (s.reset_time_ns + OCRA s * s.period_ns) % 18446744073709551616 := by
    have h1 : add64 (CNT s) (sub64 (OCRA s) (CNT s)) = OCRA s := by
      unfold add64 sub64; omega
    rw [h1]
    unfold add64 mul64
    omega
  unfold ClockRunning at hrun
  unfold avr_timer16_set_alarm
  rw [if_neg hrun]
  rcases hmode with ⟨hm, hA⟩ | hm
  · simp [hm, hA, hB, hC, ho, hc]
    exact harith
  · simp [hm, hB, hC, ho, hc]
    exact harith

/-- The state after the callback when compare A is the pending event: the
scheduler is run on the state in which the counter has been updated (and
reset in mode 4) and the compare-A block applied. -/
theorem interrupt_of_compa (s : AVRTimer16State) (now : Int) (hrun : ClockRunning s)
    (hn : s.next_interrupt = NextInterrupt.COMPA) :
    avr_timer16_interrupt s now =
      avr_timer16_set_alarm (interrupt_compa
        (if MODE s % 256 = T16_MODE_CTC_OCRA then
          avr_timer16_clock_reset (avr_timer16_update_cnt s now) now
        else avr_timer16_update_cnt s now)) := by
  rw [interrupt_of_running s now hrun, interrupt_flags_of_compa _ _ _ (by simpa using hn)]

theorem set_alarm_ClockRunning (s : AVRTimer16State) (h : ClockRunning s) :
    ClockRunning (avr_timer16_set_alarm s) := by
  unfold ClockRunning at *
  simpa using h

/-- C9 (as stated, refuted): in free-run mode with compare A at 100 and its
mask bit set, the scheduler records COMPA with deadline 6000 ns; when the
callback runs at 3277800 ns, one full lap of 65536 ticks after the reset
time and so after the deadline, `reset_time_ns` is unchanged but the stored
counter is 0, not a value of 100 or more. -/
theorem compa_free_run_lap_counterexample :
    WF demoState ∧ MODE demoState = T16_MODE_NORMAL ∧ ClockRunning demoState ∧ 0 < demoState.period_ns ∧
    demoState.imsk &&& T16_INT_OCA ≠ 0 ∧ demoState.imsk &&& T16_INT_OCB = 0 ∧
    demoState.imsk &&& T16_INT_OCC = 0 ∧ OCRA demoState = 100 ∧ CNT demoState < 100 ∧
    (avr_timer16_set_alarm demoState).next_interrupt = NextInterrupt.COMPA ∧
    (avr_timer16_set_alarm demoState).timer = some 6000 ∧
    (6000 : Int) ≤ 3277800 ∧
    (avr_timer16_interrupt (avr_timer16_set_alarm demoState) 3277800).reset_time_ns
      = demoState.reset_time_ns ∧
    CNT (avr_timer16_interrupt (avr_timer16_set_alarm demoState) 3277800) = 0 ∧
    ¬ (100 ≤ CNT (avr_timer16_interrupt (avr_timer16_set_alarm demoState) 3277800)) := by
  decide

/-- C9 (amended): in free-run mode (MODE = 0) with a running clock, the
compare-A mask bit set, compare A = 100, a stored counter below 100 and the
compare B and C masks clear, `avr_timer16_set_alarm` records COMPA with
deadline `reset_time_ns + 100 * period_ns` (modulo 2^64); when
`avr_timer16_interrupt` then runs, at any virtual time, the compare-A flag is
set in `ifr`, the compare-A IRQ line is raised and `reset_time_ns` is
unchanged; the stored counter is the tick count since `reset_time_ns` modulo
65536, which is at least 100 when the callback runs at or after the deadline
and less than 65536 periods after `reset_time_ns`. -/
theorem compa_free_run (s : AVRTimer16State) (now : Int) (hrun : ClockRunning s)
    (hmode : MODE s = T16_MODE_NORMAL) (hA : s.imsk &&& T16_INT_OCA ≠ 0)
    (hB : s.imsk &&& T16_INT_OCB = 0) (hC : s.imsk &&& T16_INT_OCC = 0)
    (hocra : OCRA s = 100) (hcnt : CNT s < 100) :
    (avr_timer16_set_alarm s).next_interrupt = NextInterrupt.COMPA ∧
    (avr_timer16_set_alarm s).timer =
      some ((s.reset_time_ns + 100 * s.period_ns) % 18446744073709551616) ∧
    (avr_timer16_interrupt (avr_timer16_set_alarm s) now).ifr &&& T16_INT_OCA ≠ 0 ∧
    (avr_timer16_interrupt (avr_timer16_set_alarm s) now).compa_irq = true ∧
    (avr_timer16_interrupt (avr_timer16_set_alarm s) now).reset_time_ns = s.reset_time_ns ∧
    CNT (avr_timer16_interrupt (avr_timer16_set_alarm s) now) = ticks s now % 65536 ∧
    (0 < s.period_ns →
      (s.reset_time_ns : Int) + 100 * (s.period_ns : Int) ≤ now →
      now < (s.reset_time_ns : Int) + 65536 * (s.period_ns : Int) →
      now < 18446744073709551616 →
      100 ≤ CNT (avr_timer16_interrupt (avr_timer16_set_alarm s) now)) := by
  obtain ⟨hn, htimer⟩ := set_alarm_compa s hrun (Or.inl ⟨hmode, hA⟩) hB hC
    (by rw [hocra]; decide) (by rw [hocra]; exact hcnt)
  rw [hocra] at htimer
  have hm1 : ¬ (MODE (avr_timer16_set_alarm s) % 256 = T16_MODE_CTC_OCRA) := by
    rw [set_alarm_MODE, hmode]; decide
  have hI := interrupt_of_compa (avr_timer16_set_alarm s) now (set_alarm_ClockRunning s hrun) hn
  rw [if_neg hm1] at hI
  have hc1 : interrupt_compa (avr_timer16_update_cnt (avr_timer16_set_alarm s) now) =
      { avr_timer16_update_cnt (avr_timer16_set_alarm s) now with
        ifr := ((avr_timer16_update_cnt (avr_timer16_set_alarm s) now).ifr ||| T16_INT_OCA) % 256,
        compa_irq := true } :=
    interrupt_compa_of_masked _ (by simpa using hn) (by simpa using hA)
  rw [hc1] at hI
  have hcnt2 : CNT (avr_timer16_interrupt (avr_timer16_set_alarm s) now)
      = ticks s now % 65536 := by
    rw [hI]
    have := update_cnt_CNT (avr_timer16_set_alarm s) now
    rw [set_alarm_ticks] at this
    rw [← this]
    unfold CNT
    simp only [set_alarm_cntl, set_alarm_cnth]
  refine ⟨hn, htimer, ?_, ?_, ?_, hcnt2, ?_⟩
  · rw [hI, set_alarm_ifr]
    exact raised_bit_set _ 1 (by decide)
  · rw [hI, set_alarm_compa_irq]
  · rw [hI, set_alarm_reset_time_ns]
    simp
  · intro hp h1 h2 h3
    rw [hcnt2]
    unfold ticks
    rw [if_neg (by omega)]
    have h0 : 0 ≤ now := by omega
    obtain ⟨n, rfl⟩ := Int.eq_ofNat_of_zero_le h0
    have he : sub64 (toU64 (n : Int)) s.reset_time_ns = n - s.reset_time_ns := by
      unfold sub64 toU64
      omega
    rw [he]
    have hlo : 100 ≤ (n - s.reset_time_ns) / s.period_ns := by
      rw [Nat.le_div_iff_mul_le hp]
      omega
    have hhi : (n - s.reset_time_ns) / s.period_ns < 65536 := by
      rw [Nat.div_lt_iff_lt_mul hp]
      omega
    omega

theorem compa_free_run_witness :
    (ClockRunning demoState ∧ MODE demoState = T16_MODE_NORMAL ∧
      demoState.imsk &&& T16_INT_OCA ≠ 0 ∧ demoState.imsk &&& T16_INT_OCB = 0 ∧
      demoState.imsk &&& T16_INT_OCC = 0 ∧ OCRA demoState = 100 ∧ CNT demoState < 100) ∧
    (avr_timer16_set_alarm demoState).next_interrupt = NextInterrupt.COMPA ∧
    (avr_timer16_interrupt (avr_timer16_set_alarm demoState) 6049).ifr &&& T16_INT_OCA ≠ 0 ∧
    (avr_timer16_interrupt (avr_timer16_set_alarm demoState) 6049).compa_irq = true ∧
    100 ≤ CNT (avr_timer16_interrupt (avr_timer16_set_alarm demoState) 6049) :=
  ⟨by decide,
    (compa_free_run demoState 6049 (by decide) (by decide) (by decide) (by decide) (by decide)
      (by decide) (by decide)).1,
    (compa_free_run demoState 6049 (by decide) (by decide) (by decide) (by decide) (by decide)
      (by decide) (by decide)).2.2.1,
    (compa_free_run demoState 6049 (by decide) (by decide) (by decide) (by decide) (by decide)
      (by decide) (by decide)).2.2.2.1,
    (compa_free_run demoState 6049 (by decide) (by decide) (by decide) (by decide) (by decide)
      (by decide) (by decide)).2.2.2.2.2.2 (by decide) (by decide) (by decide) (by decide)⟩

/-- C10: in compare-A-as-top mode (MODE = 4) with a running clock, compare
A = 50, a stored counter below 50 and the compare B and C masks clear, the
scheduler records COMPA at tick 50 whether or not the compare-A mask bit is
set; when the callback then runs the counter is reset (`cntl = cnth = 0`,
`reset_time_ns = now`), so the next counter read at that time returns 0, and
the compare-A flag, clear before, is set by that callback if and only if the
compare-A mask bit is set. -/
theorem compa_ctc_reset (s : AVRTimer16State) (now : Int) (hrun : ClockRunning s)
    (hmode : MODE s = T16_MODE_CTC_OCRA)
    (hB : s.imsk &&& T16_INT_OCB = 0) (hC : s.imsk &&& T16_INT_OCC = 0)
    (hocra : OCRA s = 50) (hcnt : CNT s < 50) :
    (avr_timer16_set_alarm s).next_interrupt = NextInterrupt.COMPA ∧
    (avr_timer16_set_alarm s).timer =
      some ((s.reset_time_ns + 50 * s.period_ns) % 18446744073709551616) ∧
    (avr_timer16_interrupt (avr_timer16_set_alarm s) now).cntl = 0 ∧
    (avr_timer16_interrupt (avr_timer16_set_alarm s) now).cnth = 0 ∧
    (avr_timer16_interrupt (avr_timer16_set_alarm s) now).reset_time_ns = toU64 now ∧
    (0 ≤ now → now < 18446744073709551616 →
      ((avr_timer16_interrupt (avr_timer16_set_alarm s) now).reset_time_ns : Int) = now) ∧
    (∃ s3 s4,
      avr_timer16_read (avr_timer16_interrupt (avr_timer16_set_alarm s) now) T16_CNTL 1 now
        = some (0, s3) ∧
      avr_timer16_read s3 T16_CNTH 1 now = some (0, s4)) ∧
    (s.ifr &&& T16_INT_OCA = 0 →
      ((avr_timer16_interrupt (avr_timer16_set_alarm s) now).ifr &&& T16_INT_OCA ≠ 0 ↔
        s.imsk &&& T16_INT_OCA ≠ 0)) := by
  obtain ⟨hn, htimer⟩ := set_alarm_compa s hrun (Or.inr hmode) hB hC
    (by rw [hocra]; decide) (by rw [hocra]; exact hcnt)
  rw [hocra] at htimer
  have hm1 : MODE (avr_timer16_set_alarm s) % 256 = T16_MODE_CTC_OCRA := by
    rw [set_alarm_MODE, hmode]
    decide
  have hI := interrupt_of_compa (avr_timer16_set_alarm s) now (set_alarm_ClockRunning s hrun) hn
  rw [if_pos hm1] at hI
  have hreset : (avr_timer16_interrupt (avr_timer16_set_alarm s) now).reset_time_ns
      = toU64 now := by
    rw [hI, set_alarm_reset_time_ns]
    unfold interrupt_compa avr_timer16_clock_reset
    split_ifs <;> rfl
  have hcntl : (avr_timer16_interrupt (avr_timer16_set_alarm s) now).cntl = 0 := by
    rw [hI, set_alarm_cntl]
    unfold interrupt_compa avr_timer16_clock_reset
    split_ifs <;> rfl
  have hcnth : (avr_timer16_interrupt (avr_timer16_set_alarm s) now).cnth = 0 := by
    rw [hI, set_alarm_cnth]
    unfold interrupt_compa avr_timer16_clock_reset
    split_ifs <;> rfl
  have hticks : ticks (avr_timer16_interrupt (avr_timer16_set_alarm s) now) now = 0 := by
    unfold ticks
    rw [hreset, sub64_self]
    split_ifs
    · rfl
    · exact Nat.zero_div _
  refine ⟨hn, htimer, hcntl, hcnth, hreset, ?_, ?_, ?_⟩
  · intro h0 h1
    rw [hreset]
    unfold toU64
    omega
  · obtain ⟨s3, s4, e3, e4⟩ :=
      read_cnt_pair (avr_timer16_interrupt (avr_timer16_set_alarm s) now) now now
    rw [hticks] at e3 e4
    exact ⟨s3, s4, e3, e4⟩
  · intro hclear
    rw [hI, set_alarm_ifr]
    by_cases hA : s.imsk &&& T16_INT_OCA = 0
    · rw [interrupt_compa_of_unmasked _ (by simpa [avr_timer16_clock_reset] using hA)]
      simp only [avr_timer16_clock_reset, update_cnt_ifr, set_alarm_ifr]
      exact ⟨fun h => absurd hclear h, fun h => absurd hA h⟩
    · rw [interrupt_compa_of_masked _ (by simpa [avr_timer16_clock_reset] using hn)
        (by simpa [avr_timer16_clock_reset] using hA)]
      exact ⟨fun _ => hA, fun _ => raised_bit_set _ 1 (by decide)⟩

theorem compa_ctc_reset_witness :
    (ClockRunning { demoState with crb := 9, ocral := 50, imsk := 0 } ∧
      MODE { demoState with crb := 9, ocral := 50, imsk := 0 } = T16_MODE_CTC_OCRA ∧
      ({ demoState with crb := 9, ocral := 50, imsk := 0 } : AVRTimer16State).imsk
        &&& T16_INT_OCB = 0 ∧
      ({ demoState with crb := 9, ocral := 50, imsk := 0 } : AVRTimer16State).imsk
        &&& T16_INT_OCC = 0 ∧
      OCRA { demoState with crb := 9, ocral := 50, imsk := 0 } = 50 ∧
      CNT { demoState with crb := 9, ocral := 50, imsk := 0 } < 50) ∧
    (avr_timer16_set_alarm { demoState with crb := 9, ocral := 50, imsk := 0 }).next_interrupt
      = NextInterrupt.COMPA ∧
    (avr_timer16_interrupt
      (avr_timer16_set_alarm { demoState with crb := 9, ocral := 50, imsk := 0 })
      3500).reset_time_ns = toU64 3500 :=
  ⟨by decide,
    (compa_ctc_reset { demoState with crb := 9, ocral := 50, imsk := 0 } 3500 (by decide)
      (by decide) (by decide) (by decide) (by decide) (by decide)).1,
    (compa_ctc_reset { demoState with crb := 9, ocral := 50, imsk := 0 } 3500 (by decide)
      (by decide) (by decide) (by decide) (by decide) (by decide)).2.2.2.2.1⟩

/-! ## The scheduler as a choice of target -/

/-- The scheduler arms the deadline of the chosen target and records its
event, or leaves the state alone when it chooses none. -/
theorem set_alarm_eq (s : AVRTimer16State) :
    avr_timer16_set_alarm s =
      match set_alarm_target s with
      | none => s
      | some c =>
        { s with next_interrupt := c.2, timer := some (set_alarm_deadline s c.1) } := by
  unfold avr_timer16_set_alarm set_alarm_target
  by_cases hclk : CLKSRC s = T16_CLKSRC_EXT_FALLING ∨ CLKSRC s = T16_CLKSRC_EXT_RISING ∨
      CLKSRC s = T16_CLKSRC_STOPPED
  · rw [if_pos hclk, if_pos hclk]
  · rw [if_neg hclk, if_neg hclk]
    show (match set_alarm_mode_target s with
      | none => s
      | some a =>
        { s with next_interrupt := (set_alarm_compare_target s a).2,
                 timer := some (set_alarm_deadline s (set_alarm_compare_target s a).1) })
      = _
    cases set_alarm_mode_target s <;> rfl

theorem set_alarm_of_none (s : AVRTimer16State) (h : set_alarm_target s = none) :
    avr_timer16_set_alarm s = s := by
  rw [set_alarm_eq, h]

theorem set_alarm_of_some (s : AVRTimer16State) (c : Nat × NextInterrupt)
    (h : set_alarm_target s = some c) :
    avr_timer16_set_alarm s =
      { s with next_interrupt := c.2, timer := some (set_alarm_deadline s c.1) } := by
  rw [set_alarm_eq, h]

/-- The choice of the scheduler does not look at `next_interrupt` or at the
armed deadline. -/
theorem set_alarm_target_frame (s : AVRTimer16State) (n : NextInterrupt) (t : Option Nat) :
    set_alarm_target { s with next_interrupt := n, timer := t } = set_alarm_target s := rfl

@[simp] theorem set_alarm_ovf_irq (s : AVRTimer16State) :
    (avr_timer16_set_alarm s).ovf_irq = s.ovf_irq := by rw [set_alarm_frame]
@[simp] theorem set_alarm_compb_irq (s : AVRTimer16State) :
    (avr_timer16_set_alarm s).compb_irq = s.compb_irq := by rw [set_alarm_frame]
@[simp] theorem set_alarm_compc_irq (s : AVRTimer16State) :
    (avr_timer16_set_alarm s).compc_irq = s.compc_irq := by rw [set_alarm_frame]
@[simp] theorem set_alarm_capt_irq (s : AVRTimer16State) :
    (avr_timer16_set_alarm s).capt_irq = s.capt_irq := by rw [set_alarm_frame]

/-! ## Overflow -/

/-- With the overflow recorded as the pending event, the flag blocks reduce
to the overflow block. -/
theorem interrupt_flags_of_overflow (mode : Nat) (t : AVRTimer16State) (now : Int)
    (hn : t.next_interrupt = NextInterrupt.OVERFLOW) :
    interrupt_flags mode t now = interrupt_overflow t now := by
  have hn1 : (interrupt_overflow t now).next_interrupt = NextInterrupt.OVERFLOW := by
    unfold interrupt_overflow avr_timer16_clock_reset
    dsimp only
    split_ifs <;> exact hn
  unfold interrupt_flags
  rw [interrupt_ctc_ocra_of_not mode _ now (fun hc => by rw [hn1] at hc; exact absurd hc.2 (by decide)),
    interrupt_ctc_icr_of_not mode _ now (fun hc => by rw [hn1] at hc; exact absurd hc.2 (by decide))]
  have hA : interrupt_compa (interrupt_overflow t now) = interrupt_overflow t now := by
    unfold interrupt_compa
    rw [if_neg (fun hc => by rw [hn1] at hc; exact absurd hc.2 (by decide))]
  rw [hA, interrupt_compb_of_ne _ (by rw [hn1]; decide),
    interrupt_compc_of_ne _ (by rw [hn1]; decide)]

theorem interrupt_overflow_masked (t : AVRTimer16State) (now : Int)
    (hn : t.next_interrupt = NextInterrupt.OVERFLOW) (hm : t.imsk &&& T16_INT_TOV ≠ 0) :
    interrupt_overflow t now =
      { avr_timer16_clock_reset t now with
        ifr := (t.ifr ||| T16_INT_TOV) % 256, ovf_irq := true } := by
  unfold interrupt_overflow
  rw [if_pos hn]
  dsimp only
  rw [if_pos (by simpa [avr_timer16_clock_reset] using hm)]
  rfl

theorem interrupt_overflow_unmasked (t : AVRTimer16State) (now : Int)
    (hn : t.next_interrupt = NextInterrupt.OVERFLOW) (hm : t.imsk &&& T16_INT_TOV = 0) :
    interrupt_overflow t now = avr_timer16_clock_reset t now := by
  unfold interrupt_overflow
  rw [if_pos hn]
  dsimp only
  rw [if_neg (by simpa [avr_timer16_clock_reset] using hm)]

/-- C11: with a running clock source and `next_interrupt = OVERFLOW`,
`avr_timer16_interrupt` at virtual time `now` resets the counter to zero
(`cntl = cnth = 0`, `reset_time_ns = now`); when the overflow mask bit is set
it sets the overflow flag in `ifr` and raises the overflow IRQ line, and when
the mask bit is clear it leaves `ifr` and the overflow line as they were. -/
theorem overflow_fires (s : AVRTimer16State) (now : Int) (hrun : ClockRunning s)
    (hn : s.next_interrupt = NextInterrupt.OVERFLOW) :
    (avr_timer16_interrupt s now).cntl = 0 ∧
    (avr_timer16_interrupt s now).cnth = 0 ∧
    (avr_timer16_interrupt s now).reset_time_ns = toU64 now ∧
    (0 ≤ now → now < 18446744073709551616 →
      ((avr_timer16_interrupt s now).reset_time_ns : Int) = now) ∧
    (s.imsk &&& T16_INT_TOV ≠ 0 →
      (avr_timer16_interrupt s now).ifr = (s.ifr ||| T16_INT_TOV) % 256 ∧
      (avr_timer16_interrupt s now).ifr &&& T16_INT_TOV ≠ 0 ∧
      (avr_timer16_interrupt s now).ovf_irq = true) ∧
    (s.imsk &&& T16_INT_TOV = 0 →
      (avr_timer16_interrupt s now).ifr = s.ifr ∧
      (avr_timer16_interrupt s now).ovf_irq = s.ovf_irq) := by
  have hI : avr_timer16_interrupt s now =
      avr_timer16_set_alarm (interrupt_overflow (avr_timer16_update_cnt s now) now) := by
    rw [interrupt_of_running s now hrun,
      interrupt_flags_of_overflow _ _ _ (by simpa using hn)]
  have hn1 : (avr_timer16_update_cnt s now).next_interrupt = NextInterrupt.OVERFLOW := by
    simpa using hn
  by_cases hm : s.imsk &&& T16_INT_TOV = 0
  · have hO := interrupt_overflow_unmasked (avr_timer16_update_cnt s now) now hn1
      (by simpa using hm)
    rw [hO] at hI
    have hreset : (avr_timer16_interrupt s now).reset_time_ns = toU64 now := by
      rw [hI, set_alarm_reset_time_ns]; rfl
    refine ⟨by rw [hI, set_alarm_cntl]; rfl, by rw [hI, set_alarm_cnth]; rfl, hreset, ?_,
      fun h => absurd hm h, fun _ => ⟨by rw [hI, set_alarm_ifr]; rfl,
        by rw [hI, set_alarm_ovf_irq]; rfl⟩⟩
    intro h0 h1
    rw [hreset]
    unfold toU64
    omega
  · have hO := interrupt_overflow_masked (avr_timer16_update_cnt s now) now hn1
      (by simpa using hm)
    rw [hO] at hI
    have hreset : (avr_timer16_interrupt s now).reset_time_ns = toU64 now := by
      rw [hI, set_alarm_reset_time_ns]; rfl
    have hifr : (avr_timer16_interrupt s now).ifr = (s.ifr ||| T16_INT_TOV) % 256 := by
      rw [hI, set_alarm_ifr]; rfl
    refine ⟨by rw [hI, set_alarm_cntl]; rfl, by rw [hI, set_alarm_cnth]; rfl, hreset, ?_,
      fun _ => ⟨hifr, ?_, by rw [hI, set_alarm_ovf_irq]⟩, fun h => absurd h hm⟩
    · intro h0 h1
      rw [hreset]
      unfold toU64
      omega
    · rw [hifr]
      exact raised_bit_set s.ifr 0 (by decide)

theorem overflow_fires_witness :
    (ClockRunning { demoState with imsk := 1 } ∧
      ({ demoState with imsk := 1 } : AVRTimer16State).next_interrupt
        = NextInterrupt.OVERFLOW ∧
      ({ demoState with imsk := 1 } : AVRTimer16State).imsk &&& T16_INT_TOV ≠ 0) ∧
    (avr_timer16_interrupt { demoState with imsk := 1 } 3277750).cntl = 0 ∧
    (avr_timer16_interrupt { demoState with imsk := 1 } 3277750).cnth = 0 ∧
    (avr_timer16_interrupt { demoState with imsk := 1 } 3277750).reset_time_ns
      = toU64 3277750 ∧
    (avr_timer16_interrupt { demoState with imsk := 1 } 3277750).ifr &&& T16_INT_TOV ≠ 0 ∧
    (avr_timer16_interrupt { demoState with imsk := 1 } 3277750).ovf_irq = true :=
  ⟨by decide,
    (overflow_fires { demoState with imsk := 1 } 3277750 (by decide) (by decide)).1,
    (overflow_fires { demoState with imsk := 1 } 3277750 (by decide) (by decide)).2.1,
    (overflow_fires { demoState with imsk := 1 } 3277750 (by decide) (by decide)).2.2.1,
    ((overflow_fires { demoState with imsk := 1 } 3277750 (by decide) (by decide)).2.2.2.2.1
      (by decide)).2.1,
    ((overflow_fires { demoState with imsk := 1 } 3277750 (by decide) (by decide)).2.2.2.2.1
      (by decide)).2.2⟩

/-! ## Simultaneous compare matches -/

/-- C12 (the code at the failing input): free-run mode, compare A = compare
B = 100, both mask bits set, counter at 0.  The scheduler records COMPA with
deadline 6000 ns; the callback at that deadline finds the counter at 100,
sets the compare-A flag and raises the compare-A line, but leaves the
compare-B flag clear and the compare-B line low, and the next event it
records is the overflow: the compare-B match at tick 100 is never
reported. -/
theorem tie_compare_b_not_raised :
    WF tieState ∧ ClockRunning tieState ∧ MODE tieState = T16_MODE_NORMAL ∧
    OCRA tieState = 100 ∧ OCRB tieState = 100 ∧
    tieState.imsk &&& T16_INT_OCA ≠ 0 ∧ tieState.imsk &&& T16_INT_OCB ≠ 0 ∧
    (avr_timer16_set_alarm tieState).next_interrupt = NextInterrupt.COMPA ∧
    (avr_timer16_set_alarm tieState).timer = some 6000 ∧
    CNT (avr_timer16_interrupt (avr_timer16_set_alarm tieState) 6000) = 100 ∧
    (avr_timer16_interrupt (avr_timer16_set_alarm tieState) 6000).ifr &&& T16_INT_OCA ≠ 0 ∧
    (avr_timer16_interrupt (avr_timer16_set_alarm tieState) 6000).compa_irq = true ∧
    (avr_timer16_interrupt (avr_timer16_set_alarm tieState) 6000).ifr &&& T16_INT_OCB = 0 ∧
    (avr_timer16_interrupt (avr_timer16_set_alarm tieState) 6000).compb_irq = false ∧
    (avr_timer16_interrupt (avr_timer16_set_alarm tieState) 6000).next_interrupt
      = NextInterrupt.OVERFLOW := by
  decide

/-! ## Scheduler: disabled timer, idempotence -/

theorem set_alarm_target_none_of_disabled (s : AVRTimer16State)
    (h : CLKSRC s = T16_CLKSRC_STOPPED ∨ CLKSRC s = T16_CLKSRC_EXT_FALLING ∨
      CLKSRC s = T16_CLKSRC_EXT_RISING ∨
      (MODE s ≠ T16_MODE_NORMAL ∧ MODE s ≠ T16_MODE_CTC_OCRA ∧ MODE s ≠ T16_MODE_CTC_ICR)) :
    set_alarm_target s = none := by
  unfold set_alarm_target
  by_cases hclk : CLKSRC s = T16_CLKSRC_EXT_FALLING ∨ CLKSRC s = T16_CLKSRC_EXT_RISING ∨
      CLKSRC s = T16_CLKSRC_STOPPED
  · rw [if_pos hclk]
  · rw [if_neg hclk]
    have hm : MODE s ≠ T16_MODE_NORMAL ∧ MODE s ≠ T16_MODE_CTC_OCRA ∧
        MODE s ≠ T16_MODE_CTC_ICR := by
      rcases h with h | h | h | h
      · exact absurd (Or.inr (Or.inr h)) hclk
      · exact absurd (Or.inl h) hclk
      · exact absurd (Or.inr (Or.inl h)) hclk
      · exact h
    have hmt : set_alarm_mode_target s = none := by
      unfold set_alarm_mode_target
      dsimp only
      rw [if_neg hm.1, if_neg hm.2.1, if_neg hm.2.2]
    rw [hmt]

/-- C13: when the clock-source selector is 0 (stopped), 6 or 7 (external), or
the waveform mode is none of 0, 4 and 12 (a PWM mode), `avr_timer16_set_alarm`
returns the state it was given: no deadline is armed, and `next_interrupt`
and every other field are unchanged. -/
theorem set_alarm_disabled (s : AVRTimer16State)
    (h : CLKSRC s = T16_CLKSRC_STOPPED ∨ CLKSRC s = T16_CLKSRC_EXT_FALLING ∨
      CLKSRC s = T16_CLKSRC_EXT_RISING ∨
      (MODE s ≠ T16_MODE_NORMAL ∧ MODE s ≠ T16_MODE_CTC_OCRA ∧ MODE s ≠ T16_MODE_CTC_ICR)) :
    avr_timer16_set_alarm s = s ∧
    (avr_timer16_set_alarm s).timer = s.timer ∧
    (avr_timer16_set_alarm s).next_interrupt = s.next_interrupt := by
  have h1 := set_alarm_of_none s (set_alarm_target_none_of_disabled s h)
  exact ⟨h1, by rw [h1], by rw [h1]⟩

theorem set_alarm_disabled_witness :
    (CLKSRC { demoState with crb := 7 } = T16_CLKSRC_EXT_RISING ∧
      avr_timer16_set_alarm { demoState with crb := 7 } = { demoState with crb := 7 }) ∧
    ((MODE { demoState with cra := 1 } ≠ T16_MODE_NORMAL ∧
        MODE { demoState with cra := 1 } ≠ T16_MODE_CTC_OCRA ∧
        MODE { demoState with cra := 1 } ≠ T16_MODE_CTC_ICR) ∧
      avr_timer16_set_alarm { demoState with cra := 1 } = { demoState with cra := 1 }) :=
  ⟨⟨by decide, (set_alarm_disabled { demoState with crb := 7 }
      (Or.inr (Or.inr (Or.inl (by decide))))).1⟩,
    ⟨by decide, (set_alarm_disabled { demoState with cra := 1 }
      (Or.inr (Or.inr (Or.inr (by decide))))).1⟩⟩

/-- C14: `avr_timer16_set_alarm` is idempotent: calling it twice in a row
gives the same state, hence the same armed deadline and the same
`next_interrupt`, as calling it once. -/
theorem set_alarm_idempotent (s : AVRTimer16State) :
    avr_timer16_set_alarm (avr_timer16_set_alarm s) = avr_timer16_set_alarm s ∧
    (avr_timer16_set_alarm (avr_timer16_set_alarm s)).timer = (avr_timer16_set_alarm s).timer ∧
    (avr_timer16_set_alarm (avr_timer16_set_alarm s)).next_interrupt
      = (avr_timer16_set_alarm s).next_interrupt := by
  have key : avr_timer16_set_alarm (avr_timer16_set_alarm s) = avr_timer16_set_alarm s := by
    cases h : set_alarm_target s with
    | none =>
      rw [set_alarm_of_none s h, set_alarm_of_none s h]
    | some c =>
      rw [set_alarm_of_some s c h]
      have h2 : set_alarm_target
          { s with next_interrupt := c.2, timer := some (set_alarm_deadline s c.1) }
          = some c := by
        rw [set_alarm_target_frame]; exact h
      rw [set_alarm_of_some _ c h2]
      rfl
  exact ⟨key, by rw [key], by rw [key]⟩

/-! ## Scheduler: position of the target -/

theorem set_alarm_mode_target_isSome (s : AVRTimer16State)
    (hmode : MODE s = T16_MODE_NORMAL ∨ MODE s = T16_MODE_CTC_OCRA ∨
      MODE s = T16_MODE_CTC_ICR) :
    ∃ a, set_alarm_mode_target s = some a := by
  unfold set_alarm_mode_target
  dsimp only
  rcases hmode with h | h | h
  · rw [if_pos h]
    split_ifs <;> exact ⟨_, rfl⟩
  · rw [if_neg (by rw [h]; decide), if_pos h]
    split_ifs <;> exact ⟨_, rfl⟩
  · rw [if_neg (by rw [h]; decide), if_neg (by rw [h]; decide), if_pos h]
    split_ifs <;> exact ⟨_, rfl⟩

/-- After the switch the target is at most 0xffff, and it is either the
initial overflow at 0xffff or a register value above the counter. -/
theorem set_alarm_mode_target_inv (s : AVRTimer16State) (a : Nat × NextInterrupt)
    (h : set_alarm_mode_target s = some a) :
    a.1 ≤ 0xffff ∧ (a = (0xffff, NextInterrupt.OVERFLOW) ∨ CNT s < a.1) := by
  unfold set_alarm_mode_target at h
  dsimp only at h
  split_ifs at h with h1 h2 h3 h4 h5 h6 h7 h8
  all_goals first
    | exact Option.noConfusion h
    | (cases h
       first
         | exact ⟨Nat.le_refl _, Or.inl rfl⟩
         | (dsimp only at *; exact ⟨by omega, Or.inr (by omega)⟩))

/-- The compare-B and compare-C tests keep that property. -/
theorem set_alarm_compare_target_inv (s : AVRTimer16State) (a : Nat × NextInterrupt)
    (hB : OCRB s ≤ 0xffff)
    (ha : a.1 ≤ 0xffff ∧ (a = (0xffff, NextInterrupt.OVERFLOW) ∨ CNT s < a.1)) :
    (set_alarm_compare_target s a).1 ≤ 0xffff ∧
    (set_alarm_compare_target s a = (0xffff, NextInterrupt.OVERFLOW) ∨
      CNT s < (set_alarm_compare_target s a).1) := by
  unfold set_alarm_compare_target
  dsimp only
  split_ifs with h1 h2 h3
  · exact ⟨by dsimp only; omega, Or.inr (by dsimp only; omega)⟩
  · exact ⟨by dsimp only; omega, Or.inr (by dsimp only; omega)⟩
  · exact ⟨by dsimp only; omega, Or.inr (by dsimp only; omega)⟩
  · exact ha

theorem set_alarm_target_inv (s : AVRTimer16State) (c : Nat × NextInterrupt)
    (hB : OCRB s ≤ 0xffff) (h : set_alarm_target s = some c) :
    c.1 ≤ 0xffff ∧ (c = (0xffff, NextInterrupt.OVERFLOW) ∨ CNT s < c.1) := by
  unfold set_alarm_target at h
  by_cases hclk : CLKSRC s = T16_CLKSRC_EXT_FALLING ∨ CLKSRC s = T16_CLKSRC_EXT_RISING ∨
      CLKSRC s = T16_CLKSRC_STOPPED
  · rw [if_pos hclk] at h
    exact Option.noConfusion h
  · rw [if_neg hclk] at h
    cases hm : set_alarm_mode_target s with
    | none => rw [hm] at h; exact Option.noConfusion h
    | some a =>
      rw [hm] at h
      cases h
      exact set_alarm_compare_target_inv s a hB (set_alarm_mode_target_inv s a hm)

theorem VAL16_le (l h : Nat) (hl : l < 256) (hh : h < 256) : VAL16 l h ≤ 0xffff := by
  rw [VAL16_eq l h hl]
  omega

theorem set_alarm_target_isSome (s : AVRTimer16State) (hrun : ClockRunning s)
    (hmode : MODE s = T16_MODE_NORMAL ∨ MODE s = T16_MODE_CTC_OCRA ∨
      MODE s = T16_MODE_CTC_ICR) :
    ∃ c, set_alarm_target s = some c := by
  obtain ⟨a, ha⟩ := set_alarm_mode_target_isSome s hmode
  unfold ClockRunning at hrun
  unfold set_alarm_target
  rw [if_neg hrun, ha]
  exact ⟨_, rfl⟩

/-- C15 (as stated, refuted): free-run mode, running clock, counter at
0xffff.  The target the scheduler chooses is 0xffff with OVERFLOW, equal to
the counter and not greater: the tick distance is 0 and the deadline is
`reset_time_ns + 0xffff * period_ns`. -/
theorem set_alarm_target_at_top_counterexample :
    WF { demoState with cntl := 0xff, cnth := 0xff } ∧
    ClockRunning { demoState with cntl := 0xff, cnth := 0xff } ∧
    MODE { demoState with cntl := 0xff, cnth := 0xff } = T16_MODE_NORMAL ∧
    CNT { demoState with cntl := 0xff, cnth := 0xff } = 0xffff ∧
    set_alarm_target { demoState with cntl := 0xff, cnth := 0xff }
      = some (0xffff, NextInterrupt.OVERFLOW) ∧
    (avr_timer16_set_alarm { demoState with cntl := 0xff, cnth := 0xff }).next_interrupt
      = NextInterrupt.OVERFLOW ∧
    (avr_timer16_set_alarm { demoState with cntl := 0xff, cnth := 0xff }).timer
      = some (1000 + 0xffff * 50) ∧
    ¬ (CNT { demoState with cntl := 0xff, cnth := 0xff } < 0xffff) ∧
    sub64 0xffff (CNT { demoState with cntl := 0xff, cnth := 0xff }) = 0 := by
  decide

/-- C15 (amended): with a running clock source, a supported mode (0, 4 or
12) and registers that are bytes, so that the counter `CNT` is in 0..0xFFFF,
`avr_timer16_set_alarm` chooses a target
tick, records its event and arms its deadline; the target is never below
`CNT`; it is strictly greater than `CNT` (tick distance at least 1) whenever
`CNT < 0xFFFF`, and for `CNT = 0xFFFF` it is the overflow at 0xFFFF itself,
at tick distance 0. -/
theorem set_alarm_target_ahead (s : AVRTimer16State) (hwf : WF s) (hrun : ClockRunning s)
    (hmode : MODE s = T16_MODE_NORMAL ∨ MODE s = T16_MODE_CTC_OCRA ∨
      MODE s = T16_MODE_CTC_ICR) :
    ∃ c, set_alarm_target s = some c ∧
      (avr_timer16_set_alarm s).next_interrupt = c.2 ∧
      (avr_timer16_set_alarm s).timer = some (set_alarm_deadline s c.1) ∧
      CNT s ≤ c.1 ∧
      (CNT s < 0xffff → CNT s < c.1 ∧ 1 ≤ sub64 c.1 (CNT s)) ∧
      (CNT s = 0xffff → c = (0xffff, NextInterrupt.OVERFLOW) ∧ sub64 c.1 (CNT s) = 0) := by
  have hcnt : CNT s ≤ 0xffff := VAL16_le _ _ hwf.2.2.2.1 hwf.2.2.2.2.1
  have hB : OCRB s ≤ 0xffff :=
    VAL16_le _ _ hwf.2.2.2.2.2.2.2.2.2.1 hwf.2.2.2.2.2.2.2.2.2.2.1
  obtain ⟨c, hc⟩ := set_alarm_target_isSome s hrun hmode
  obtain ⟨hle, hcase⟩ := set_alarm_target_inv s c hB hc
  have hs := set_alarm_of_some s c hc
  refine ⟨c, hc, by rw [hs], by rw [hs], ?_, ?_, ?_⟩
  · rcases hcase with h | h
    · rw [h]; exact hcnt
    · omega
  · intro hlt
    have h1 : CNT s < c.1 := by
      rcases hcase with h | h
      · rw [h]; exact hlt
      · exact h
    refine ⟨h1, ?_⟩
    unfold sub64
    omega
  · intro heq
    have h1 : c = (0xffff, NextInterrupt.OVERFLOW) := by
      rcases hcase with h | h
      · exact h
      · omega
    refine ⟨h1, ?_⟩
    rw [h1, heq]
    decide

theorem set_alarm_target_ahead_witness :
    (WF demoState ∧ ClockRunning demoState ∧ MODE demoState = T16_MODE_NORMAL) ∧
    ∃ c, set_alarm_target demoState = some c ∧
      (avr_timer16_set_alarm demoState).next_interrupt = c.2 ∧
      (avr_timer16_set_alarm demoState).timer = some (set_alarm_deadline demoState c.1) ∧
      CNT demoState ≤ c.1 ∧
      (CNT demoState < 0xffff → CNT demoState < c.1 ∧ 1 ≤ sub64 c.1 (CNT demoState)) ∧
      (CNT demoState = 0xffff →
        c = (0xffff, NextInterrupt.OVERFLOW) ∧ sub64 c.1 (CNT demoState) = 0) :=
  ⟨by decide, set_alarm_target_ahead demoState (by decide) (by decide) (Or.inl (by decide))⟩

/-! ## Compare C -/

/-- C16 (the code at the failing input): free-run mode, running clock, only
the compare-C mask bit set, counter 0, compare C = 100.  With compare B = 0
the scheduler records OVERFLOW with the deadline of tick 0xffff, not COMPC;
with compare B = 200 it records COMPC but with the deadline of tick 200, not
of tick 100: the compare-C test reads compare B for the position of the
event. -/
theorem compc_scheduled_from_ocrb :
    WF compcState ∧ ClockRunning compcState ∧ MODE compcState = T16_MODE_NORMAL ∧
    compcState.imsk = T16_INT_OCC ∧ CNT compcState < OCRC compcState ∧
    OCRC compcState = 100 ∧ OCRC compcState < 0xffff ∧
    (avr_timer16_set_alarm compcState).next_interrupt = NextInterrupt.OVERFLOW ∧
    (avr_timer16_set_alarm compcState).timer = some (1000 + 0xffff * 50) ∧
    OCRC { compcState with ocrbl := 200 } = 100 ∧
    (avr_timer16_set_alarm { compcState with ocrbl := 200 }).next_interrupt
      = NextInterrupt.COMPC ∧
    (avr_timer16_set_alarm { compcState with ocrbl := 200 }).timer = some (1000 + 200 * 50) ∧
    compcState.reset_time_ns + OCRC compcState * compcState.period_ns = 1000 + 100 * 50 := by
  decide

/-! ## Clock-source changes -/

/-- C17 (the code at the failing input): a timer running with period 50 ns
since `reset_time_ns = 1000`.  Writing 6 (external clock, falling edge) to
control register B at 2000 ns succeeds, selects the external source and
leaves `period_ns` at 50; the counter then reads 20 at 2000 ns and 40 at
3000 ns: it still counts. -/
theorem external_clock_keeps_counting :
    WF demoState ∧ ClockRunning demoState ∧
    ∃ s1 s2 s3 s4 s5,
      avr_timer16_write demoState T16_CRB 6 1 2000 = some s1 ∧
      CLKSRC s1 = T16_CLKSRC_EXT_FALLING ∧ s1.period_ns = 50 ∧
      avr_timer16_read s1 T16_CNTL 1 2000 = some (20, s2) ∧
      avr_timer16_read s2 T16_CNTH 1 2000 = some (0, s3) ∧
      avr_timer16_read s3 T16_CNTL 1 3000 = some (40, s4) ∧
      avr_timer16_read s4 T16_CNTH 1 3000 = some (0, s5) ∧
      (20 : Nat) ≠ 40 :=
  ⟨by decide, by decide, _, _, _, _, _, rfl, rfl, rfl, rfl, rfl, rfl, rfl, by decide⟩

/-- The clock-source update succeeds for each of the five dividers when the
CPU clock is at least 1024 Hz, and changes only `freq_hz` and `period_ns`. -/
theorem clksrc_update_running (s : AVRTimer16State)
    (hsel : 1 ≤ CLKSRC s ∧ CLKSRC s ≤ 5) (hfreq : 1024 ≤ s.cpu_freq_hz) :
    ∃ f p, avr_timer16_clksrc_update s = some { s with freq_hz := f, period_ns := p } := by
  unfold avr_timer16_clksrc_update
  dsimp only
  have h1 : ¬ (CLKSRC s = T16_CLKSRC_EXT_FALLING ∨ CLKSRC s = T16_CLKSRC_EXT_RISING) := by
    show ¬ (CLKSRC s = 6 ∨ CLKSRC s = 7)
    omega
  have h2 : ¬ CLKSRC s = T16_CLKSRC_STOPPED := by
    show ¬ CLKSRC s = 0
    omega
  have h3 : CLKSRC s = T16_CLKSRC_DIV1 ∨ CLKSRC s = T16_CLKSRC_DIV8 ∨
      CLKSRC s = T16_CLKSRC_DIV64 ∨ CLKSRC s = T16_CLKSRC_DIV256 ∨
      CLKSRC s = T16_CLKSRC_DIV1024 := by
    show CLKSRC s = 1 ∨ CLKSRC s = 2 ∨ CLKSRC s = 3 ∨ CLKSRC s = 4 ∨ CLKSRC s = 5
    omega
  rw [if_neg h1, if_neg h2, if_pos h3]
  have hd : s.cpu_freq_hz /
      (if CLKSRC s = T16_CLKSRC_DIV1 then 1
        else if CLKSRC s = T16_CLKSRC_DIV8 then 8
        else if CLKSRC s = T16_CLKSRC_DIV64 then 64
        else if CLKSRC s = T16_CLKSRC_DIV256 then 256
        else 1024) ≠ 0 := by
    split_ifs <;> omega
  rw [if_neg hd]
  exact ⟨_, _, rfl⟩

/-- Starting the clock: a write to control register B that moves the
selector from stopped to one of the five dividers sets the period and puts
the reset time at `now`. -/
theorem write_CRB_start (s : AVRTimer16State) (c : Nat) (now : Int)
    (hstop : CLKSRC s = T16_CLKSRC_STOPPED)
    (hsel : 1 ≤ CLKSRC { s with crb := c % 256 } ∧ CLKSRC { s with crb := c % 256 } ≤ 5)
    (hfreq : 1024 ≤ s.cpu_freq_hz) :
    ∃ f p, avr_timer16_write s T16_CRB c 1 now =
      some (avr_timer16_set_alarm
        { s with crb := c % 256, freq_hz := f, period_ns := p, reset_time_ns := toU64 now }) := by
  obtain ⟨f, p, hu⟩ := clksrc_update_running { s with crb := c % 256 } hsel hfreq
  refine ⟨f, p, ?_⟩
  have hsw : avr_timer16_write_switch s T16_CRB (c % 256) (CLKSRC s % 256) now =
      some { s with crb := c % 256, freq_hz := f, period_ns := p,
                    reset_time_ns := toU64 now } := by
    have hne : CLKSRC { s with crb := c % 256 } ≠ T16_CLKSRC_STOPPED % 256 := by
      show CLKSRC { s with crb := c % 256 } ≠ 0
      omega
    rw [write_switch_CRB, hstop, if_pos hne, hu]
    rfl
  unfold avr_timer16_write
  simp only [ne_eq, not_true_eq_false, if_false, hsw]

/-- C18 (as stated, refuted): the value 0x1234 is written to the counter of
a stopped timer (high byte, then low byte), then control register B is
written with 1 (divider 1) at 6000 ns.  The reset time becomes 6000 and the
counter read at 6000 ns returns 0 and 0, not 0x34 and 0x12. -/
theorem start_clock_counter_counterexample :
    WF stoppedState ∧ CLKSRC stoppedState = T16_CLKSRC_STOPPED ∧
    ∃ s1 s2 s3 s4 s5,
      avr_timer16_write stoppedState T16_CNTH 0x12 1 5000 = some s1 ∧
      avr_timer16_write s1 T16_CNTL 0x34 1 5000 = some s2 ∧
      avr_timer16_write s2 T16_CRB 1 1 6000 = some s3 ∧
      CLKSRC s3 = T16_CLKSRC_DIV1 ∧ s3.reset_time_ns = 6000 ∧
      avr_timer16_read s3 T16_CNTL 1 6000 = some (0, s4) ∧
      avr_timer16_read s4 T16_CNTH 1 6000 = some (0, s5) ∧
      ((0 : Nat), (0 : Nat)) ≠ (0x34, 0x12) :=
  ⟨by decide, by decide, _, _, _, _, _, rfl, rfl, rfl, rfl, rfl, rfl, rfl, by decide⟩

/-- C18 (amended): for bytes `h`, `l` written to the counter (high byte, then
low byte) while the clock source is stopped, a following write of `c` to
control register B that changes the selector from stopped to a divider
(1..5), at virtual time `now` and with a CPU clock of at least 1024 Hz, sets
`reset_time_ns = now`; the two stored counter bytes still hold `l` and `h`,
but a counter read at that same time returns 0 and 0: the counter starts
from zero, whatever was written. -/
theorem start_clock_counter_zero (s : AVRTimer16State) (h l c : Nat) (t1 t2 now : Int)
    (hstop : CLKSRC s = T16_CLKSRC_STOPPED) (hh : h < 256) (hl : l < 256)
    (hsel : 1 ≤ (c % 256) &&& T16_CRB_CS ∧ (c % 256) &&& T16_CRB_CS ≤ 5)
    (hfreq : 1024 ≤ s.cpu_freq_hz) :
    ∃ s1 s2 s3 s4 s5,
      avr_timer16_write s T16_CNTH h 1 t1 = some s1 ∧
      avr_timer16_write s1 T16_CNTL l 1 t2 = some s2 ∧
      avr_timer16_write s2 T16_CRB c 1 now = some s3 ∧
      s3.reset_time_ns = toU64 now ∧ s3.cntl = l ∧ s3.cnth = h ∧
      avr_timer16_read s3 T16_CNTL 1 now = some (0, s4) ∧
      avr_timer16_read s4 T16_CNTH 1 now = some (0, s5) := by
  have e1 := write_CNTH s h t1
  have e2 := write_CNTL (avr_timer16_set_alarm { s with rtmp := h % 256 }) l t2
  generalize hs2 : avr_timer16_set_alarm (avr_timer16_recalc_reset_time
    { avr_timer16_set_alarm { s with rtmp := h % 256 } with
      cntl := l % 256,
      cnth := (avr_timer16_set_alarm { s with rtmp := h % 256 }).rtmp } t2) = s2 at e2
  have hcrb : s2.crb = s.crb := by
    rw [← hs2]; simp [avr_timer16_recalc_reset_time]
  have hfq : s2.cpu_freq_hz = s.cpu_freq_hz := by
    rw [← hs2, set_alarm_frame]
    simp only [avr_timer16_recalc_reset_time]
    rw [set_alarm_frame]
  have hcl : s2.cntl = l := by
    rw [← hs2]; simp [avr_timer16_recalc_reset_time, Nat.mod_eq_of_lt hl]
  have hch : s2.cnth = h := by
    rw [← hs2]; simp [avr_timer16_recalc_reset_time, Nat.mod_eq_of_lt hh]
  obtain ⟨f, p, e3⟩ := write_CRB_start s2 c now (by unfold CLKSRC at *; rw [hcrb]; exact hstop)
    (by unfold CLKSRC; exact hsel) (by rw [hfq]; exact hfreq)
  generalize hs3 : avr_timer16_set_alarm
    { s2 with crb := c % 256, freq_hz := f, period_ns := p, reset_time_ns := toU64 now }
    = s3 at e3
  have hr3 : s3.reset_time_ns = toU64 now := by rw [← hs3]; simp
  have hticks : ticks s3 now = 0 := by
    unfold ticks
    rw [hr3, sub64_self]
    split_ifs
    · rfl
    · exact Nat.zero_div _
  obtain ⟨s4, s5, e4, e5⟩ := read_cnt_pair s3 now now
  rw [hticks] at e4 e5
  exact ⟨_, s2, s3, s4, s5, e1, e2, e3, hr3, by rw [← hs3]; simpa using hcl,
    by rw [← hs3]; simpa using hch, e4, e5⟩

theorem start_clock_counter_zero_witness :
    (CLKSRC stoppedState = T16_CLKSRC_STOPPED ∧ 0x12 < 256 ∧ 0x34 < 256 ∧
      (1 ≤ (3 % 256) &&& T16_CRB_CS ∧ (3 % 256) &&& T16_CRB_CS ≤ 5) ∧
      1024 ≤ stoppedState.cpu_freq_hz) ∧
    ∃ s1 s2 s3 s4 s5,
      avr_timer16_write stoppedState T16_CNTH 0x12 1 5000 = some s1 ∧
      avr_timer16_write s1 T16_CNTL 0x34 1 5001 = some s2 ∧
      avr_timer16_write s2 T16_CRB 3 1 6000 = some s3 ∧
      s3.reset_time_ns = toU64 6000 ∧ s3.cntl = 0x34 ∧ s3.cnth = 0x12 ∧
      avr_timer16_read s3 T16_CNTL 1 6000 = some (0, s4) ∧
      avr_timer16_read s4 T16_CNTH 1 6000 = some (0, s5) :=
  ⟨by decide, start_clock_counter_zero stoppedState 0x12 0x34 3 5000 5001 6000 (by decide)
    (by decide) (by decide) (by decide) (by decide)⟩

/-! ## Scheduling after a register write -/

/-- C19 (the code at the failing input): a running timer with period 50 ns,
`reset_time_ns = 1000`, stored counter 0, compare A = 100 with its mask bit
set.  A write to compare B low (offset 0xa) at 11000 ns, when 200 periods
have elapsed, leaves the stored counter at 0; the scheduler compares against
that 0, records COMPA and arms the deadline 6000 ns, which is earlier than
11000 ns. -/
theorem write_schedules_on_stale_counter :
    WF demoState ∧ 0 < demoState.period_ns ∧
    ((11000 - (demoState.reset_time_ns : Int)) / (demoState.period_ns : Int)) % 65536 = 200 ∧
    ∃ s1, avr_timer16_write demoState T16_OCRBL 7 1 11000 = some s1 ∧
      VAL16 s1.cntl s1.cnth = 0 ∧
      s1.next_interrupt = NextInterrupt.COMPA ∧
      s1.timer = some 6000 ∧ ((6000 : Nat) : Int) < 11000 :=
  ⟨by decide, by decide, by decide, _, rfl, rfl, rfl, rfl, by decide⟩

/-! ## Device reset -/

theorem reset_eq (s : AVRTimer16State) (now : Int) :
    avr_timer16_reset s now =
      match avr_timer16_clksrc_update (avr_timer16_clock_reset s now) with
      | none => none
      | some t16 =>
        some { avr_timer16_set_alarm t16 with
          capt_irq := false, compa_irq := false, compb_irq := false,
          compc_irq := false, ovf_irq := false } := rfl

theorem clksrc_update_not_running (s : AVRTimer16State) (h : ¬ ClockRunning s) :
    avr_timer16_clksrc_update s = some s := by
  unfold ClockRunning at h
  rw [not_not] at h
  unfold avr_timer16_clksrc_update
  dsimp only
  rcases h with h | h | h
  · rw [if_pos (Or.inl h)]
  · rw [if_pos (Or.inr h)]
  · by_cases h2 : CLKSRC s = T16_CLKSRC_EXT_FALLING ∨ CLKSRC s = T16_CLKSRC_EXT_RISING
    · rw [if_pos h2]
    · rw [if_neg h2, if_pos h]

theorem CLKSRC_le (s : AVRTimer16State) : CLKSRC s ≤ 7 := by
  unfold CLKSRC
  exact Nat.and_le_right

/-- The clock-source update of `avr_timer16_reset`, run on the state that
`avr_timer16_clock_reset` leaves: it succeeds when the clock is not running
or the CPU clock is at least 1024 Hz, and touches the frequency and the
period at most. -/
theorem reset_clksrc_update (s : AVRTimer16State) (now : Int)
    (hok : ¬ ClockRunning s ∨ 1024 ≤ s.cpu_freq_hz) :
    ∃ t1, avr_timer16_clksrc_update (avr_timer16_clock_reset s now) = some t1 ∧
      t1.cra = s.cra ∧ t1.crb = s.crb ∧ t1.cntl = 0 ∧ t1.cnth = 0 ∧
      t1.reset_time_ns = toU64 now ∧ t1.imsk = s.imsk ∧
      (¬ ClockRunning s → t1 = avr_timer16_clock_reset s now) := by
  by_cases hrun : ClockRunning s
  · have hfreq : 1024 ≤ s.cpu_freq_hz := by
      rcases hok with h | h
      · exact absurd hrun h
      · exact h
    have hsel : 1 ≤ CLKSRC (avr_timer16_clock_reset s now) ∧
        CLKSRC (avr_timer16_clock_reset s now) ≤ 5 := by
      have hle := CLKSRC_le s
      unfold ClockRunning at hrun
      show 1 ≤ CLKSRC s ∧ CLKSRC s ≤ 5
      have h6 : ¬ CLKSRC s = 6 := fun h => hrun (Or.inl h)
      have h7 : ¬ CLKSRC s = 7 := fun h => hrun (Or.inr (Or.inl h))
      have h0 : ¬ CLKSRC s = 0 := fun h => hrun (Or.inr (Or.inr h))
      omega
    obtain ⟨f, p, hfp⟩ := clksrc_update_running (avr_timer16_clock_reset s now) hsel hfreq
    exact ⟨_, hfp, rfl, rfl, rfl, rfl, rfl, rfl, fun h => absurd hrun h⟩
  · exact ⟨_, clksrc_update_not_running (avr_timer16_clock_reset s now) hrun,
      rfl, rfl, rfl, rfl, rfl, rfl, fun _ => rfl⟩

/-- C24 (the claim fails as stated): `demoState` has clock source 1
(divider 1) selected and the compare-A mask bit set.  After
`avr_timer16_reset` at 5000 ns the selector is still 1, not 'stopped', an
alarm is armed (compare A, tick 100, at 10000 ns), and a counter read 1000 ns
later returns 20. -/
theorem reset_running_counterexample :
    WF demoState ∧
    ∃ s1 s2 s3,
      avr_timer16_reset demoState 5000 = some s1 ∧
      CLKSRC s1 = T16_CLKSRC_DIV1 ∧ T16_CLKSRC_DIV1 ≠ T16_CLKSRC_STOPPED ∧
      s1.next_interrupt = NextInterrupt.COMPA ∧
      s1.timer = some 10000 ∧
      s1.cntl = 0 ∧ s1.cnth = 0 ∧
      avr_timer16_read s1 T16_CNTL 1 6000 = some (20, s2) ∧
      avr_timer16_read s2 T16_CNTH 1 6000 = some (0, s3) :=
  ⟨by decide, _, _, _, rfl, rfl, by decide, rfl, rfl, rfl, rfl, rfl, rfl⟩

/-- C24 (amended): for every timer state whose clock is not running or whose
CPU clock is at least 1024 Hz, `avr_timer16_reset` returns; it leaves the
stored counter 0 and the reset time at the current time, so that a counter
read at that time returns 0, and it lowers all five IRQ lines.  It leaves
the control registers and the mask as they were: the clock-source selector
after the reset is the one before it.  When that selector is 'stopped' or
external, the reset changes nothing else (an alarm armed earlier is not
withdrawn); when it is a divider and the mode is a supported one, the reset
arms an alarm. -/
theorem reset_effect (s : AVRTimer16State) (now : Int)
    (hok : ¬ ClockRunning s ∨ 1024 ≤ s.cpu_freq_hz) :
    ∃ s1, avr_timer16_reset s now = some s1 ∧
      s1.cntl = 0 ∧ s1.cnth = 0 ∧ CNT s1 = 0 ∧ s1.reset_time_ns = toU64 now ∧
      (∃ r1 r2, avr_timer16_read s1 T16_CNTL 1 now = some (0, r1) ∧
        avr_timer16_read r1 T16_CNTH 1 now = some (0, r2)) ∧
      (s1.capt_irq = false ∧ s1.compa_irq = false ∧ s1.compb_irq = false ∧
        s1.compc_irq = false ∧ s1.ovf_irq = false) ∧
      (s1.cra = s.cra ∧ s1.crb = s.crb ∧ s1.imsk = s.imsk ∧ CLKSRC s1 = CLKSRC s ∧
        MODE s1 = MODE s) ∧
      (¬ ClockRunning s →
        s1 = { avr_timer16_clock_reset s now with
          capt_irq := false, compa_irq := false, compb_irq := false,
          compc_irq := false, ovf_irq := false } ∧
        s1.timer = s.timer ∧ s1.next_interrupt = s.next_interrupt ∧
        s1.period_ns = s.period_ns) ∧
      (ClockRunning s →
        (MODE s = T16_MODE_NORMAL ∨ MODE s = T16_MODE_CTC_OCRA ∨ MODE s = T16_MODE_CTC_ICR) →
        ∃ d, s1.timer = some d) := by
  obtain ⟨t1, ht1, hcra, hcrb, hcntl, hcnth, hrt, himsk, hstop⟩ := reset_clksrc_update s now hok
  have hres : avr_timer16_reset s now =
      some { avr_timer16_set_alarm t1 with
        capt_irq := false, compa_irq := false, compb_irq := false,
        compc_irq := false, ovf_irq := false } := by
    rw [reset_eq, ht1]
  have hclk : CLKSRC t1 = CLKSRC s := by unfold CLKSRC; rw [hcrb]
  have hmode : MODE t1 = MODE s := by unfold MODE; rw [hcrb, hcra]
  refine ⟨_, hres, ?_, ?_, ?_, ?_, ?_, ⟨rfl, rfl, rfl, rfl, rfl⟩, ⟨?_, ?_, ?_, ?_, ?_⟩, ?_, ?_⟩
  · show (avr_timer16_set_alarm t1).cntl = 0
    rw [set_alarm_cntl, hcntl]
  · show (avr_timer16_set_alarm t1).cnth = 0
    rw [set_alarm_cnth, hcnth]
  · show VAL16 (avr_timer16_set_alarm t1).cntl (avr_timer16_set_alarm t1).cnth = 0
    rw [set_alarm_cntl, set_alarm_cnth, hcntl, hcnth]
    rfl
  · show (avr_timer16_set_alarm t1).reset_time_ns = toU64 now
    rw [set_alarm_reset_time_ns, hrt]
  · obtain ⟨r1, r2, h1, h2⟩ := read_cnt_pair
      { avr_timer16_set_alarm t1 with
        capt_irq := false, compa_irq := false, compb_irq := false,
        compc_irq := false, ovf_irq := false } now now
    have hr : ({ avr_timer16_set_alarm t1 with
        capt_irq := false, compa_irq := false, compb_irq := false,
        compc_irq := false, ovf_irq := false } : AVRTimer16State).reset_time_ns = toU64 now := by
      show (avr_timer16_set_alarm t1).reset_time_ns = toU64 now
      rw [set_alarm_reset_time_ns, hrt]
    have hticks := ticks_eq _ now _ _ hr rfl
    rw [sub64_self] at hticks
    have h0 : ticks { avr_timer16_set_alarm t1 with
        capt_irq := false, compa_irq := false, compb_irq := false,
        compc_irq := false, ovf_irq := false } now = 0 := by
      rw [hticks]
      split_ifs
      · rfl
      · exact Nat.zero_div _
    rw [h0] at h1 h2
    exact ⟨r1, r2, h1, h2⟩
  · show (avr_timer16_set_alarm t1).cra = s.cra
    rw [set_alarm_cra, hcra]
  · show (avr_timer16_set_alarm t1).crb = s.crb
    rw [set_alarm_crb, hcrb]
  · show (avr_timer16_set_alarm t1).imsk = s.imsk
    rw [set_alarm_imsk, himsk]
  · show (avr_timer16_set_alarm t1).crb &&& T16_CRB_CS = s.crb &&& T16_CRB_CS
    rw [set_alarm_crb, hcrb]
  · show MODE (avr_timer16_set_alarm t1) = MODE s
    rw [set_alarm_MODE, hmode]
  · intro hnot
    have ht := hstop hnot
    have hnot1 : ¬ ClockRunning t1 := by
      unfold ClockRunning at hnot ⊢
      rw [hclk]
      exact hnot
    have hnone : set_alarm_target t1 = none := by
      unfold ClockRunning at hnot1
      rw [not_not] at hnot1
      unfold set_alarm_target
      rw [if_pos hnot1]
    rw [set_alarm_of_none t1 hnone, ht]
    exact ⟨rfl, rfl, rfl, rfl⟩
  · intro hrun hm
    have hrun1 : ClockRunning t1 := by
      unfold ClockRunning at hrun ⊢
      rw [hclk]
      exact hrun
    obtain ⟨c, hc⟩ := set_alarm_target_isSome t1 hrun1 (by rw [hmode]; exact hm)
    refine ⟨set_alarm_deadline t1 c.1, ?_⟩
    show (avr_timer16_set_alarm t1).timer = _
    rw [set_alarm_of_some t1 c hc]

theorem reset_effect_witness :
    (¬ ClockRunning stoppedState ∨ 1024 ≤ stoppedState.cpu_freq_hz) ∧
    ∃ s1, avr_timer16_reset stoppedState 5000 = some s1 ∧
      s1.cntl = 0 ∧ s1.cnth = 0 ∧ CNT s1 = 0 ∧ s1.reset_time_ns = toU64 5000 ∧
      (∃ r1 r2, avr_timer16_read s1 T16_CNTL 1 5000 = some (0, r1) ∧
        avr_timer16_read r1 T16_CNTH 1 5000 = some (0, r2)) :=
  ⟨Or.inl (by decide),
    (reset_effect stoppedState 5000 (Or.inl (by decide))).imp
      (fun _ h => ⟨h.1, h.2.1, h.2.2.1, h.2.2.2.1, h.2.2.2.2.1, h.2.2.2.2.2.1⟩)⟩

/-! ## Priority among candidates of the scheduler -/

/-- After the switch, the locals hold the overflow, the capture or compare A;
the target is at most every enabled candidate of the switch, and a register
candidate is recorded only when it is strictly below the ones tested before
it. -/
theorem set_alarm_mode_target_priority (s : AVRTimer16State) (a : Nat × NextInterrupt)
    (h : set_alarm_mode_target s = some a) :
    (a.1 ≤ 0xffff ∧ (MODE s = 12 → CNT s < ICR s → a.1 ≤ ICR s) ∧
      (CNT s < OCRA s → (MODE s = 4 ∨ (s.imsk &&& T16_INT_OCA) ≠ 0) → a.1 ≤ OCRA s)) ∧
    (a = (0xffff, NextInterrupt.OVERFLOW) ∨
      (a = (ICR s, NextInterrupt.CAPT) ∧ MODE s = 12 ∧ ICR s < 0xffff) ∨
      (a = (OCRA s, NextInterrupt.COMPA) ∧ OCRA s < 0xffff ∧
        (MODE s = 12 → CNT s < ICR s → OCRA s < ICR s))) := by
  unfold set_alarm_mode_target at h
  dsimp only at h
  by_cases h0 : MODE s = 0
  · rw [if_pos h0] at h
    by_cases hA : OCRA s < 0xffff ∧ OCRA s > CNT s ∧ (s.imsk &&& T16_INT_OCA) ≠ 0
    · rw [if_pos hA] at h
      cases h
      exact ⟨⟨by dsimp only; omega, by omega, fun _ _ => Nat.le_refl _⟩,
        Or.inr (Or.inr ⟨rfl, hA.1, by omega⟩)⟩
    · rw [if_neg hA] at h
      cases h
      refine ⟨⟨Nat.le_refl _, by omega, ?_⟩, Or.inl rfl⟩
      intro h1 h2
      rcases h2 with h2 | h2
      · omega
      · dsimp only
        by_contra hlt
        exact hA ⟨by omega, h1, h2⟩
  · rw [if_neg h0] at h
    by_cases h4 : MODE s = 4
    · rw [if_pos h4] at h
      by_cases hA : OCRA s < 0xffff ∧ OCRA s > CNT s
      · rw [if_pos hA] at h
        cases h
        exact ⟨⟨by dsimp only; omega, by omega, fun _ _ => Nat.le_refl _⟩,
          Or.inr (Or.inr ⟨rfl, hA.1, by omega⟩)⟩
      · rw [if_neg hA] at h
        cases h
        refine ⟨⟨Nat.le_refl _, by omega, ?_⟩, Or.inl rfl⟩
        intro h1 _
        dsimp only
        omega
    · rw [if_neg h4] at h
      by_cases h12 : MODE s = 12
      · rw [if_pos h12] at h
        by_cases hI : ICR s < 0xffff ∧ ICR s > CNT s
        · rw [if_pos hI] at h
          dsimp only at h
          by_cases hA : OCRA s < ICR s ∧ OCRA s > CNT s ∧ (s.imsk &&& T16_INT_OCA) ≠ 0
          · rw [if_pos hA] at h
            cases h
            exact ⟨⟨by dsimp only; omega, fun _ _ => by dsimp only; omega,
              fun _ _ => Nat.le_refl _⟩,
              Or.inr (Or.inr ⟨rfl, by omega, fun _ _ => hA.1⟩)⟩
          · rw [if_neg hA] at h
            cases h
            refine ⟨⟨by dsimp only; omega, fun _ _ => Nat.le_refl _, ?_⟩,
              Or.inr (Or.inl ⟨rfl, h12, hI.1⟩)⟩
            intro h1 h2
            rcases h2 with h2 | h2
            · omega
            · dsimp only
              by_contra hlt
              exact hA ⟨by omega, h1, h2⟩
        · rw [if_neg hI] at h
          dsimp only at h
          by_cases hA : OCRA s < 0xffff ∧ OCRA s > CNT s ∧ (s.imsk &&& T16_INT_OCA) ≠ 0
          · rw [if_pos hA] at h
            cases h
            exact ⟨⟨by dsimp only; omega, fun _ _ => by dsimp only; omega,
              fun _ _ => Nat.le_refl _⟩,
              Or.inr (Or.inr ⟨rfl, hA.1, fun _ _ => by omega⟩)⟩
          · rw [if_neg hA] at h
            cases h
            refine ⟨⟨Nat.le_refl _, fun _ _ => by dsimp only; omega, ?_⟩, Or.inl rfl⟩
            intro h1 h2
            rcases h2 with h2 | h2
            · omega
            · dsimp only
              by_contra hlt
              exact hA ⟨by omega, h1, h2⟩
      · rw [if_neg h12] at h
        exact Option.noConfusion h

/-- The compare-B and compare-C tests either keep the locals, or record
compare B strictly below the target so far, or record compare C strictly
below the target so far and strictly below compare B when that one is
enabled. -/
theorem set_alarm_compare_target_priority (s : AVRTimer16State) (a : Nat × NextInterrupt) :
    set_alarm_compare_target s a = a ∨
    (set_alarm_compare_target s a = (OCRB s, NextInterrupt.COMPB) ∧ OCRB s < a.1) ∨
    (set_alarm_compare_target s a = (OCRB s, NextInterrupt.COMPC) ∧ OCRC s < a.1 ∧
      (CNT s < OCRB s → (s.imsk &&& T16_INT_OCB) ≠ 0 → OCRC s < OCRB s)) := by
  unfold set_alarm_compare_target
  dsimp only
  by_cases hB : OCRB s < a.1 ∧ OCRB s > CNT s ∧ (s.imsk &&& T16_INT_OCB) ≠ 0
  · rw [if_pos hB]
    dsimp only
    by_cases hC : OCRC s < OCRB s ∧ OCRB s > CNT s ∧ (s.imsk &&& T16_INT_OCC) ≠ 0
    · rw [if_pos hC]
      exact Or.inr (Or.inr ⟨rfl, by omega, fun _ _ => hC.1⟩)
    · rw [if_neg hC]
      exact Or.inr (Or.inl ⟨rfl, hB.1⟩)
  · rw [if_neg hB]
    by_cases hC : OCRC s < a.1 ∧ OCRB s > CNT s ∧ (s.imsk &&& T16_INT_OCC) ≠ 0
    · rw [if_pos hC]
      refine Or.inr (Or.inr ⟨rfl, hC.1, ?_⟩)
      intro h1 h2
      by_contra hlt
      exact hB ⟨by omega, h1, h2⟩
    · rw [if_neg hC]
      exact Or.inl rfl

/-- The five outcomes of the scheduler's choice: each register candidate is
recorded only when its compare value is strictly below 0xffff and strictly
below every enabled candidate that is tested before it. -/
theorem set_alarm_target_priority (s : AVRTimer16State) (c : Nat × NextInterrupt)
    (h : set_alarm_target s = some c) :
    c = (0xffff, NextInterrupt.OVERFLOW) ∨
    (c = (ICR s, NextInterrupt.CAPT) ∧ MODE s = 12 ∧ ICR s < 0xffff) ∨
    (c = (OCRA s, NextInterrupt.COMPA) ∧ OCRA s < 0xffff ∧
      (MODE s = 12 → CNT s < ICR s → OCRA s < ICR s)) ∨
    (c = (OCRB s, NextInterrupt.COMPB) ∧ OCRB s < 0xffff ∧
      (MODE s = 12 → CNT s < ICR s → OCRB s < ICR s) ∧
      (CNT s < OCRA s → (MODE s = 4 ∨ (s.imsk &&& T16_INT_OCA) ≠ 0) → OCRB s < OCRA s)) ∨
    (c = (OCRB s, NextInterrupt.COMPC) ∧ OCRC s < 0xffff ∧
      (MODE s = 12 → CNT s < ICR s → OCRC s < ICR s) ∧
      (CNT s < OCRA s → (MODE s = 4 ∨ (s.imsk &&& T16_INT_OCA) ≠ 0) → OCRC s < OCRA s) ∧
      (CNT s < OCRB s → (s.imsk &&& T16_INT_OCB) ≠ 0 → OCRC s < OCRB s)) := by
  unfold set_alarm_target at h
  by_cases hclk : CLKSRC s = T16_CLKSRC_EXT_FALLING ∨ CLKSRC s = T16_CLKSRC_EXT_RISING ∨
      CLKSRC s = T16_CLKSRC_STOPPED
  · rw [if_pos hclk] at h
    exact Option.noConfusion h
  · rw [if_neg hclk] at h
    cases hm : set_alarm_mode_target s with
    | none => rw [hm] at h; exact Option.noConfusion h
    | some a =>
      rw [hm] at h
      cases h
      obtain ⟨⟨hb1, hb2, hb3⟩, ha⟩ := set_alarm_mode_target_priority s a hm
      rcases set_alarm_compare_target_priority s a with hc | ⟨hc, hlt⟩ | ⟨hc, hlt, hB⟩
      · rw [hc]
        rcases ha with ha | ha | ha
        · exact Or.inl ha
        · exact Or.inr (Or.inl ha)
        · exact Or.inr (Or.inr (Or.inl ha))
      · rw [hc]
        exact Or.inr (Or.inr (Or.inr (Or.inl
          ⟨rfl, by omega, fun h1 h2 => by have := hb2 h1 h2; omega,
            fun h1 h2 => by have := hb3 h1 h2; omega⟩)))
      · rw [hc]
        exact Or.inr (Or.inr (Or.inr (Or.inr
          ⟨rfl, by omega, fun h1 h2 => by have := hb2 h1 h2; omega,
            fun h1 h2 => by have := hb3 h1 h2; omega, hB⟩)))

/-- C26: for every timer state with a running clock in a supported mode, the
deadline armed by `avr_timer16_set_alarm` is
`reset_time_ns + (CNT + distance) * period_ns = reset_time_ns + target * period_ns`
in 64-bit arithmetic, where `target` is the tick the scheduler has chosen
for the recorded event (0xffff for the overflow, the capture register,
compare A, compare B; for compare C the code takes the tick from compare B)
and `distance = target - CNT` is computed without unsigned underflow:
`CNT ≤ target` always. -/
theorem set_alarm_deadline_formula (s : AVRTimer16State) (hwf : WF s) (hrun : ClockRunning s)
    (hmode : MODE s = T16_MODE_NORMAL ∨ MODE s = T16_MODE_CTC_OCRA ∨
      MODE s = T16_MODE_CTC_ICR) :
    ∃ c, set_alarm_target s = some c ∧
      (avr_timer16_set_alarm s).next_interrupt = c.2 ∧
      CNT s ≤ c.1 ∧ c.1 ≤ 0xffff ∧
      sub64 c.1 (CNT s) = c.1 - CNT s ∧
      add64 (CNT s) (sub64 c.1 (CNT s)) = c.1 ∧
      (avr_timer16_set_alarm s).timer = some (set_alarm_deadline s c.1) ∧
      set_alarm_deadline s c.1 =
        (s.reset_time_ns + (CNT s + (c.1 - CNT s)) * s.period_ns) % 18446744073709551616 ∧
      set_alarm_deadline s c.1 =
        (s.reset_time_ns + c.1 * s.period_ns) % 18446744073709551616 ∧
      (s.reset_time_ns + c.1 * s.period_ns < 18446744073709551616 →
        (avr_timer16_set_alarm s).timer = some (s.reset_time_ns + c.1 * s.period_ns)) ∧
      (c.2 = NextInterrupt.OVERFLOW → c.1 = 0xffff) ∧
      (c.2 = NextInterrupt.CAPT → c.1 = ICR s) ∧
      (c.2 = NextInterrupt.COMPA → c.1 = OCRA s) ∧
      (c.2 = NextInterrupt.COMPB → c.1 = OCRB s) ∧
      (c.2 = NextInterrupt.COMPC → c.1 = OCRB s) := by
  have hcnt : CNT s ≤ 0xffff := VAL16_le _ _ hwf.2.2.2.1 hwf.2.2.2.2.1
  have hB : OCRB s ≤ 0xffff :=
    VAL16_le _ _ hwf.2.2.2.2.2.2.2.2.2.1 hwf.2.2.2.2.2.2.2.2.2.2.1
  obtain ⟨c, hc⟩ := set_alarm_target_isSome s hrun hmode
  obtain ⟨hle, hcase⟩ := set_alarm_target_inv s c hB hc
  have hs := set_alarm_of_some s c hc
  have hp := set_alarm_target_priority s c hc
  have hge : CNT s ≤ c.1 := by
    rcases hcase with h | h
    · rw [h]; exact hcnt
    · omega
  have hsub : sub64 c.1 (CNT s) = c.1 - CNT s := by
    unfold sub64; omega
  have hadd : add64 (CNT s) (sub64 c.1 (CNT s)) = c.1 := by
    rw [hsub]; unfold add64; omega
  have hd2 : set_alarm_deadline s c.1 =
      (s.reset_time_ns + c.1 * s.period_ns) % 18446744073709551616 := by
    unfold set_alarm_deadline
    rw [hadd]
    unfold add64 mul64
    omega
  have hd1 : set_alarm_deadline s c.1 =
      (s.reset_time_ns + (CNT s + (c.1 - CNT s)) * s.period_ns) % 18446744073709551616 := by
    have hsum : CNT s + (c.1 - CNT s) = c.1 := by omega
    rw [hd2, hsum]
  refine ⟨c, hc, by rw [hs], hge, hle, hsub, hadd, by rw [hs], hd1, hd2, ?_,
    ?_, ?_, ?_, ?_, ?_⟩
  · intro hfit
    rw [hs]
    show some (set_alarm_deadline s c.1) = _
    rw [hd2, Nat.mod_eq_of_lt hfit]
  all_goals
    intro hx
    rcases hp with h | ⟨h, _⟩ | ⟨h, _⟩ | ⟨h, _⟩ | ⟨h, _⟩ <;> rw [h] at hx ⊢ <;>
      first
        | rfl
        | cases hx

theorem set_alarm_deadline_formula_witness :
    WF demoState ∧ ClockRunning demoState ∧ MODE demoState = T16_MODE_NORMAL ∧
    ∃ c, set_alarm_target demoState = some c ∧
      (avr_timer16_set_alarm demoState).next_interrupt = c.2 ∧
      CNT demoState ≤ c.1 :=
  ⟨by decide, by decide, by decide,
    (set_alarm_deadline_formula demoState (by decide) (by decide) (Or.inl (by decide))).imp
      (fun _ h => ⟨h.1, h.2.1, h.2.2.1⟩)⟩

/-! ## Writes to the mask register -/

/-- C27 (the code at the failing input): `unmaskedState` runs in free-run
mode with compare A = 100 > CNT = 0, no mask bit set and the overflow armed
at `1000 + 0xffff * 50`.  A write of 2 (the compare-A mask bit) to the mask
register stores the byte and nothing else: the recorded event stays OVERFLOW
and the armed deadline stays where it was, whereas `avr_timer16_set_alarm`
on the state with that mask records COMPA at tick 100, deadline 6000. -/
theorem imsk_write_no_rearm :
    WF unmaskedState ∧ ClockRunning unmaskedState ∧ MODE unmaskedState = T16_MODE_NORMAL ∧
    OCRA unmaskedState = 100 ∧ CNT unmaskedState = 0 ∧
    avr_timer16_imsk_write unmaskedState 0 2 1 = some { unmaskedState with imsk := 2 } ∧
    ({ unmaskedState with imsk := 2 } : AVRTimer16State).next_interrupt
      = NextInterrupt.OVERFLOW ∧
    ({ unmaskedState with imsk := 2 } : AVRTimer16State).timer = some (1000 + 0xffff * 50) ∧
    (avr_timer16_set_alarm { unmaskedState with imsk := 2 }).next_interrupt
      = NextInterrupt.COMPA ∧
    (avr_timer16_set_alarm { unmaskedState with imsk := 2 }).timer = some (1000 + 100 * 50) ∧
    avr_timer16_imsk_write unmaskedState 0 2 1 ≠
      some (avr_timer16_set_alarm { unmaskedState with imsk := 2 }) := by
  decide

/-! ## Range of the tick period -/

/-- The clock-source update assigns `1000000000 / freq_hz` or leaves the
period alone: a period of at most 1000000000 ns stays so. -/
theorem clksrc_update_period_le (s s1 : AVRTimer16State)
    (h : avr_timer16_clksrc_update s = some s1) (hper : s.period_ns ≤ 1000000000) :
    s1.period_ns ≤ 1000000000 := by
  unfold avr_timer16_clksrc_update at h
  dsimp only at h
  split_ifs at h <;> cases h <;> first
    | exact hper
    | exact Nat.div_le_self _ _

theorem interrupt_flags_period_ns (mode : Nat) (t : AVRTimer16State) (now : Int) :
    (interrupt_flags mode t now).period_ns = t.period_ns := by
  have h1 : ∀ (t : AVRTimer16State), (interrupt_overflow t now).period_ns = t.period_ns := by
    intro t; unfold interrupt_overflow; dsimp only; split_ifs <;> rfl
  have h2 : ∀ (t : AVRTimer16State), (interrupt_ctc_ocra mode t now).period_ns = t.period_ns := by
    intro t; unfold interrupt_ctc_ocra; split_ifs <;> rfl
  have h3 : ∀ (t : AVRTimer16State), (interrupt_ctc_icr mode t now).period_ns = t.period_ns := by
    intro t; unfold interrupt_ctc_icr; dsimp only; split_ifs <;> rfl
  have h4 : ∀ (t : AVRTimer16State), (interrupt_compa t).period_ns = t.period_ns := by
    intro t; unfold interrupt_compa; split_ifs <;> rfl
  have h5 : ∀ (t : AVRTimer16State), (interrupt_compb t).period_ns = t.period_ns := by
    intro t; unfold interrupt_compb; split_ifs <;> rfl
  have h6 : ∀ (t : AVRTimer16State), (interrupt_compc t).period_ns = t.period_ns := by
    intro t; unfold interrupt_compc; split_ifs <;> rfl
  unfold interrupt_flags
  rw [h6, h5, h4, h3, h2, h1]

theorem interrupt_period_ns (s : AVRTimer16State) (now : Int) :
    (avr_timer16_interrupt s now).period_ns = s.period_ns := by
  rw [interrupt_eq]
  split_ifs
  · rw [update_cnt_period_ns]
  · rw [set_alarm_period_ns, interrupt_flags_period_ns, update_cnt_period_ns]

theorem write_switch_period_le (s s1 : AVRTimer16State) (offset v p : Nat) (now : Int)
    (h : avr_timer16_write_switch s offset v p now = some s1)
    (hper : s.period_ns ≤ 1000000000) : s1.period_ns ≤ 1000000000 := by
  have hcases : offset = 0 ∨ offset = 1 ∨ offset = 2 ∨ offset = 3 ∨ offset = 4 ∨
      offset = 5 ∨ offset = 6 ∨ offset = 7 ∨ offset = 8 ∨ offset = 9 ∨ offset = 10 ∨
      offset = 11 ∨ offset = 12 ∨ offset = 13 ∨ 14 ≤ offset := by omega
  rcases hcases with h0 | h0 | h0 | h0 | h0 | h0 | h0 | h0 | h0 | h0 | h0 | h0 | h0 | h0 | h0
  case inr.inl =>
    subst h0
    rw [write_switch_CRB] at h
    by_cases hc : CLKSRC { s with crb := v } ≠ p
    · rw [if_pos hc] at h
      cases hu : avr_timer16_clksrc_update { s with crb := v } with
      | none => rw [hu] at h; exact Option.noConfusion h
      | some b =>
        rw [hu] at h
        have hb2 : b.period_ns ≤ 1000000000 :=
          clksrc_update_period_le { s with crb := v } b hu hper
        dsimp only at h
        by_cases hp : p = T16_CLKSRC_STOPPED
        · rw [if_pos hp] at h
          cases h
          exact hb2
        · rw [if_neg hp] at h
          cases h
          exact hb2
    · rw [if_neg hc] at h
      cases h
      exact hper
  case inr.inr.inr.inr.inr.inr.inr.inr.inr.inr.inr.inr.inr.inr =>
    have e0 : offset ≠ 0 := by omega
    have e1 : offset ≠ 1 := by omega
    have e2 : offset ≠ 2 := by omega
    have e4 : offset ≠ 4 := by omega
    have e5 : offset ≠ 5 := by omega
    have e6 : offset ≠ 6 := by omega
    have e7 : offset ≠ 7 := by omega
    have e8 : offset ≠ 8 := by omega
    have e9 : offset ≠ 9 := by omega
    have e10 : offset ≠ 10 := by omega
    have e11 : offset ≠ 11 := by omega
    have e12 : offset ≠ 12 := by omega
    have e13 : offset ≠ 13 := by omega
    simp only [avr_timer16_write_switch, e0, e1, e2, e4, e5, e6, e7, e8, e9, e10, e11, e12,
      e13, if_false] at h
    cases h; exact hper
  all_goals
    subst h0
    simp only [avr_timer16_write_switch, avr_timer16_recalc_reset_time] at h
    norm_num at h
    first
      | (cases h; exact hper)
      | (split_ifs at h <;> cases h <;> exact hper)

theorem read_period_ns (s s1 : AVRTimer16State) (offset v : Nat) (now : Int)
    (h : avr_timer16_read s offset 1 now = some (v, s1)) :
    s1.period_ns = s.period_ns := by
  have hcases : offset = 0 ∨ offset = 1 ∨ offset = 2 ∨ offset = 3 ∨ offset = 4 ∨
      offset = 5 ∨ offset = 6 ∨ offset = 7 ∨ offset = 8 ∨ offset = 9 ∨ offset = 10 ∨
      offset = 11 ∨ offset = 12 ∨ offset = 13 ∨ 14 ≤ offset := by omega
  rcases hcases with h0 | h0 | h0 | h0 | h0 | h0 | h0 | h0 | h0 | h0 | h0 | h0 | h0 | h0 | h0
  case inr.inr.inr.inr.inr.inr.inr.inr.inr.inr.inr.inr.inr.inr =>
    have e0 : offset ≠ 0 := by omega
    have e1 : offset ≠ 1 := by omega
    have e2 : offset ≠ 2 := by omega
    have e4 : offset ≠ 4 := by omega
    have e5 : offset ≠ 5 := by omega
    have e6 : offset ≠ 6 := by omega
    have e7 : offset ≠ 7 := by omega
    have e8 : offset ≠ 8 := by omega
    have e9 : offset ≠ 9 := by omega
    have e10 : offset ≠ 10 := by omega
    have e11 : offset ≠ 11 := by omega
    have e12 : offset ≠ 12 := by omega
    have e13 : offset ≠ 13 := by omega
    simp only [avr_timer16_read, e0, e1, e2, e4, e5, e6, e7, e8, e9, e10, e11, e12,
      e13, if_false, ne_eq, not_true_eq_false] at h
    cases h; rfl
  all_goals
    subst h0
    simp only [avr_timer16_read] at h
    norm_num at h
    obtain ⟨-, rfl⟩ := h
    rfl

/-- Every entry point of the device keeps the tick period within
1000000000 ns: the register writes, the register reads, the alarm callback,
the device reset and the writes to the mask and flag windows.  The field is
assigned by `avr_timer16_clksrc_update` alone. -/
theorem period_ns_le_preserved (s : AVRTimer16State) (hper : s.period_ns ≤ 1000000000) :
    (∀ s1, avr_timer16_clksrc_update s = some s1 → s1.period_ns ≤ 1000000000) ∧
    (∀ offset v size t s1, avr_timer16_write s offset v size t = some s1 →
      s1.period_ns ≤ 1000000000) ∧
    (∀ offset size t v s1, avr_timer16_read s offset size t = some (v, s1) →
      s1.period_ns ≤ 1000000000) ∧
    (∀ t, (avr_timer16_interrupt s t).period_ns ≤ 1000000000) ∧
    (∀ t s1, avr_timer16_reset s t = some s1 → s1.period_ns ≤ 1000000000) ∧
    (∀ offset v size s1, avr_timer16_imsk_write s offset v size = some s1 →
      s1.period_ns ≤ 1000000000) ∧
    (∀ offset v size s1, avr_timer16_ifr_write s offset v size = some s1 →
      s1.period_ns ≤ 1000000000) := by
  refine ⟨fun s1 h => clksrc_update_period_le s s1 h hper, ?_, ?_, ?_, ?_, ?_, ?_⟩
  · intro offset v size t s1 h
    unfold avr_timer16_write at h
    by_cases hs : size = 1
    · simp only [hs, ne_eq, not_true_eq_false, if_false] at h
      cases hw : avr_timer16_write_switch s offset (v % 256) (CLKSRC s % 256) t with
      | none => rw [hw] at h; exact Option.noConfusion h
      | some b =>
        rw [hw] at h
        cases h
        rw [set_alarm_period_ns]
        exact write_switch_period_le s b offset _ _ t hw hper
    · rw [if_pos hs] at h
      exact Option.noConfusion h
  · intro offset size t v s1 h
    by_cases hs : size = 1
    · subst hs
      rw [read_period_ns s s1 offset v t h]
      exact hper
    · unfold avr_timer16_read at h
      rw [if_pos hs] at h
      exact Option.noConfusion h
  · intro t
    rw [interrupt_period_ns]
    exact hper
  · intro t s1 h
    rw [reset_eq] at h
    cases hu : avr_timer16_clksrc_update (avr_timer16_clock_reset s t) with
    | none => rw [hu] at h; exact Option.noConfusion h
    | some b =>
      rw [hu] at h
      cases h
      show (avr_timer16_set_alarm b).period_ns ≤ 1000000000
      rw [set_alarm_period_ns]
      exact clksrc_update_period_le (avr_timer16_clock_reset s t) b hu hper
  · intro offset v size s1 h
    unfold avr_timer16_imsk_write at h
    split_ifs at h <;> cases h <;> exact hper
  · intro offset v size s1 h
    unfold avr_timer16_ifr_write at h
    split_ifs at h <;> cases h <;> exact hper

end AvrTimer16

namespace AvrCpu

/-! ## Dispatch of a hardware interrupt -/

/-- What `avr_cpu_exec_interrupt` does when only a hardware interrupt is
requested, the global interrupt flag is set and a source is pending: the
exception index is `EXCP_INT (ctz32 intsrc)`, `avr_cpu_do_interrupt` runs on
it, the lowest set bit of the 64-bit `intsrc` is cleared and the request bit
is withdrawn. -/
theorem exec_interrupt_hard (cs : CPUState) (req : Int)
    (hreset : toU32 req &&& CPU_INTERRUPT_RESET = 0)
    (hhard : toU32 req &&& CPU_INTERRUPT_HARD ≠ 0)
    (hen : cpu_interrupts_enabled cs.env = true) (hsrc : cs.env.intsrc ≠ 0) :
    avr_cpu_exec_interrupt cs req =
      (true,
        { avr_cpu_do_interrupt { cs with exception_index := EXCP_INT (ctz32 cs.env.intsrc) } with
          env :=
            { (avr_cpu_do_interrupt
                { cs with exception_index := EXCP_INT (ctz32 cs.env.intsrc) }).env with
              intsrc := cs.env.intsrc &&&
                ((cs.env.intsrc + 18446744073709551615) % 18446744073709551616) }
          interrupt_request :=
            cs.interrupt_request &&& (4294967295 - CPU_INTERRUPT_HARD) }) := by
  unfold avr_cpu_exec_interrupt
  simp only [hreset, ne_eq, not_true_eq_false, if_false, hhard, not_false_eq_true, if_true,
    hen, hsrc, and_self]
  rfl

/-- C20 (the code at the failing input): global interrupt flag set, a
hardware interrupt requested, `intsrc = 2^33` (source 33 pending alone).
`ctz32` sees the low 32 bits, which are zero, and returns 32: the exception
index is `EXCP_INT 32`, the program counter goes to the vector of source 32
(vector number 33, address 66 with 2-word vectors) and not to the one of
source 33 (address 68), while the bit cleared from `intsrc` is bit 33. -/
theorem exec_interrupt_source_33 :
    cpu_interrupts_enabled highSourceCpu.env = true ∧
    highSourceCpu.env.intsrc = 2 ^ 33 ∧ highSourceCpu.env.intsrc < 2 ^ 64 ∧
    toU32 2 &&& CPU_INTERRUPT_HARD ≠ 0 ∧
    ctz32 highSourceCpu.env.intsrc = 32 ∧
    (avr_cpu_exec_interrupt highSourceCpu 2).1 = true ∧
    avr_cpu_exec_interrupt highSourceCpu 2 =
      (true,
        { avr_cpu_do_interrupt { highSourceCpu with exception_index := EXCP_INT 32 } with
          env :=
            { (avr_cpu_do_interrupt
                { highSourceCpu with exception_index := EXCP_INT 32 }).env with
              intsrc := 0 }
          interrupt_request := 0 }) ∧
    EXCP_INT 32 ≠ EXCP_INT 33 ∧
    (avr_cpu_exec_interrupt highSourceCpu 2).2.env.pc_w = (32 + 1) * 2 ∧
    (avr_cpu_exec_interrupt highSourceCpu 2).2.env.pc_w ≠ (33 + 1) * 2 ∧
    (avr_cpu_exec_interrupt highSourceCpu 2).2.env.intsrc = 0 := by
  refine ⟨by decide, by decide, by decide, by decide, by decide, by decide, ?_, by decide,
    by decide, by decide, by decide⟩
  rw [exec_interrupt_hard highSourceCpu 2 (by decide) (by decide) (by decide) (by decide)]
  rfl

/-! ## Status register -/

set_option maxRecDepth 100000 in
theorem sreg_round_trip_bytes :
    ∀ x, x < 256 →
      cpu_get_sreg (cpu_set_sreg demoCpu.env x) = x ∧
      ((cpu_set_sreg demoCpu.env x).sregZ = 0 ↔ x.testBit 1 = true) ∧
      (cpu_set_sreg demoCpu.env x).sregC = (if x.testBit 0 then 1 else 0) ∧
      (cpu_set_sreg demoCpu.env x).sregI = (if x.testBit 7 then 1 else 0) := by
  decide

/-- The flags that `cpu_set_sreg` stores, and the byte `cpu_get_sreg` then
reads, depend on the written byte only. -/
theorem set_sreg_flags_eq (env env2 : CPUAVRState) (x : Nat) :
    cpu_get_sreg (cpu_set_sreg env x) = cpu_get_sreg (cpu_set_sreg env2 x) ∧
    (cpu_set_sreg env x).sregZ = (cpu_set_sreg env2 x).sregZ ∧
    (cpu_set_sreg env x).sregC = (cpu_set_sreg env2 x).sregC ∧
    (cpu_set_sreg env x).sregI = (cpu_set_sreg env2 x).sregI :=
  ⟨rfl, rfl, rfl, rfl⟩

/-- C28: for every byte `x` and every CPU state, `cpu_get_sreg` after
`cpu_set_sreg` with `x` returns `x`; `cpu_set_sreg` changes no field other
than the eight `sreg` flag fields; and the zero flag is stored in negative
logic: `sregZ = 0` exactly when bit 1 of `x` is set. -/
theorem sreg_round_trip (env : CPUAVRState) (x : Nat) (hx : x < 256) :
    cpu_get_sreg (cpu_set_sreg env x) = x ∧
    cpu_set_sreg env x =
      { env with
        sregC := (cpu_set_sreg env x).sregC, sregZ := (cpu_set_sreg env x).sregZ,
        sregN := (cpu_set_sreg env x).sregN, sregV := (cpu_set_sreg env x).sregV,
        sregS := (cpu_set_sreg env x).sregS, sregH := (cpu_set_sreg env x).sregH,
        sregT := (cpu_set_sreg env x).sregT, sregI := (cpu_set_sreg env x).sregI } ∧
    ((cpu_set_sreg env x).sregZ = 0 ↔ x.testBit 1 = true) := by
  obtain ⟨h1, h2, -, -⟩ := sreg_round_trip_bytes x hx
  obtain ⟨e1, e2, -, -⟩ := set_sreg_flags_eq env demoCpu.env x
  exact ⟨e1.trans h1, rfl, by rw [e2]; exact h2⟩

theorem sreg_round_trip_witness :
    (0xa5 : Nat) < 256 ∧
    cpu_get_sreg (cpu_set_sreg demoCpu.env 0xa5) = 0xa5 ∧
    ((cpu_set_sreg demoCpu.env 0xa5).sregZ = 0 ↔ (0xa5 : Nat).testBit 1 = true) :=
  ⟨by decide, (sreg_round_trip demoCpu.env 0xa5 (by decide)).1,
    (sreg_round_trip demoCpu.env 0xa5 (by decide)).2.2⟩

/-! ## Lowest pending source -/

theorem ctz_loop_eq (i : Nat) : ∀ (fuel v : Nat), i < fuel → v.testBit i = true →
    (∀ j, j < i → v.testBit j = false) → ctz_loop fuel v = i := by
  induction i with
  | zero =>
    intro fuel v hf hb _
    cases fuel with
    | zero => omega
    | succ fuel =>
      unfold ctz_loop
      have : v % 2 = 1 := by
        rw [Nat.testBit_zero] at hb
        simpa using hb
      rw [if_pos this]
  | succ i ih =>
    intro fuel v hf hb hlow
    cases fuel with
    | zero => omega
    | succ fuel =>
      unfold ctz_loop
      have h0 : ¬ v % 2 = 1 := by
        have := hlow 0 (by omega)
        rw [Nat.testBit_zero] at this
        simpa using this
      rw [if_neg h0]
      have hrec := ih fuel (v / 2) (by omega)
        (by rw [← Nat.testBit_succ]; exact hb)
        (fun j hj => by rw [← Nat.testBit_succ]; exact hlow (j + 1) (by omega))
      omega

/-- On a bitmap whose lowest set bit is `i < 32`, `ctz32` returns `i`. -/
theorem ctz32_eq (v i : Nat) (hi : i < 32) (hb : v.testBit i = true)
    (hlow : ∀ j, j < i → v.testBit j = false) : ctz32 v = i := by
  have hmod : ∀ j, (v % 4294967296).testBit j = (decide (j < 32) && v.testBit j) :=
    fun j => Nat.testBit_mod_two_pow v 32 j
  have hb2 : (v % 4294967296).testBit i = true := by
    rw [hmod]; simp [hi, hb]
  have hne : v % 4294967296 ≠ 0 := by
    intro h0
    rw [h0, Nat.zero_testBit] at hb2
    exact Bool.noConfusion hb2
  unfold ctz32
  rw [if_neg hne]
  exact ctz_loop_eq i 32 _ hi hb2 (fun j hj => by rw [hmod]; simp [hlow j hj])

/-! ## The interrupt entry sequence -/

theorem byte1_eq (x : Nat) : ((x &&& 0x00ff00) >>> 8) % 256 = x / 256 % 256 := by
  have h1 : (x &&& 0x00ff00) >>> 8 = (x >>> 8) &&& (2 ^ 8 - 1) := by
    apply Nat.eq_of_testBit_eq
    intro j
    rw [Nat.testBit_shiftRight, Nat.testBit_and, Nat.testBit_and, Nat.testBit_shiftRight]
    have h2 : (0x00ff00 : Nat) = (2 ^ 8 - 1) <<< 8 := by decide
    rw [h2, Nat.testBit_shiftLeft]
    simp
  rw [h1, Nat.and_pow_two_sub_one_eq_mod, Nat.shiftRight_eq_div_pow]
  norm_num

theorem byte2_eq (x : Nat) : ((x &&& 0xff0000) >>> 16) % 256 = x / 65536 % 256 := by
  have h1 : (x &&& 0xff0000) >>> 16 = (x >>> 16) &&& (2 ^ 8 - 1) := by
    apply Nat.eq_of_testBit_eq
    intro j
    rw [Nat.testBit_shiftRight, Nat.testBit_and, Nat.testBit_and, Nat.testBit_shiftRight]
    have h2 : (0xff0000 : Nat) = (2 ^ 8 - 1) <<< 16 := by decide
    rw [h2, Nat.testBit_shiftLeft]
    simp
  rw [h1, Nat.and_pow_two_sub_one_eq_mod, Nat.shiftRight_eq_div_pow]
  norm_num

theorem byte0_eq (x : Nat) : (x &&& 0x0000ff) % 256 = x % 256 := by
  have h1 : (0x0000ff : Nat) = 2 ^ 8 - 1 := by decide
  rw [h1, Nat.and_pow_two_sub_one_eq_mod]
  norm_num

/-- The program counter, the flag and the exception index that
`avr_cpu_do_interrupt` leaves. -/
theorem do_interrupt_pc (cs : CPUState) :
    (avr_cpu_do_interrupt cs).env.pc_w =
      toU32 (0 + (if cs.exception_index = EXCP_RESET then 0
        else if cs.env.intsrc ≠ 0 then (ctz32 cs.env.intsrc : Int) + 1 else 0) *
        (if avr_feature cs.env AVR_FEATURE_JMP_CALL then 2 else 1)) ∧
    (avr_cpu_do_interrupt cs).env.sregI = 0 ∧
    (avr_cpu_do_interrupt cs).exception_index = -1 ∧
    (avr_cpu_do_interrupt cs).env.intsrc = cs.env.intsrc ∧
    (avr_cpu_do_interrupt cs).interrupt_request = cs.interrupt_request :=
  ⟨rfl, rfl, rfl, rfl, rfl⟩

/-- The stack pointer and the data memory that `avr_cpu_do_interrupt` leaves,
as the pair the three feature branches compute. -/
theorem do_interrupt_push (cs : CPUState) :
    ((avr_cpu_do_interrupt cs).env.sp, (avr_cpu_do_interrupt cs).data) =
      (if avr_feature cs.env AVR_FEATURE_3_BYTE_PC then
        (toU32 ((toU32 ((toU32 ((cs.env.sp : Int) - 1) : Int) - 1) : Int) - 1),
          cpu_stb_data
            (cpu_stb_data (cpu_stb_data cs.data cs.env.sp (cs.env.pc_w &&& 0x0000ff))
              (toU32 ((cs.env.sp : Int) - 1)) ((cs.env.pc_w &&& 0x00ff00) >>> 8))
            (toU32 ((toU32 ((cs.env.sp : Int) - 1) : Int) - 1))
            ((cs.env.pc_w &&& 0xff0000) >>> 16))
      else if avr_feature cs.env AVR_FEATURE_2_BYTE_PC then
        (toU32 ((toU32 ((cs.env.sp : Int) - 1) : Int) - 1),
          cpu_stb_data (cpu_stb_data cs.data cs.env.sp (cs.env.pc_w &&& 0x0000ff))
            (toU32 ((cs.env.sp : Int) - 1)) ((cs.env.pc_w &&& 0x00ff00) >>> 8))
      else
        (toU32 ((cs.env.sp : Int) - 1),
          cpu_stb_data cs.data cs.env.sp (cs.env.pc_w &&& 0x0000ff))) := by
  rfl

theorem toU32_sub_one_ne (sp : Nat) : toU32 ((sp : Int) - 1) ≠ sp := by
  unfold toU32; omega

theorem toU32_sub_two_ne (sp : Nat) :
    toU32 ((toU32 ((sp : Int) - 1) : Int) - 1) ≠ sp ∧
    toU32 ((toU32 ((sp : Int) - 1) : Int) - 1) ≠ toU32 ((sp : Int) - 1) := by
  unfold toU32; omega

theorem toU32_sub_sub (sp : Nat) :
    toU32 ((toU32 ((sp : Int) - 1) : Int) - 1) = toU32 ((sp : Int) - 2) ∧
    toU32 ((toU32 ((toU32 ((sp : Int) - 1) : Int) - 1) : Int) - 1) = toU32 ((sp : Int) - 3) := by
  unfold toU32; omega

theorem toU32_sub_exact (sp n : Nat) (h : n ≤ sp) (hsp : sp < 4294967296) :
    toU32 ((sp : Int) - (n : Int)) = sp - n := by
  unfold toU32; omega

/-- C21: `avr_cpu_do_interrupt`, entered for a hardware interrupt (exception
index not the reset one) with a pending source whose lowest set bit is
`i < 32`, pushes the return address `pc_w` low byte first at `sp`, `sp - 1`,
`sp - 2`: three bytes with `AVR_FEATURE_3_BYTE_PC`, two with
`AVR_FEATURE_2_BYTE_PC`, one otherwise; it decrements `sp` by that number
(in 32-bit arithmetic), touches no other data address, clears `sregI` and
sets `pc_w` to `0 + (i + 1) * size` with `size` 2 under
`AVR_FEATURE_JMP_CALL` and 1 otherwise. -/
theorem do_interrupt_entry (cs : CPUState) (i : Nat)
    (hex : cs.exception_index ≠ EXCP_RESET) (hi : i < 32)
    (hbit : cs.env.intsrc.testBit i = true)
    (hlow : ∀ j, j < i → cs.env.intsrc.testBit j = false) :
    (avr_cpu_do_interrupt cs).env.pc_w =
      0 + (i + 1) * (if avr_feature cs.env AVR_FEATURE_JMP_CALL then 2 else 1) ∧
    (avr_cpu_do_interrupt cs).env.sregI = 0 ∧
    (avr_feature cs.env AVR_FEATURE_3_BYTE_PC = true →
      (avr_cpu_do_interrupt cs).env.sp = toU32 ((cs.env.sp : Int) - 3) ∧
      (avr_cpu_do_interrupt cs).data cs.env.sp = cs.env.pc_w % 256 ∧
      (avr_cpu_do_interrupt cs).data (toU32 ((cs.env.sp : Int) - 1)) =
        cs.env.pc_w / 256 % 256 ∧
      (avr_cpu_do_interrupt cs).data (toU32 ((cs.env.sp : Int) - 2)) =
        cs.env.pc_w / 65536 % 256 ∧
      (∀ a, a ≠ cs.env.sp → a ≠ toU32 ((cs.env.sp : Int) - 1) →
        a ≠ toU32 ((cs.env.sp : Int) - 2) → (avr_cpu_do_interrupt cs).data a = cs.data a)) ∧
    (avr_feature cs.env AVR_FEATURE_3_BYTE_PC = false →
      avr_feature cs.env AVR_FEATURE_2_BYTE_PC = true →
      (avr_cpu_do_interrupt cs).env.sp = toU32 ((cs.env.sp : Int) - 2) ∧
      (avr_cpu_do_interrupt cs).data cs.env.sp = cs.env.pc_w % 256 ∧
      (avr_cpu_do_interrupt cs).data (toU32 ((cs.env.sp : Int) - 1)) =
        cs.env.pc_w / 256 % 256 ∧
      (∀ a, a ≠ cs.env.sp → a ≠ toU32 ((cs.env.sp : Int) - 1) →
        (avr_cpu_do_interrupt cs).data a = cs.data a)) ∧
    (avr_feature cs.env AVR_FEATURE_3_BYTE_PC = false →
      avr_feature cs.env AVR_FEATURE_2_BYTE_PC = false →
      (avr_cpu_do_interrupt cs).env.sp = toU32 ((cs.env.sp : Int) - 1) ∧
      (avr_cpu_do_interrupt cs).data cs.env.sp = cs.env.pc_w % 256 ∧
      (∀ a, a ≠ cs.env.sp → (avr_cpu_do_interrupt cs).data a = cs.data a)) ∧
    (∀ n : Nat, n ≤ cs.env.sp → cs.env.sp < 4294967296 →
      toU32 ((cs.env.sp : Int) - (n : Int)) = cs.env.sp - n) := by
  have hsrc : cs.env.intsrc ≠ 0 := by
    intro h0
    rw [h0, Nat.zero_testBit] at hbit
    exact Bool.noConfusion hbit
  have hctz := ctz32_eq cs.env.intsrc i hi hbit hlow
  have hpush := do_interrupt_push cs
  have hs1 := toU32_sub_one_ne cs.env.sp
  have hs2 := toU32_sub_two_ne cs.env.sp
  have hss := toU32_sub_sub cs.env.sp
  refine ⟨?_, rfl, ?_, ?_, ?_, fun n hn hsp => toU32_sub_exact cs.env.sp n hn hsp⟩
  · rw [(do_interrupt_pc cs).1, if_neg hex, if_pos hsrc, hctz]
    by_cases hj : avr_feature cs.env AVR_FEATURE_JMP_CALL = true
    · rw [if_pos hj, if_pos hj]; unfold toU32; omega
    · rw [if_neg hj, if_neg hj]; unfold toU32; omega
  · intro h3
    rw [if_pos h3] at hpush
    have hsp := congrArg Prod.fst hpush
    have hd := congrArg Prod.snd hpush
    simp only at hsp hd
    rw [hsp, hd, ← hss.1]
    refine ⟨hss.2, ?_, ?_, ?_, ?_⟩
    · unfold cpu_stb_data
      rw [if_neg hs2.1.symm, if_neg hs1.symm, if_pos rfl, byte0_eq]
    · unfold cpu_stb_data
      rw [if_neg hs2.2.symm, if_pos rfl, byte1_eq]
    · unfold cpu_stb_data
      rw [if_pos rfl, byte2_eq]
    · intro a h0 h1 h2
      unfold cpu_stb_data
      rw [if_neg h2, if_neg h1, if_neg h0]
  · intro h3 h2
    rw [Bool.eq_false_iff] at h3
    rw [if_neg h3, if_pos h2] at hpush
    have hsp := congrArg Prod.fst hpush
    have hd := congrArg Prod.snd hpush
    simp only at hsp hd
    rw [hsp, hd]
    refine ⟨hss.1, ?_, ?_, ?_⟩
    · unfold cpu_stb_data
      rw [if_neg hs1.symm, if_pos rfl, byte0_eq]
    · unfold cpu_stb_data
      rw [if_pos rfl, byte1_eq]
    · intro a h0 h1
      unfold cpu_stb_data
      rw [if_neg h1, if_neg h0]
  · intro h3 h2
    rw [Bool.eq_false_iff] at h3 h2
    rw [if_neg h3, if_neg h2] at hpush
    have hsp := congrArg Prod.fst hpush
    have hd := congrArg Prod.snd hpush
    simp only at hsp hd
    rw [hsp, hd]
    refine ⟨rfl, ?_, ?_⟩
    · unfold cpu_stb_data
      rw [if_pos rfl, byte0_eq]
    · intro a h0
      unfold cpu_stb_data
      rw [if_neg h0]

theorem do_interrupt_entry_witness :
    ({ twoSourceCpu with exception_index := EXCP_INT 1 } : CPUState).exception_index
      ≠ EXCP_RESET ∧
    (avr_cpu_do_interrupt { twoSourceCpu with exception_index := EXCP_INT 1 }).env.pc_w =
      0 + (1 + 1) *
        (if avr_feature ({ twoSourceCpu with exception_index := EXCP_INT 1 } : CPUState).env
          AVR_FEATURE_JMP_CALL then 2 else 1) ∧
    (avr_cpu_do_interrupt { twoSourceCpu with exception_index := EXCP_INT 1 }).env.pc_w = 4 ∧
    (avr_cpu_do_interrupt { twoSourceCpu with exception_index := EXCP_INT 1 }).env.sp = 0x21fd ∧
    (avr_cpu_do_interrupt { twoSourceCpu with exception_index := EXCP_INT 1 }).data 0x21ff
      = 0x34 ∧
    (avr_cpu_do_interrupt { twoSourceCpu with exception_index := EXCP_INT 1 }).data 0x21fe
      = 0x12 :=
  ⟨by decide,
    (do_interrupt_entry { twoSourceCpu with exception_index := EXCP_INT 1 } 1 (by decide)
      (by decide) (by decide) (by decide)).1,
    by decide, by decide, by decide, by decide⟩

/-! ## Reset and the interrupt enable flag -/

/-- With the global interrupt flag clear, `avr_cpu_exec_interrupt` does
nothing, whatever is requested. -/
theorem exec_interrupt_masked (cs : CPUState) (req : Int)
    (hen : cpu_interrupts_enabled cs.env = false) :
    avr_cpu_exec_interrupt cs req = (false, cs) := by
  unfold avr_cpu_exec_interrupt
  simp only [hen, Bool.false_eq_true, if_false, false_and, ite_self]

/-- With the global interrupt flag set and a reset requested,
`avr_cpu_exec_interrupt` runs `avr_cpu_do_interrupt` on the reset exception,
withdraws the reset request and dispatches nothing else. -/
theorem exec_interrupt_reset_eq (cs : CPUState) (req : Int)
    (hreq : toU32 req &&& CPU_INTERRUPT_RESET ≠ 0)
    (hen : cpu_interrupts_enabled cs.env = true) :
    avr_cpu_exec_interrupt cs req =
      (true,
        { avr_cpu_do_interrupt { cs with exception_index := EXCP_RESET } with
          interrupt_request :=
            cs.interrupt_request &&& (4294967295 - CPU_INTERRUPT_RESET) }) := by
  have hoff : cpu_interrupts_enabled
      ({ avr_cpu_do_interrupt { cs with exception_index := EXCP_RESET } with
          interrupt_request :=
            (avr_cpu_do_interrupt { cs with exception_index := EXCP_RESET }).interrupt_request
              &&& (4294967295 - CPU_INTERRUPT_RESET) } : CPUState).env = false := rfl
  unfold avr_cpu_exec_interrupt
  simp only [hreq, ne_eq, not_false_eq_true, if_true, hen, hoff, Bool.false_eq_true,
    false_and, if_false, ite_self]
  rfl

/-- C22 (the claim fails as stated): on `maskedResetCpu` (global interrupt
flag clear, reset requested) `avr_cpu_exec_interrupt` returns false and
leaves the program counter at 0x1234 and the reset request standing. -/
theorem reset_masked_counterexample :
    maskedResetCpu.env.sregI = 0 ∧
    toU32 (CPU_INTERRUPT_RESET : Nat) &&& CPU_INTERRUPT_RESET ≠ 0 ∧
    (avr_cpu_exec_interrupt maskedResetCpu (CPU_INTERRUPT_RESET : Nat)).1 = false ∧
    (avr_cpu_exec_interrupt maskedResetCpu (CPU_INTERRUPT_RESET : Nat)).2.env.pc_w = 0x1234 ∧
    (avr_cpu_exec_interrupt maskedResetCpu (CPU_INTERRUPT_RESET : Nat)).2.env.pc_w ≠ 0 ∧
    (avr_cpu_exec_interrupt maskedResetCpu (CPU_INTERRUPT_RESET : Nat)).2.interrupt_request
      = CPU_INTERRUPT_RESET := by
  decide

/-- C22 (amended): a requested reset is taken only under the global interrupt
flag.  With the flag set, `avr_cpu_exec_interrupt` sets `pc_w` to 0, clears
the reset request and returns true, in preference to any pending hardware
source (`intsrc` is left as it was and the flag is cleared); with the flag
clear it returns false and changes nothing. -/
theorem exec_interrupt_reset (cs : CPUState) (req : Int)
    (hreq : toU32 req &&& CPU_INTERRUPT_RESET ≠ 0) :
    (cpu_interrupts_enabled cs.env = true →
      (avr_cpu_exec_interrupt cs req).1 = true ∧
      (avr_cpu_exec_interrupt cs req).2.env.pc_w = 0 ∧
      (avr_cpu_exec_interrupt cs req).2.interrupt_request =
        cs.interrupt_request &&& (4294967295 - CPU_INTERRUPT_RESET) ∧
      (avr_cpu_exec_interrupt cs req).2.interrupt_request &&& CPU_INTERRUPT_RESET = 0 ∧
      (avr_cpu_exec_interrupt cs req).2.env.intsrc = cs.env.intsrc ∧
      (avr_cpu_exec_interrupt cs req).2.env.sregI = 0) ∧
    (cpu_interrupts_enabled cs.env = false →
      avr_cpu_exec_interrupt cs req = (false, cs)) := by
  refine ⟨fun hen => ?_, fun hen => exec_interrupt_masked cs req hen⟩
  rw [exec_interrupt_reset_eq cs req hreq hen]
  refine ⟨rfl, ?_, rfl, ?_, rfl, rfl⟩
  · exact ((do_interrupt_pc { cs with exception_index := EXCP_RESET }).1).trans
      (by rw [if_pos rfl, zero_mul]; rfl)
  · show cs.interrupt_request &&& (4294967295 - CPU_INTERRUPT_RESET) &&& CPU_INTERRUPT_RESET = 0
    rw [Nat.and_assoc]
    have : (4294967295 - CPU_INTERRUPT_RESET) &&& CPU_INTERRUPT_RESET = 0 := by decide
    rw [this, Nat.and_zero]

theorem exec_interrupt_reset_witness :
    toU32 (0x0402 : Int) &&& CPU_INTERRUPT_RESET ≠ 0 ∧
    cpu_interrupts_enabled twoSourceCpu.env = true ∧
    (avr_cpu_exec_interrupt twoSourceCpu 0x0402).1 = true ∧
    (avr_cpu_exec_interrupt twoSourceCpu 0x0402).2.env.pc_w = 0 ∧
    (avr_cpu_exec_interrupt twoSourceCpu 0x0402).2.env.intsrc = 6 :=
  ⟨by decide, by decide,
    ((exec_interrupt_reset twoSourceCpu 0x0402 (by decide)).1 (by decide)).1,
    ((exec_interrupt_reset twoSourceCpu 0x0402 (by decide)).1 (by decide)).2.1,
    by decide⟩

/-! ## Two pending sources -/

/-- With nothing requested, `avr_cpu_exec_interrupt` does nothing. -/
theorem exec_interrupt_no_request (cs : CPUState) :
    avr_cpu_exec_interrupt cs ((0 : Nat) : Int) = (false, cs) := by
  have h1 : toU32 ((0 : Nat) : Int) &&& CPU_INTERRUPT_RESET = 0 := by decide
  have h2 : toU32 ((0 : Nat) : Int) &&& CPU_INTERRUPT_HARD = 0 := by decide
  unfold avr_cpu_exec_interrupt
  simp only [h1, h2, ne_eq, not_true_eq_false, if_false]

/-- C23 (the code at the failing input): on `twoSourceCpu` (sources 1 and 2
pending, global interrupt flag set, hardware interrupt requested) one call
of `avr_cpu_exec_interrupt` dispatches source 1 only and leaves bit 2 of
`intsrc` set, but withdraws `CPU_INTERRUPT_HARD` from the stored
`interrupt_request`.  After the handler has returned (flag set again, no new
IRQ edge) the next call on the stored `interrupt_request` returns false and
dispatches nothing: source 2 stays pending and `pc_w` is not moved to its
vector (address 6).  The same holds for every CPU state that carries the
stored `interrupt_request` the first call has left, whatever the handler did
to the other registers. -/
theorem second_source_not_dispatched :
    (∀ cs : CPUState, cs.interrupt_request = twoSourceCpuDispatched.interrupt_request →
      avr_cpu_exec_interrupt cs (cs.interrupt_request : Int) = (false, cs)) ∧
    twoSourceCpu.env.intsrc = 6 ∧ twoSourceCpu.env.sregI = 1 ∧
    twoSourceCpu.interrupt_request = CPU_INTERRUPT_HARD ∧
    (avr_cpu_exec_interrupt twoSourceCpu (twoSourceCpu.interrupt_request : Int)).1 = true ∧
    twoSourceCpuDispatched.env.pc_w = (1 + 1) * 2 ∧
    twoSourceCpuDispatched.env.intsrc = 4 ∧
    twoSourceCpuDispatched.env.sregI = 0 ∧
    twoSourceCpuDispatched.interrupt_request = 0 ∧
    twoSourceCpuReturned.env.sregI = 1 ∧
    twoSourceCpuReturned.env.intsrc = 4 ∧
    twoSourceCpuReturned.interrupt_request = 0 ∧
    (avr_cpu_exec_interrupt twoSourceCpuReturned
      (twoSourceCpuReturned.interrupt_request : Int)).1 = false ∧
    (avr_cpu_exec_interrupt twoSourceCpuReturned
      (twoSourceCpuReturned.interrupt_request : Int)).2.env.pc_w = 4 ∧
    (avr_cpu_exec_interrupt twoSourceCpuReturned
      (twoSourceCpuReturned.interrupt_request : Int)).2.env.pc_w ≠ (2 + 1) * 2 ∧
    (avr_cpu_exec_interrupt twoSourceCpuReturned
      (twoSourceCpuReturned.interrupt_request : Int)).2.env.intsrc = 4 ∧
    (avr_cpu_exec_interrupt twoSourceCpuReturned
      (CPU_INTERRUPT_HARD : Nat)).2.env.pc_w = (2 + 1) * 2 := by
  refine ⟨fun cs h => ?_, by decide⟩
  have h0 : twoSourceCpuDispatched.interrupt_request = 0 := by decide
  rw [h, h0]
  exact exec_interrupt_no_request cs

end AvrCpu
